import Mathlib

/-!
# Floating Sandbox: the simulation World and the ship render context

A shallow embedding of `Game/World.cpp` and of the draw orchestration of
`Game/ShipRenderContext.cpp`, followed by theorems about the embedded functions.

Conventions of the embedding:

* `std::vector` is a `List`, with `push_back` appending at the end, so that the
  position of a ship in `mAllShips` is its insertion index;
* `float` quantities are rationals (exact arithmetic), except where a comparison of
  computed `float` values decides what a function returns (`World::GetNearestPointAt`):
  there the operations round as single precision does;
* unsigned machine integers are naturals, reduced modulo `2 ^ width` wherever the
  source converts into or increments a fixed-width type;
* a member function that mutates its object takes the old object and returns the new
  one, together with the C++ return value when there is one;
* a failed `assert` is the result `none`.

Everything `World.cpp` calls but does not define (the `Ship` class, `ShipBuilder`, the
environment sub-simulations, the constants of `GameParameters` and `GameTypes`) is
gathered in the structure `Collaborators`, and every definition and theorem is
parametric in it. What `World::Render` reads from the render context and from the
collaborating classes is gathered in `RenderCollaborators`.
-/

/-! ## Basic types -/

/-- Ship identifiers (`ShipId`), an unsigned integer type. -/
abbrev ShipId := Nat

/-- Indices of the elements of a ship (`ElementIndex`). -/
abbrev ElementIndex := Nat

/-- Visit sequence numbers (`VisitSequenceNumber`), an unsigned integer type. -/
abbrev VisitSequenceNumber := Nat

/-- The vector type `vec2f`, as the member functions receive it: its two components are
finite numbers, held as rationals (every finite value of `float` is one). Its header is
not part of the available sources. -/
structure vec2f where
  x : ℚ
  y : ℚ
deriving DecidableEq

/-- Component-wise addition, `operator+` of `vec2f`. -/
def vec2f.add (a b : vec2f) : vec2f := ⟨a.x + b.x, a.y + b.y⟩

instance : Add vec2f := ⟨vec2f.add⟩

/-- Multiplication by a scalar, `operator*(float)` of `vec2f`. -/
def vec2f.scale (a : vec2f) (k : ℚ) : vec2f := ⟨a.x * k, a.y * k⟩

/-- The scalar product, `vec2f::dot`. -/
def vec2f.dot (a b : vec2f) : ℚ := a.x * b.x + a.y * b.y

/-- The vector type `vec4f`, used for colours. -/
structure vec4f where
  x : ℚ
  y : ℚ
  z : ℚ
  w : ℚ
deriving DecidableEq

/-- The value of `std::numeric_limits<float>::max()`, the largest finite IEEE-754
single precision number `(2 ^ 24 - 1) * 2 ^ 104`. -/
def numeric_limits_float_max : ℚ := 340282346638528859811704183484516925440

/-! ## Single precision arithmetic

`World::GetNearestPointAt` computes a square distance in the type `float` and compares
it with `<`; which point it returns depends on the rounding and on the overflow of that
computation. The type `float` is modelled with its finite values, its infinities and its
NaN, and every operation rounds its exact result to the nearest value of the type, ties to
even, as IEEE 754 single precision does. The two zeros are one value here: no operation
modelled tells them apart. -/

/-- A value of the C++ type `float`: a finite number, an infinity or a NaN. -/
inductive float where
  | finite (value : ℚ)
  | posInf
  | negInf
  | nan
deriving DecidableEq

/-- The number of halvings that take `n` below `2`, which is the largest `e` with
`2 ^ e ≤ n` for a positive `n`; `fuel` bounds the number of halvings and is taken as
`n`. -/
def float.floorLog2 : Nat → Nat → Nat
  | 0, _ => 0
  | fuel + 1, n => if n < 2 then 0 else float.floorLog2 fuel (n / 2) + 1

/-- The largest `e` with `2 ^ e ≤ n / d`, for positive `n` and `d`. -/
def float.binade (n d : Nat) : Int :=
  let k : Int := (float.floorLog2 n n : Int) - (float.floorLog2 d d : Int)
  if d * 2 ^ k.toNat ≤ n * 2 ^ (-k).toNat then k else k - 1

/-- The integer nearest to `n / d`, the even one of the two when `n / d` is half way. -/
def float.roundHalfEven (n d : Nat) : Nat :=
  let quotient := n / d
  let remainder := n % d
  if 2 * remainder < d then quotient
  else if d < 2 * remainder then quotient + 1
  else if quotient % 2 = 0 then quotient
  else quotient + 1

/-- The positive number `a` rounded to single precision: with `e` the exponent of `a`,
not below the least exponent `-126`, the multiple of `2 ^ (e - 23)` nearest to `a`, ties to
even; `none` when that is beyond the largest finite value (overflow). -/
def float.roundMagnitude (a : ℚ) : Option ℚ :=
  let e : Int := max (float.binade a.num.natAbs a.den) (-126)
  let shift : Int := 23 - e
  let significand : Nat :=
    float.roundHalfEven (a.num.natAbs * 2 ^ shift.toNat) (a.den * 2 ^ (-shift).toNat)
  let rounded : ℚ := mkRat ((significand * 2 ^ (-shift).toNat : Nat) : Int) (2 ^ shift.toNat)
  if numeric_limits_float_max < rounded then none else some rounded

/-- The exact result `q` of an operation, as the `float` the operation gives: rounded to
nearest, ties to even, and an infinity on overflow. -/
def float.round (q : ℚ) : float :=
  if q = 0 then float.finite 0
  else
    match float.roundMagnitude |q| with
    | none => if 0 < q then float.posInf else float.negInf
    | some rounded => float.finite (if 0 < q then rounded else -rounded)

/-- The operator `-` of `float`. -/
def float.sub : float → float → float
  | .finite a, .finite b => float.round (a - b)
  | .nan, _ => .nan
  | _, .nan => .nan
  | .posInf, .posInf => .nan
  | .negInf, .negInf => .nan
  | .posInf, _ => .posInf
  | .negInf, _ => .negInf
  | _, .posInf => .negInf
  | _, .negInf => .posInf

/-- The operator `+` of `float`. -/
def float.add : float → float → float
  | .finite a, .finite b => float.round (a + b)
  | .nan, _ => .nan
  | _, .nan => .nan
  | .posInf, .negInf => .nan
  | .negInf, .posInf => .nan
  | .posInf, _ => .posInf
  | .negInf, _ => .negInf
  | _, .posInf => .posInf
  | _, .negInf => .negInf

/-- The sign of an infinity multiplied by the finite number `b`: NaN for zero. -/
def float.scaleInfinity (positive : Bool) (b : ℚ) : float :=
  if b = 0 then float.nan
  else if (0 < b) = (positive = true) then float.posInf
  else float.negInf

/-- The operator `*` of `float`. -/
def float.mul : float → float → float
  | .finite a, .finite b => float.round (a * b)
  | .nan, _ => .nan
  | _, .nan => .nan
  | .posInf, .finite b => float.scaleInfinity true b
  | .negInf, .finite b => float.scaleInfinity false b
  | .finite a, .posInf => float.scaleInfinity true a
  | .finite a, .negInf => float.scaleInfinity false a
  | .posInf, .posInf => .posInf
  | .negInf, .negInf => .posInf
  | .posInf, .negInf => .negInf
  | .negInf, .posInf => .negInf

/-- The operator `<` of `float`: false whenever an operand is a NaN. -/
def float.lt : float → float → Bool
  | .finite a, .finite b => decide (a < b)
  | .finite _, .posInf => true
  | .negInf, .finite _ => true
  | .negInf, .posInf => true
  | _, _ => false

/-- The operator `<=` of `float`: false whenever an operand is a NaN. -/
def float.le : float → float → Bool
  | .nan, _ => false
  | _, .nan => false
  | .finite a, .finite b => decide (a ≤ b)
  | .negInf, _ => true
  | _, .posInf => true
  | _, _ => false

/-- A `vec2f` that a computation produced: its components are any values of `float`. -/
structure vec2f_computed where
  x : float
  y : float
deriving DecidableEq

/-- Modelled from the spec: the operator `-` of `vec2f`, whose header is not part of the
available sources; the spec has `GetNearestPointAt` keep the minimum squared distance
between the target and the points: component-wise subtraction in `float`, each of the
two subtractions rounded. -/
def vec2f.sub (a b : vec2f) : vec2f_computed :=
  ⟨float.sub (float.finite a.x) (float.finite b.x),
    float.sub (float.finite a.y) (float.finite b.y)⟩

/-- Modelled from the spec: member `vec2f::squareLength()`, whose header is not part of
the available sources; the spec calls what `GetNearestPointAt` compares the squared
distance: `x * x + y * y` in `float`, each of the three operations rounded. -/
def vec2f_computed.squareLength (v : vec2f_computed) : float :=
  float.add (float.mul v.x v.x) (float.mul v.y v.y)

/-- An `ObjectId`: the id of a ship and the index of an object local to that ship, as
built by `ObjectId(ship->GetId(), shipBestPointIndex)`. -/
structure ObjectId where
  shipId : ShipId
  localObjectId : ElementIndex
deriving DecidableEq

namespace Physics

/-! ## Collaborators of the World -/

/-- Everything `World.cpp` uses and does not define. The types are those of the
collaborating classes; the functions are their member functions, each taking the
arguments of the C++ call in the order of the call, followed by the object it is
called on, and returning the C++ result and (for a non-`const` member) the new state
of the object. A ship operation is a function of its arguments and of the state of
the ship it is called on: the states of different ships are disjoint. -/
structure Collaborators where
  /-- The class `Ship`. -/
  Ship : Type
  /-- The class `Stars`. -/
  Stars : Type
  /-- The class `Clouds`. -/
  Clouds : Type
  /-- The class `WaterSurface`. -/
  WaterSurface : Type
  /-- The class `OceanFloor`. -/
  OceanFloor : Type
  /-- The class `Wind`. -/
  Wind : Type
  /-- The class `GameParameters`. -/
  GameParameters : Type
  /-- The class `ShipDefinition`. -/
  ShipDefinition : Type
  /-- The class `MaterialDatabase`. -/
  MaterialDatabase : Type
  /-- The class `ResourceLoader`. -/
  ResourceLoader : Type
  /-- The interface `IGameEventHandler`. -/
  GameEventHandler : Type
  /-- The class `Render::RenderContext`. -/
  RenderContext : Type
  /-- Width in bits of the unsigned type `ShipId`. -/
  ShipIdBits : Nat
  /-- Width in bits of the unsigned type `VisitSequenceNumber`. -/
  VisitSequenceNumberBits : Nat
  /-- The reserved value `NoneVisitSequenceNumber`. -/
  NoneVisitSequenceNumber : VisitSequenceNumber
  /-- The reserved value `NoneElementIndex`. -/
  NoneElementIndex : ElementIndex
  /-- The constant `GameParameters::SimulationStepTimeDuration<float>`. -/
  SimulationStepTimeDuration : ℚ
  /-- Default construction of `mStars`. -/
  Stars_new : Stars
  /-- Default construction of `mClouds`. -/
  Clouds_new : Clouds
  /-- Default construction of `mWaterSurface`. -/
  WaterSurface_new : WaterSurface
  /-- Construction `mOceanFloor(resourceLoader)`. -/
  OceanFloor_new : ResourceLoader → OceanFloor
  /-- Construction `mWind(gameEventHandler)`. -/
  Wind_new : GameEventHandler → Wind
  /-- Member `Stars::Update(gameParameters)`. -/
  Stars_Update : GameParameters → Stars → Stars
  /-- Member `Wind::Update(gameParameters)`. -/
  Wind_Update : GameParameters → Wind → Wind
  /-- Member `Clouds::Update(currentSimulationTime, gameParameters)`. -/
  Clouds_Update : ℚ → GameParameters → Clouds → Clouds
  /-- Member `WaterSurface::Update(currentSimulationTime, wind, gameParameters)`. -/
  WaterSurface_Update : ℚ → Wind → GameParameters → WaterSurface → WaterSurface
  /-- Member `OceanFloor::Update(gameParameters)`. -/
  OceanFloor_Update : GameParameters → OceanFloor → OceanFloor
  /-- Member `OceanFloor::AdjustTo(x, targetY)`. -/
  OceanFloor_AdjustTo : ℚ → ℚ → OceanFloor → Bool × OceanFloor
  /-- Member `ShipBuilder::Create(shipId, parentWorld, gameEventHandler, shipDefinition,
  materialDatabase, gameParameters, initialVisitSequenceNumber)`; the reference to the
  parent world is left out. -/
  ShipBuilder_Create : ShipId → GameEventHandler → ShipDefinition → MaterialDatabase →
    GameParameters → VisitSequenceNumber → Ship
  /-- Member `Ship::GetId()`. -/
  Ship_GetId : Ship → ShipId
  /-- Member `Ship::GetPointCount()`. -/
  Ship_GetPointCount : Ship → Nat
  /-- Member `Ship::GetPoints().GetPosition(pointIndex)`. -/
  Ship_GetPointPosition : Ship → ElementIndex → vec2f
  /-- Member `Ship::MoveBy(offset, gameParameters)`. -/
  Ship_MoveBy : vec2f → GameParameters → Ship → Ship
  /-- Member `Ship::RotateBy(angle, center, gameParameters)`. -/
  Ship_RotateBy : ℚ → vec2f → GameParameters → Ship → Ship
  /-- Member `Ship::DestroyAt(targetPos, radiusMultiplier, currentSimulationTime,
  gameParameters)`. -/
  Ship_DestroyAt : vec2f → ℚ → ℚ → GameParameters → Ship → Ship
  /-- Member `Ship::SawThrough(startPos, endPos, currentSimulationTime, gameParameters)`. -/
  Ship_SawThrough : vec2f → vec2f → ℚ → GameParameters → Ship → Ship
  /-- Member `Ship::DrawTo(targetPos, strength, gameParameters)`. -/
  Ship_DrawTo : vec2f → ℚ → GameParameters → Ship → Ship
  /-- Member `Ship::SwirlAt(targetPos, strength, gameParameters)`. -/
  Ship_SwirlAt : vec2f → ℚ → GameParameters → Ship → Ship
  /-- Member `Ship::TogglePinAt(targetPos, gameParameters)`. -/
  Ship_TogglePinAt : vec2f → GameParameters → Ship → Bool × Ship
  /-- Member `Ship::InjectBubblesAt(targetPos, currentSimulationTime, gameParameters)`. -/
  Ship_InjectBubblesAt : vec2f → ℚ → GameParameters → Ship → Bool × Ship
  /-- Member `Ship::FloodAt(targetPos, waterQuantityMultiplier, searchRadius,
  gameParameters)`. -/
  Ship_FloodAt : vec2f → ℚ → ℚ → GameParameters → Ship → Bool × Ship
  /-- Member `Ship::ToggleAntiMatterBombAt(targetPos, gameParameters)`. -/
  Ship_ToggleAntiMatterBombAt : vec2f → GameParameters → Ship → Bool × Ship
  /-- Member `Ship::ToggleImpactBombAt(targetPos, gameParameters)`. -/
  Ship_ToggleImpactBombAt : vec2f → GameParameters → Ship → Bool × Ship
  /-- Member `Ship::ToggleRCBombAt(targetPos, gameParameters)`. -/
  Ship_ToggleRCBombAt : vec2f → GameParameters → Ship → Bool × Ship
  /-- Member `Ship::ToggleTimerBombAt(targetPos, gameParameters)`. -/
  Ship_ToggleTimerBombAt : vec2f → GameParameters → Ship → Bool × Ship
  /-- Member `Ship::DetonateRCBombs()`. -/
  Ship_DetonateRCBombs : Ship → Ship
  /-- Member `Ship::DetonateAntiMatterBombs()`. -/
  Ship_DetonateAntiMatterBombs : Ship → Ship
  /-- Member `Ship::GetNearestPointAt(targetPos, radius)`, a `const` member. -/
  Ship_GetNearestPointAt : vec2f → ℚ → Ship → ElementIndex
  /-- Member `Ship::QueryNearestPointAt(targetPos, radius)`, a `const` member. -/
  Ship_QueryNearestPointAt : vec2f → ℚ → Ship → Bool
  /-- Member `Ship::Update(currentSimulationTime, visitSequenceNumber, gameParameters,
  renderContext)`. -/
  Ship_Update : ℚ → VisitSequenceNumber → GameParameters → RenderContext → Ship → Ship

/-! ## The World -/

/-- The data members of `Physics::World`. -/
structure World (C : Collaborators) where
  mAllShips : List C.Ship
  mStars : C.Stars
  mClouds : C.Clouds
  mWaterSurface : C.WaterSurface
  mOceanFloor : C.OceanFloor
  mWind : C.Wind
  mCurrentSimulationTime : ℚ
  mCurrentVisitSequenceNumber : VisitSequenceNumber
  mGameEventHandler : C.GameEventHandler

variable {C : Collaborators}

/-- The constructor `World::World(gameEventHandler, gameParameters, resourceLoader)`:
the member initialisers, then the first update of the world pieces. -/
def World.new (gameEventHandler : C.GameEventHandler) (gameParameters : C.GameParameters)
    (resourceLoader : C.ResourceLoader) : World C :=
  let mCurrentSimulationTime : ℚ := 0
  let mStars := C.Stars_Update gameParameters C.Stars_new
  let mWind := C.Wind_Update gameParameters (C.Wind_new gameEventHandler)
  let mClouds := C.Clouds_Update mCurrentSimulationTime gameParameters C.Clouds_new
  let mWaterSurface :=
    C.WaterSurface_Update mCurrentSimulationTime mWind gameParameters C.WaterSurface_new
  let mOceanFloor := C.OceanFloor_Update gameParameters (C.OceanFloor_new resourceLoader)
  { mAllShips := []
    mStars := mStars
    mClouds := mClouds
    mWaterSurface := mWaterSurface
    mOceanFloor := mOceanFloor
    mWind := mWind
    mCurrentSimulationTime := mCurrentSimulationTime
    mCurrentVisitSequenceNumber := 1
    mGameEventHandler := gameEventHandler }

/-- Member `World::AddShip`: the id is `static_cast<ShipId>(mAllShips.size()) + 1`, computed
in the unsigned type `ShipId`; the new ship is pushed at the back. Returns the id and
the new world. -/
def World.AddShip (w : World C) (shipDefinition : C.ShipDefinition)
    (materialDatabase : C.MaterialDatabase) (gameParameters : C.GameParameters) :
    ShipId × World C :=
  let shipId : ShipId := (w.mAllShips.length % 2 ^ C.ShipIdBits + 1) % 2 ^ C.ShipIdBits
  let ship := C.ShipBuilder_Create shipId w.mGameEventHandler shipDefinition
    materialDatabase gameParameters w.mCurrentVisitSequenceNumber
  (shipId, { w with mAllShips := w.mAllShips ++ [ship] })

/-- Member `World::GetShipCount`. -/
def World.GetShipCount (w : World C) : Nat := w.mAllShips.length

/-- Member `World::GetShipPointCount`; `none` when the assertion on `shipId` fails. -/
def World.GetShipPointCount (w : World C) (shipId : ShipId) : Option Nat :=
  if 0 < shipId ∧ shipId ≤ w.mAllShips.length then
    (w.mAllShips.get? (shipId - 1)).map C.Ship_GetPointCount
  else none

/-- Member `World::MoveBy`; `none` when the assertion on `shipId` fails. -/
def World.MoveBy (w : World C) (shipId : ShipId) (offset : vec2f)
    (gameParameters : C.GameParameters) : Option (World C) :=
  if 0 < shipId ∧ shipId ≤ w.mAllShips.length then
    some { w with
      mAllShips := w.mAllShips.modify (C.Ship_MoveBy offset gameParameters) (shipId - 1) }
  else none

/-- Member `World::RotateBy`; `none` when the assertion on `shipId` fails. -/
def World.RotateBy (w : World C) (shipId : ShipId) (angle : ℚ) (center : vec2f)
    (gameParameters : C.GameParameters) : Option (World C) :=
  if 0 < shipId ∧ shipId ≤ w.mAllShips.length then
    some { w with
      mAllShips :=
        w.mAllShips.modify (C.Ship_RotateBy angle center gameParameters) (shipId - 1) }
  else none

/-- The loop `for (auto & ship : mAllShips) { ship->op(...); }`: the operation is
applied to the ships one after the other, from the first to the last. -/
def forEachShip {Ship : Type} (op : Ship → Ship) : List Ship → List Ship
  | [] => []
  | ship :: later => op ship :: forEachShip op later

/-- Member `World::DestroyAt`. -/
def World.DestroyAt (w : World C) (targetPos : vec2f) (radiusMultiplier : ℚ)
    (gameParameters : C.GameParameters) : World C :=
  { w with
    mAllShips := forEachShip
      (C.Ship_DestroyAt targetPos radiusMultiplier w.mCurrentSimulationTime gameParameters)
      w.mAllShips }

/-- Member `World::SawThrough`. -/
def World.SawThrough (w : World C) (startPos endPos : vec2f)
    (gameParameters : C.GameParameters) : World C :=
  { w with
    mAllShips := forEachShip
      (C.Ship_SawThrough startPos endPos w.mCurrentSimulationTime gameParameters)
      w.mAllShips }

/-- Member `World::DrawTo`. -/
def World.DrawTo (w : World C) (targetPos : vec2f) (strength : ℚ)
    (gameParameters : C.GameParameters) : World C :=
  { w with
    mAllShips := forEachShip (C.Ship_DrawTo targetPos strength gameParameters) w.mAllShips }

/-- Member `World::SwirlAt`. -/
def World.SwirlAt (w : World C) (targetPos : vec2f) (strength : ℚ)
    (gameParameters : C.GameParameters) : World C :=
  { w with
    mAllShips := forEachShip (C.Ship_SwirlAt targetPos strength gameParameters) w.mAllShips }

/-- The loop
`for (auto it = mAllShips.rbegin(); it != mAllShips.rend(); ++it) if ((*it)->op(...)) return true;`
followed by `return false`, run on the list of the ships still to be visited, the
last inserted one at the head. Every visited ship is left in the state its operation
produced; a ship not reached is untouched. Returns whether the loop was left through
its `return`, and the ships in the same (reversed) order. -/
def searchFromLast {Ship : Type} (op : Ship → Bool × Ship) : List Ship → Bool × List Ship
  | [] => (false, [])
  | ship :: earlier =>
    if (op ship).1 then (true, (op ship).2 :: earlier)
    else ((searchFromLast op earlier).1, (op ship).2 :: (searchFromLast op earlier).2)

/-- Member `World::TogglePinAt`. -/
def World.TogglePinAt (w : World C) (targetPos : vec2f)
    (gameParameters : C.GameParameters) : World C :=
  { w with
    mAllShips :=
      (searchFromLast (C.Ship_TogglePinAt targetPos gameParameters)
        w.mAllShips.reverse).2.reverse }

/-- Member `World::InjectBubblesAt`. -/
def World.InjectBubblesAt (w : World C) (targetPos : vec2f)
    (gameParameters : C.GameParameters) : Bool × World C :=
  let r := searchFromLast
    (C.Ship_InjectBubblesAt targetPos w.mCurrentSimulationTime gameParameters)
    w.mAllShips.reverse
  (r.1, { w with mAllShips := r.2.reverse })

/-- Member `World::FloodAt`. -/
def World.FloodAt (w : World C) (targetPos : vec2f) (waterQuantityMultiplier : ℚ)
    (searchRadius : ℚ) (gameParameters : C.GameParameters) : Bool × World C :=
  let r := searchFromLast
    (C.Ship_FloodAt targetPos waterQuantityMultiplier searchRadius gameParameters)
    w.mAllShips.reverse
  (r.1, { w with mAllShips := r.2.reverse })

/-- Member `World::ToggleAntiMatterBombAt`. -/
def World.ToggleAntiMatterBombAt (w : World C) (targetPos : vec2f)
    (gameParameters : C.GameParameters) : World C :=
  { w with
    mAllShips :=
      (searchFromLast (C.Ship_ToggleAntiMatterBombAt targetPos gameParameters)
        w.mAllShips.reverse).2.reverse }

/-- Member `World::ToggleImpactBombAt`. -/
def World.ToggleImpactBombAt (w : World C) (targetPos : vec2f)
    (gameParameters : C.GameParameters) : World C :=
  { w with
    mAllShips :=
      (searchFromLast (C.Ship_ToggleImpactBombAt targetPos gameParameters)
        w.mAllShips.reverse).2.reverse }

/-- Member `World::ToggleRCBombAt`. -/
def World.ToggleRCBombAt (w : World C) (targetPos : vec2f)
    (gameParameters : C.GameParameters) : World C :=
  { w with
    mAllShips :=
      (searchFromLast (C.Ship_ToggleRCBombAt targetPos gameParameters)
        w.mAllShips.reverse).2.reverse }

/-- Member `World::ToggleTimerBombAt`. -/
def World.ToggleTimerBombAt (w : World C) (targetPos : vec2f)
    (gameParameters : C.GameParameters) : World C :=
  { w with
    mAllShips :=
      (searchFromLast (C.Ship_ToggleTimerBombAt targetPos gameParameters)
        w.mAllShips.reverse).2.reverse }

/-- Member `World::DetonateRCBombs`. -/
def World.DetonateRCBombs (w : World C) : World C :=
  { w with mAllShips := forEachShip C.Ship_DetonateRCBombs w.mAllShips }

/-- Member `World::DetonateAntiMatterBombs`. -/
def World.DetonateAntiMatterBombs (w : World C) : World C :=
  { w with mAllShips := forEachShip C.Ship_DetonateAntiMatterBombs w.mAllShips }

/-- Member `World::AdjustOceanFloorTo`. -/
def World.AdjustOceanFloorTo (w : World C) (x targetY : ℚ) : Bool × World C :=
  let r := C.OceanFloor_AdjustTo x targetY w.mOceanFloor
  (r.1, { w with mOceanFloor := r.2 })

/-- The two locals of `World::GetNearestPointAt` that its loop updates. -/
structure NearestPointSearch where
  bestPointId : Option ObjectId
  bestSquareDistance : float

/-- One iteration of the loop of `World::GetNearestPointAt`, for the ship `ship`. -/
def World.GetNearestPointAt_visit (C : Collaborators) (targetPos : vec2f) (radius : ℚ)
    (best : NearestPointSearch) (ship : C.Ship) : NearestPointSearch :=
  let shipBestPointIndex := C.Ship_GetNearestPointAt targetPos radius ship
  if C.NoneElementIndex ≠ shipBestPointIndex then
    let squareDistance : float :=
      ((C.Ship_GetPointPosition ship shipBestPointIndex).sub targetPos).squareLength
    if float.lt squareDistance best.bestSquareDistance = true then
      { bestPointId := some (ObjectId.mk (C.Ship_GetId ship) shipBestPointIndex)
        bestSquareDistance := squareDistance }
    else best
  else best

/-- Member `World::GetNearestPointAt`: the ships are scanned from the first to the
last, starting from no point and the best square distance
`std::numeric_limits<float>::max()`. -/
def World.GetNearestPointAt (w : World C) (targetPos : vec2f) (radius : ℚ) :
    Option ObjectId :=
  (w.mAllShips.foldl (World.GetNearestPointAt_visit C targetPos radius)
    { bestPointId := none,
      bestSquareDistance := float.finite numeric_limits_float_max }).bestPointId

/-- The test `NoneElementIndex != shipBestPointIndex` of `World::GetNearestPointAt` for
the ship `ship`: the ship reports a nearest point. -/
abbrev World.shipReportsPoint (C : Collaborators) (targetPos : vec2f) (radius : ℚ)
    (ship : C.Ship) : Prop :=
  C.NoneElementIndex ≠ C.Ship_GetNearestPointAt targetPos radius ship

/-- The value of `squareDistance` in `World::GetNearestPointAt` for the ship `ship`:
the square distance, as computed in `float`, between the target and the point the ship
reports. -/
def World.shipSquareDistance (C : Collaborators) (targetPos : vec2f) (radius : ℚ)
    (ship : C.Ship) : float :=
  ((C.Ship_GetPointPosition ship (C.Ship_GetNearestPointAt targetPos radius ship)).sub
    targetPos).squareLength

/-- The value `ObjectId(ship->GetId(), shipBestPointIndex)` that
`World::GetNearestPointAt` builds for the ship `ship`. -/
def World.shipPointId (C : Collaborators) (targetPos : vec2f) (radius : ℚ)
    (ship : C.Ship) : ObjectId :=
  ObjectId.mk (C.Ship_GetId ship) (C.Ship_GetNearestPointAt targetPos radius ship)

/-- The increment of the visit sequence number in `World::Update`:
`++mCurrentVisitSequenceNumber`, in the unsigned type of the counter, then the reset
to `1u` when the reserved value is hit. -/
def World.nextVisitSequenceNumber (C : Collaborators) (current : VisitSequenceNumber) :
    VisitSequenceNumber :=
  let incremented := (current + 1) % 2 ^ C.VisitSequenceNumberBits
  if C.NoneVisitSequenceNumber = incremented then 1 else incremented

/-- Member `World::Update`. -/
def World.Update (w : World C) (gameParameters : C.GameParameters)
    (renderContext : C.RenderContext) : World C :=
  let mCurrentSimulationTime := w.mCurrentSimulationTime + C.SimulationStepTimeDuration
  let mCurrentVisitSequenceNumber :=
    World.nextVisitSequenceNumber C w.mCurrentVisitSequenceNumber
  let mStars := C.Stars_Update gameParameters w.mStars
  let mWind := C.Wind_Update gameParameters w.mWind
  let mClouds := C.Clouds_Update mCurrentSimulationTime gameParameters w.mClouds
  let mWaterSurface :=
    C.WaterSurface_Update mCurrentSimulationTime mWind gameParameters w.mWaterSurface
  let mOceanFloor := C.OceanFloor_Update gameParameters w.mOceanFloor
  { w with
    mAllShips := forEachShip
      (C.Ship_Update mCurrentSimulationTime mCurrentVisitSequenceNumber gameParameters
        renderContext)
      w.mAllShips
    mStars := mStars
    mClouds := mClouds
    mWaterSurface := mWaterSurface
    mOceanFloor := mOceanFloor
    mWind := mWind
    mCurrentSimulationTime := mCurrentSimulationTime
    mCurrentVisitSequenceNumber := mCurrentVisitSequenceNumber }

/-! ### Sequences of calls

The state-changing public member functions of `World`, as data, so that statements can
range over every sequence of calls. The remaining public members (`GetShipCount`,
`GetShipPointCount`, `GetNearestPointAt`, `QueryNearestPointAt`, `Render`) are `const`
and leave the world as it is. -/

/-- A call of a state-changing public member function of `World`, with its arguments. -/
inductive World.Call (C : Collaborators) where
  | AddShip (shipDefinition : C.ShipDefinition) (materialDatabase : C.MaterialDatabase)
      (gameParameters : C.GameParameters)
  | MoveBy (shipId : ShipId) (offset : vec2f) (gameParameters : C.GameParameters)
  | RotateBy (shipId : ShipId) (angle : ℚ) (center : vec2f)
      (gameParameters : C.GameParameters)
  | DestroyAt (targetPos : vec2f) (radiusMultiplier : ℚ) (gameParameters : C.GameParameters)
  | SawThrough (startPos endPos : vec2f) (gameParameters : C.GameParameters)
  | DrawTo (targetPos : vec2f) (strength : ℚ) (gameParameters : C.GameParameters)
  | SwirlAt (targetPos : vec2f) (strength : ℚ) (gameParameters : C.GameParameters)
  | TogglePinAt (targetPos : vec2f) (gameParameters : C.GameParameters)
  | InjectBubblesAt (targetPos : vec2f) (gameParameters : C.GameParameters)
  | FloodAt (targetPos : vec2f) (waterQuantityMultiplier : ℚ) (searchRadius : ℚ)
      (gameParameters : C.GameParameters)
  | ToggleAntiMatterBombAt (targetPos : vec2f) (gameParameters : C.GameParameters)
  | ToggleImpactBombAt (targetPos : vec2f) (gameParameters : C.GameParameters)
  | ToggleRCBombAt (targetPos : vec2f) (gameParameters : C.GameParameters)
  | ToggleTimerBombAt (targetPos : vec2f) (gameParameters : C.GameParameters)
  | DetonateRCBombs
  | DetonateAntiMatterBombs
  | AdjustOceanFloorTo (x targetY : ℚ)
  | Update (gameParameters : C.GameParameters) (renderContext : C.RenderContext)

/-- What a call hands back to its caller. -/
inductive World.Returned where
  | void
  | shipId (id : ShipId)
  | bool (b : Bool)
deriving DecidableEq

/-- Performs one call: the value handed back and the world after the call, or `none`
when an assertion of the member function fails. -/
def World.call (w : World C) : World.Call C → Option (World.Returned × World C)
  | .AddShip shipDefinition materialDatabase gameParameters =>
    some (.shipId (w.AddShip shipDefinition materialDatabase gameParameters).1,
      (w.AddShip shipDefinition materialDatabase gameParameters).2)
  | .MoveBy shipId offset gameParameters =>
    (w.MoveBy shipId offset gameParameters).map (fun w' => (.void, w'))
  | .RotateBy shipId angle center gameParameters =>
    (w.RotateBy shipId angle center gameParameters).map (fun w' => (.void, w'))
  | .DestroyAt targetPos radiusMultiplier gameParameters =>
    some (.void, w.DestroyAt targetPos radiusMultiplier gameParameters)
  | .SawThrough startPos endPos gameParameters =>
    some (.void, w.SawThrough startPos endPos gameParameters)
  | .DrawTo targetPos strength gameParameters =>
    some (.void, w.DrawTo targetPos strength gameParameters)
  | .SwirlAt targetPos strength gameParameters =>
    some (.void, w.SwirlAt targetPos strength gameParameters)
  | .TogglePinAt targetPos gameParameters =>
    some (.void, w.TogglePinAt targetPos gameParameters)
  | .InjectBubblesAt targetPos gameParameters =>
    some (.bool (w.InjectBubblesAt targetPos gameParameters).1,
      (w.InjectBubblesAt targetPos gameParameters).2)
  | .FloodAt targetPos waterQuantityMultiplier searchRadius gameParameters =>
    some (.bool (w.FloodAt targetPos waterQuantityMultiplier searchRadius gameParameters).1,
      (w.FloodAt targetPos waterQuantityMultiplier searchRadius gameParameters).2)
  | .ToggleAntiMatterBombAt targetPos gameParameters =>
    some (.void, w.ToggleAntiMatterBombAt targetPos gameParameters)
  | .ToggleImpactBombAt targetPos gameParameters =>
    some (.void, w.ToggleImpactBombAt targetPos gameParameters)
  | .ToggleRCBombAt targetPos gameParameters =>
    some (.void, w.ToggleRCBombAt targetPos gameParameters)
  | .ToggleTimerBombAt targetPos gameParameters =>
    some (.void, w.ToggleTimerBombAt targetPos gameParameters)
  | .DetonateRCBombs => some (.void, w.DetonateRCBombs)
  | .DetonateAntiMatterBombs => some (.void, w.DetonateAntiMatterBombs)
  | .AdjustOceanFloorTo x targetY =>
    some (.bool (w.AdjustOceanFloorTo x targetY).1, (w.AdjustOceanFloorTo x targetY).2)
  | .Update gameParameters renderContext =>
    some (.void, w.Update gameParameters renderContext)

/-- Performs a sequence of calls, one after the other, and records for each call the
value it handed back and the world right after it; `none` when some call fails an
assertion. -/
def World.trace (w : World C) : List (World.Call C) → Option (List (World.Returned × World C))
  | [] => some []
  | c :: rest =>
    match w.call c with
    | none => none
    | some (r, w') => (World.trace w' rest).map (fun history => (r, w') :: history)

/-- Performs a sequence of calls and gives the world after the last one; `none` when
some call fails an assertion. -/
def World.run (w : World C) : List (World.Call C) → Option (World C)
  | [] => some w
  | c :: rest =>
    match w.call c with
    | none => none
    | some (_, w') => World.run w' rest

/-- The calls of `AddShip` in a recorded history: for each, the id it returned and the
value of `GetShipCount()` right after it. -/
def World.addShipLog : List (World.Returned × World C) → List (ShipId × Nat)
  | [] => []
  | (.shipId id, w') :: rest => (id, w'.GetShipCount) :: World.addShipLog rest
  | (_, _) :: rest => World.addShipLog rest

/-- Whether a call is a call of `World::Update`. -/
def World.Call.isUpdate : World.Call C → Bool
  | .Update _ _ => true
  | _ => false

/-- One state-changing operation of `Ship` takes the ship from the first state to the
second. -/
inductive Collaborators.ShipOperated (C : Collaborators) : C.Ship → C.Ship → Prop where
  | MoveBy (offset : vec2f) (gameParameters : C.GameParameters) (s : C.Ship) :
    C.ShipOperated s (C.Ship_MoveBy offset gameParameters s)
  | RotateBy (angle : ℚ) (center : vec2f) (gameParameters : C.GameParameters) (s : C.Ship) :
    C.ShipOperated s (C.Ship_RotateBy angle center gameParameters s)
  | DestroyAt (targetPos : vec2f) (radiusMultiplier currentSimulationTime : ℚ)
      (gameParameters : C.GameParameters) (s : C.Ship) :
    C.ShipOperated s
      (C.Ship_DestroyAt targetPos radiusMultiplier currentSimulationTime gameParameters s)
  | SawThrough (startPos endPos : vec2f) (currentSimulationTime : ℚ)
      (gameParameters : C.GameParameters) (s : C.Ship) :
    C.ShipOperated s (C.Ship_SawThrough startPos endPos currentSimulationTime gameParameters s)
  | DrawTo (targetPos : vec2f) (strength : ℚ) (gameParameters : C.GameParameters)
      (s : C.Ship) :
    C.ShipOperated s (C.Ship_DrawTo targetPos strength gameParameters s)
  | SwirlAt (targetPos : vec2f) (strength : ℚ) (gameParameters : C.GameParameters)
      (s : C.Ship) :
    C.ShipOperated s (C.Ship_SwirlAt targetPos strength gameParameters s)
  | TogglePinAt (targetPos : vec2f) (gameParameters : C.GameParameters) (s : C.Ship) :
    C.ShipOperated s (C.Ship_TogglePinAt targetPos gameParameters s).2
  | InjectBubblesAt (targetPos : vec2f) (currentSimulationTime : ℚ)
      (gameParameters : C.GameParameters) (s : C.Ship) :
    C.ShipOperated s
      (C.Ship_InjectBubblesAt targetPos currentSimulationTime gameParameters s).2
  | FloodAt (targetPos : vec2f) (waterQuantityMultiplier searchRadius : ℚ)
      (gameParameters : C.GameParameters) (s : C.Ship) :
    C.ShipOperated s
      (C.Ship_FloodAt targetPos waterQuantityMultiplier searchRadius gameParameters s).2
  | ToggleAntiMatterBombAt (targetPos : vec2f) (gameParameters : C.GameParameters)
      (s : C.Ship) :
    C.ShipOperated s (C.Ship_ToggleAntiMatterBombAt targetPos gameParameters s).2
  | ToggleImpactBombAt (targetPos : vec2f) (gameParameters : C.GameParameters) (s : C.Ship) :
    C.ShipOperated s (C.Ship_ToggleImpactBombAt targetPos gameParameters s).2
  | ToggleRCBombAt (targetPos : vec2f) (gameParameters : C.GameParameters) (s : C.Ship) :
    C.ShipOperated s (C.Ship_ToggleRCBombAt targetPos gameParameters s).2
  | ToggleTimerBombAt (targetPos : vec2f) (gameParameters : C.GameParameters) (s : C.Ship) :
    C.ShipOperated s (C.Ship_ToggleTimerBombAt targetPos gameParameters s).2
  | DetonateRCBombs (s : C.Ship) : C.ShipOperated s (C.Ship_DetonateRCBombs s)
  | DetonateAntiMatterBombs (s : C.Ship) :
    C.ShipOperated s (C.Ship_DetonateAntiMatterBombs s)
  | Update (currentSimulationTime : ℚ) (visitSequenceNumber : VisitSequenceNumber)
      (gameParameters : C.GameParameters) (renderContext : C.RenderContext) (s : C.Ship) :
    C.ShipOperated s
      (C.Ship_Update currentSimulationTime visitSequenceNumber gameParameters renderContext s)

/-- The same ship, later: the second state is the first one after any number of
operations on that ship. In C++ the two are one `Ship` object at two moments. -/
def Collaborators.SameShipLater (C : Collaborators) : C.Ship → C.Ship → Prop :=
  Relation.ReflTransGen C.ShipOperated

/-! ### Rendering the world

`World::Render` and `World::UploadLandAndWater` are `const` members of `World`: they
leave the world as it is and make calls on the render context they are given. The class
`Render::RenderContext` is not part of the available sources. The calls made on the
render context to upload data and to render are recorded, in order and with the
arguments that `World.cpp` computes, so that statements can speak of which calls are made
and in which order; what the settings of the render context are is read from the render
context that `World::Render` is given, `World.cpp` calling no member that sets them. -/

/-- What `World::Render` and `World::UploadLandAndWater` read and `World.cpp` does not
define: the `const` members of `Render::RenderContext` that give its settings, and the
query members of the collaborating classes. -/
structure RenderCollaborators (C : Collaborators) where
  /-- Member `RenderContext::GetShowShipThroughSeaWater()`. -/
  RenderContext_GetShowShipThroughSeaWater : C.RenderContext → Bool
  /-- Member `RenderContext::GetVisibleWorldWidth()`. -/
  RenderContext_GetVisibleWorldWidth : C.RenderContext → ℚ
  /-- Member `RenderContext::GetCameraWorldPosition()`. -/
  RenderContext_GetCameraWorldPosition : C.RenderContext → vec2f
  /-- Member `OceanFloor::GetFloorHeightAt(x)`. -/
  OceanFloor_GetFloorHeightAt : C.OceanFloor → ℚ → ℚ
  /-- Member `WaterSurface::GetWaterHeightAt(x)`. -/
  WaterSurface_GetWaterHeightAt : C.WaterSurface → ℚ → ℚ
  /-- The data member `GameParameters::SeaDepth`. -/
  GameParameters_SeaDepth : C.GameParameters → ℚ

/-- A call that `World::Render` makes on the render context, directly or through
`World::UploadLandAndWater`, with the arguments that `World.cpp` computes:
`mStars.Upload(renderContext)`, `renderContext.UploadLandAndWaterStart(slices)`,
`renderContext.UploadLandAndWater(x, yLand, yWater, restWaterHeight)`,
`renderContext.UploadLandAndWaterEnd()`, `mClouds.Render(renderContext)`,
`renderContext.RenderWater()`, `ship->Render(gameParameters, renderContext)` and
`renderContext.RenderLand()`. -/
inductive World.RenderStep (C : Collaborators) where
  | Stars_Upload
  | UploadLandAndWaterStart (slices : Nat)
  | UploadLandAndWater (x yLand yWater restWaterHeight : ℚ)
  | UploadLandAndWaterEnd
  | Clouds_Render
  | RenderWater
  | Ship_Render (ship : C.Ship)
  | RenderLand

/-- The loop `for (size_t i = 0; i <= SlicesCount; ++i, sliceX += sliceWidth)` of
`World::UploadLandAndWater`, with `iterations` iterations still to go and the current
value of `sliceX`: the calls made, in order. -/
def World.UploadLandAndWater_loop (R : RenderCollaborators C) (w : World C)
    (gameParameters : C.GameParameters) (sliceWidth : ℚ) :
    Nat → ℚ → List (World.RenderStep C)
  | 0, _ => []
  | iterations + 1, sliceX =>
    World.RenderStep.UploadLandAndWater sliceX
        (R.OceanFloor_GetFloorHeightAt w.mOceanFloor sliceX)
        (R.WaterSurface_GetWaterHeightAt w.mWaterSurface sliceX)
        (R.GameParameters_SeaDepth gameParameters)
      :: World.UploadLandAndWater_loop R w gameParameters sliceWidth iterations
          (sliceX + sliceWidth)

/-- The private member `World::UploadLandAndWater`: the calls made on the render
context, in order. The loop runs for `i = 0, ..., SlicesCount`, which is
`SlicesCount + 1` iterations. -/
def World.UploadLandAndWater (R : RenderCollaborators C) (w : World C)
    (gameParameters : C.GameParameters) (renderContext : C.RenderContext) :
    List (World.RenderStep C) :=
  let SlicesCount : Nat := 500
  let visibleWorldWidth := R.RenderContext_GetVisibleWorldWidth renderContext
  let sliceWidth := visibleWorldWidth / (SlicesCount : ℚ)
  let sliceX := (R.RenderContext_GetCameraWorldPosition renderContext).x
    - visibleWorldWidth / 2
  [World.RenderStep.UploadLandAndWaterStart SlicesCount]
    ++ World.UploadLandAndWater_loop R w gameParameters sliceWidth (SlicesCount + 1) sliceX
    ++ [World.RenderStep.UploadLandAndWaterEnd]

end Physics

namespace Render

/-! ## The ship render context: the draw pass of `RenderEnd` -/

/-- Modelled from the spec: the enumeration `ShipRenderMode`, whose declaration is not
part of the available sources; the spec lists its values as Structure and Texture. -/
inductive ShipRenderMode where
  | Structure
  | Texture
deriving DecidableEq

/-- Modelled from the spec: the enumeration `DebugShipRenderMode`, whose declaration is
not part of the available sources; the spec lists its values as None, Points, Springs,
EdgeSprings and Wireframe. -/
inductive DebugShipRenderMode where
  | None
  | Points
  | Springs
  | EdgeSprings
  | Wireframe
deriving DecidableEq

/-- Modelled from the spec: the enumeration `VectorFieldRenderMode`, whose declaration
is not part of the available sources; the spec lists its values as None and further
variants, which are numbered here. -/
inductive VectorFieldRenderMode where
  | None
  | Variant (number : Nat)
deriving DecidableEq

/-- An array of elements on the heap, as allocated by `new T[n]`: the serial number of
the allocation, which tells one array from another, and the number `n` of elements the
array has room for. -/
structure ElementBuffer where
  allocation : Nat
  capacity : Nat
deriving DecidableEq

/-- The record `ConnectedComponentData` kept for each connected component, with the
members `ShipRenderContext.cpp` uses: for each kind of element the number of elements
uploaded, the capacity of the element buffer, the buffer (the array the `unique_ptr`
owns, `none` for a null pointer) and the handle of the OpenGL buffer object (`none`
when not yet generated). -/
structure ConnectedComponentData where
  pointElementCount : Nat
  pointElementMaxCount : Nat
  pointElementBuffer : Option ElementBuffer
  pointElementVBO : Option Nat
  springElementCount : Nat
  springElementMaxCount : Nat
  springElementBuffer : Option ElementBuffer
  springElementVBO : Option Nat
  ropeElementCount : Nat
  ropeElementMaxCount : Nat
  ropeElementBuffer : Option ElementBuffer
  ropeElementVBO : Option Nat
  triangleElementCount : Nat
  triangleElementMaxCount : Nat
  triangleElementBuffer : Option ElementBuffer
  triangleElementVBO : Option Nat
  stressedSpringElementCount : Nat
  stressedSpringElementMaxCount : Nat
  stressedSpringElementBuffer : Option ElementBuffer
  stressedSpringElementVBO : Option Nat
deriving DecidableEq

/-- The record `GenericTextureConnectedComponentData`: the vertex buffer of the generic
textures of one connected component. The vertices are not inspected by the code
modelled here and are represented by numbers. -/
structure GenericTextureConnectedComponentData where
  VertexBuffer : List Nat
deriving DecidableEq

/-- The data members of `ShipRenderContext` that the functions modelled here read or
write. -/
structure ShipRenderContext where
  mCanvasToVisibleWorldHeightRatio : ℚ
  mWaterLevelThreshold : ℚ
  mShipRenderMode : ShipRenderMode
  mDebugShipRenderMode : DebugShipRenderMode
  mVectorFieldRenderMode : VectorFieldRenderMode
  mShowStressedSprings : Bool
  mElementShipTexture : Option Nat
  mGenericTextureConnectedComponents : List GenericTextureConnectedComponentData
  mGenericTextureMaxVertexBufferSize : Nat
  mConnectedComponentsMaxSizes : List Nat
  mConnectedComponents : List ConnectedComponentData
  mEphemeralPoints : List ElementIndex
  mVectorArrowPointPositionBuffer : List vec2f
  mVectorArrowColor : vec4f

/-- A statement executed by the body of `ShipRenderContext::RenderEnd` itself: the call
of `glDisableVertexAttribArray`, a call of one of the private `Render...` member
functions with its arguments, or the update of
`mRenderStatistics.LastRenderedShipConnectedComponents`. -/
inductive RenderEndStep where
  | glDisableVertexAttribArray (index : Nat)
  | RenderPointElements (connectedComponent : ConnectedComponentData)
  | RenderSpringElements (connectedComponent : ConnectedComponentData) (withTexture : Bool)
  | RenderRopeElements (connectedComponent : ConnectedComponentData)
  | RenderTriangleElements (connectedComponent : ConnectedComponentData) (withTexture : Bool)
  | RenderStressedSpringElements (connectedComponent : ConnectedComponentData)
  | RenderGenericTextures (connectedComponent : GenericTextureConnectedComponentData)
  | addLastRenderedShipConnectedComponents (count : Nat)
  | RenderEphemeralPoints
  | RenderVectors
deriving DecidableEq

/-- The body of the loop of `ShipRenderContext::RenderEnd` for the component of index
`c`, whose record `mConnectedComponents[c]` is `connectedComponent`: the statements it
executes, in order. -/
def ShipRenderContext.RenderEnd_component (ctx : ShipRenderContext) (c : Nat)
    (connectedComponent : ConnectedComponentData) : List RenderEndStep :=
  -- Draw points
  (if ctx.mDebugShipRenderMode = DebugShipRenderMode.Points then
    [RenderEndStep.RenderPointElements connectedComponent]
  else [])
  -- Draw springs
  ++ (if ctx.mDebugShipRenderMode = DebugShipRenderMode.Springs
      ∨ ctx.mDebugShipRenderMode = DebugShipRenderMode.EdgeSprings
      ∨ (ctx.mDebugShipRenderMode = DebugShipRenderMode.None
        ∧ (ctx.mShipRenderMode = ShipRenderMode.Structure
          ∨ ctx.mShipRenderMode = ShipRenderMode.Texture)) then
    [RenderEndStep.RenderSpringElements connectedComponent
      (decide (ctx.mDebugShipRenderMode = DebugShipRenderMode.None
        ∧ ctx.mShipRenderMode = ShipRenderMode.Texture))]
  else [])
  -- Draw ropes now if RenderMode is Springs or Texture
  ++ (if ctx.mDebugShipRenderMode = DebugShipRenderMode.Springs
      ∨ ctx.mDebugShipRenderMode = DebugShipRenderMode.EdgeSprings
      ∨ (ctx.mDebugShipRenderMode = DebugShipRenderMode.None
        ∧ ctx.mShipRenderMode = ShipRenderMode.Texture) then
    [RenderEndStep.RenderRopeElements connectedComponent]
  else [])
  -- Draw triangles
  ++ (if ctx.mDebugShipRenderMode = DebugShipRenderMode.Wireframe
      ∨ (ctx.mDebugShipRenderMode = DebugShipRenderMode.None
        ∧ (ctx.mShipRenderMode = ShipRenderMode.Structure
          ∨ ctx.mShipRenderMode = ShipRenderMode.Texture)) then
    [RenderEndStep.RenderTriangleElements connectedComponent
      (decide (ctx.mShipRenderMode = ShipRenderMode.Texture))]
  else [])
  -- Draw ropes now if RenderMode is Structure
  ++ (if ctx.mDebugShipRenderMode = DebugShipRenderMode.None
      ∧ ctx.mShipRenderMode = ShipRenderMode.Structure then
    [RenderEndStep.RenderRopeElements connectedComponent]
  else [])
  -- Draw stressed springs
  ++ (if ctx.mDebugShipRenderMode = DebugShipRenderMode.None
      ∧ ctx.mShowStressedSprings = true then
    [RenderEndStep.RenderStressedSpringElements connectedComponent]
  else [])
  -- Draw generic textures
  ++ (if h : c < ctx.mGenericTextureConnectedComponents.length then
    [RenderEndStep.RenderGenericTextures (ctx.mGenericTextureConnectedComponents.get ⟨c, h⟩)]
  else [])

/-- The loop `for (size_t c = 0; c < mConnectedComponents.size(); ++c)` of
`ShipRenderContext::RenderEnd`, from the index `c` on; `remaining` are the records
`mConnectedComponents[c]`, `mConnectedComponents[c + 1]`, ... still to be processed. -/
def ShipRenderContext.RenderEnd_loop (ctx : ShipRenderContext) :
    Nat → List ConnectedComponentData → List RenderEndStep
  | _, [] => []
  | c, connectedComponent :: remaining =>
    ctx.RenderEnd_component c connectedComponent
      ++ ShipRenderContext.RenderEnd_loop ctx (c + 1) remaining

/-- Member `ShipRenderContext::RenderEnd`: the statements it executes, in order. -/
def ShipRenderContext.RenderEnd (ctx : ShipRenderContext) : List RenderEndStep :=
  [RenderEndStep.glDisableVertexAttribArray 0]
  ++ ctx.RenderEnd_loop 0 ctx.mConnectedComponents
  ++ [RenderEndStep.addLastRenderedShipConnectedComponents ctx.mConnectedComponents.length]
  ++ [RenderEndStep.RenderEphemeralPoints]
  ++ (if ctx.mVectorFieldRenderMode ≠ VectorFieldRenderMode.None then
    [RenderEndStep.RenderVectors]
  else [])

/-- Whether a statement of `RenderEnd` is one of the four element passes of the
render-mode decision table: points, springs, ropes or triangles. -/
def RenderEndStep.isElementPass : RenderEndStep → Bool
  | .RenderPointElements _ => true
  | .RenderSpringElements _ _ => true
  | .RenderRopeElements _ => true
  | .RenderTriangleElements _ _ => true
  | _ => false

/-- Whether a statement of `RenderEnd` is the stressed-spring pass. -/
def RenderEndStep.isStressedSpringPass : RenderEndStep → Bool
  | .RenderStressedSpringElements _ => true
  | _ => false

/-- Whether a statement of `RenderEnd` is the rope pass. -/
def RenderEndStep.isRopePass : RenderEndStep → Bool
  | .RenderRopeElements _ => true
  | _ => false

/-- Whether a statement of `RenderEnd` is the generic-texture pass. -/
def RenderEndStep.isGenericTexturesPass : RenderEndStep → Bool
  | .RenderGenericTextures _ => true
  | _ => false

/-! ## The ship render context: parameters, frame start and element buffers -/

/-- The constants of `GameParameters` that `ShipRenderContext.cpp` uses; their
declaration is not part of the available sources. -/
structure GameParameters where
  MaxSpringsPerPoint : Nat
  MaxTrianglesPerPoint : Nat

/-- What `ShipRenderContext.cpp` takes from the heap and from OpenGL: the number of
arrays allocated with `new T[n]` so far, the number of buffer names `glGenBuffers` has
handed out so far and the number of texture names `glGenTextures` has handed out so
far. -/
structure Resources where
  allocatedArrays : Nat
  generatedBuffers : Nat
  generatedTextures : Nat
deriving DecidableEq

/-- The expression `new T[n]`: a fresh array with room for `n` elements. -/
def Resources.newArray (r : Resources) (n : Nat) : ElementBuffer × Resources :=
  ({ allocation := r.allocatedArrays, capacity := n },
    { r with allocatedArrays := r.allocatedArrays + 1 })

/-- The call `glGenBuffers(1, &name)`: a buffer name not handed out before (names
start at `1`). -/
def Resources.glGenBuffers (r : Resources) : Nat × Resources :=
  (r.generatedBuffers + 1, { r with generatedBuffers := r.generatedBuffers + 1 })

/-- The call `glGenTextures(1, &name)`: a texture name not handed out before (names
start at `1`). -/
def Resources.glGenTextures (r : Resources) : Nat × Resources :=
  (r.generatedTextures + 1, { r with generatedTextures := r.generatedTextures + 1 })

/-- The four members a `ConnectedComponentData` has for one kind of element: the
element count, the maximum count, the buffer and the buffer object. -/
structure ElementSlot where
  elementCount : Nat
  elementMaxCount : Nat
  elementBuffer : Option ElementBuffer
  elementVBO : Option Nat
deriving DecidableEq

/-- The block of `ShipRenderContext::UploadElementsStart` that prepares one kind of
element of one component, the same for the five kinds: when the maximum count differs
from `maxCount` the buffer is reset to a new array of `maxCount` elements and the maximum
count becomes `maxCount`; the element count becomes `0`; when there is no buffer object
one is generated. -/
def ElementSlot.prepare (slot : ElementSlot) (maxCount : Nat) (r : Resources) :
    ElementSlot × Resources :=
  let sized : ElementSlot × Resources :=
    if slot.elementMaxCount ≠ maxCount then
      ({ slot with elementBuffer := some (r.newArray maxCount).1, elementMaxCount := maxCount },
        (r.newArray maxCount).2)
    else (slot, r)
  let cleared : ElementSlot := { sized.1 with elementCount := 0 }
  if cleared.elementVBO = none then
    ({ cleared with elementVBO := some sized.2.glGenBuffers.1 }, sized.2.glGenBuffers.2)
  else (cleared, sized.2)

/-- The body of the loop of `ShipRenderContext::UploadElementsStart` for one component,
whose declared maximum size `mConnectedComponentsMaxSizes[c]` is `maxSize` and whose
record `mConnectedComponents[c]` is `cc`: points, springs, ropes, triangles and stressed
springs are prepared in this order. -/
def ShipRenderContext.UploadElementsStart_component (G : GameParameters) (maxSize : Nat)
    (cc : ConnectedComponentData) (r : Resources) : ConnectedComponentData × Resources :=
  let maxConnectedComponentPoints := maxSize
  let points := ElementSlot.prepare
    ⟨cc.pointElementCount, cc.pointElementMaxCount, cc.pointElementBuffer, cc.pointElementVBO⟩
    maxConnectedComponentPoints r
  let maxConnectedComponentSprings := maxSize * G.MaxSpringsPerPoint
  let springs := ElementSlot.prepare
    ⟨cc.springElementCount, cc.springElementMaxCount, cc.springElementBuffer,
      cc.springElementVBO⟩
    maxConnectedComponentSprings points.2
  let maxConnectedComponentRopes := maxConnectedComponentSprings
  let ropes := ElementSlot.prepare
    ⟨cc.ropeElementCount, cc.ropeElementMaxCount, cc.ropeElementBuffer, cc.ropeElementVBO⟩
    maxConnectedComponentRopes springs.2
  let maxConnectedComponentTriangles := maxSize * G.MaxTrianglesPerPoint
  let triangles := ElementSlot.prepare
    ⟨cc.triangleElementCount, cc.triangleElementMaxCount, cc.triangleElementBuffer,
      cc.triangleElementVBO⟩
    maxConnectedComponentTriangles ropes.2
  let maxConnectedComponentStressedSprings := maxConnectedComponentSprings
  let stressedSprings := ElementSlot.prepare
    ⟨cc.stressedSpringElementCount, cc.stressedSpringElementMaxCount,
      cc.stressedSpringElementBuffer, cc.stressedSpringElementVBO⟩
    maxConnectedComponentStressedSprings triangles.2
  ({ pointElementCount := points.1.elementCount
     pointElementMaxCount := points.1.elementMaxCount
     pointElementBuffer := points.1.elementBuffer
     pointElementVBO := points.1.elementVBO
     springElementCount := springs.1.elementCount
     springElementMaxCount := springs.1.elementMaxCount
     springElementBuffer := springs.1.elementBuffer
     springElementVBO := springs.1.elementVBO
     ropeElementCount := ropes.1.elementCount
     ropeElementMaxCount := ropes.1.elementMaxCount
     ropeElementBuffer := ropes.1.elementBuffer
     ropeElementVBO := ropes.1.elementVBO
     triangleElementCount := triangles.1.elementCount
     triangleElementMaxCount := triangles.1.elementMaxCount
     triangleElementBuffer := triangles.1.elementBuffer
     triangleElementVBO := triangles.1.elementVBO
     stressedSpringElementCount := stressedSprings.1.elementCount
     stressedSpringElementMaxCount := stressedSprings.1.elementMaxCount
     stressedSpringElementBuffer := stressedSprings.1.elementBuffer
     stressedSpringElementVBO := stressedSprings.1.elementVBO },
    stressedSprings.2)

/-- The members of a record, kind by kind: points, springs, ropes, triangles and
stressed springs, in this order. -/
def ConnectedComponentData.slots (cc : ConnectedComponentData) : List ElementSlot :=
  [⟨cc.pointElementCount, cc.pointElementMaxCount, cc.pointElementBuffer, cc.pointElementVBO⟩,
   ⟨cc.springElementCount, cc.springElementMaxCount, cc.springElementBuffer,
     cc.springElementVBO⟩,
   ⟨cc.ropeElementCount, cc.ropeElementMaxCount, cc.ropeElementBuffer, cc.ropeElementVBO⟩,
   ⟨cc.triangleElementCount, cc.triangleElementMaxCount, cc.triangleElementBuffer,
     cc.triangleElementVBO⟩,
   ⟨cc.stressedSpringElementCount, cc.stressedSpringElementMaxCount,
     cc.stressedSpringElementBuffer, cc.stressedSpringElementVBO⟩]

/-- The maximum counts `UploadElementsStart` computes for a component whose declared
maximum size is `maxSize`, in the same order: `maxConnectedComponentPoints`,
`maxConnectedComponentSprings`, `maxConnectedComponentRopes`,
`maxConnectedComponentTriangles` and `maxConnectedComponentStressedSprings`. -/
def GameParameters.maxCounts (G : GameParameters) (maxSize : Nat) : List Nat :=
  [maxSize, maxSize * G.MaxSpringsPerPoint, maxSize * G.MaxSpringsPerPoint,
   maxSize * G.MaxTrianglesPerPoint, maxSize * G.MaxSpringsPerPoint]

/-- The loop `for (size_t c = 0; c < mConnectedComponentsMaxSizes.size(); ++c)` of
`ShipRenderContext::UploadElementsStart`, on the declared maximum sizes and the records
still to be processed (the two vectors have the same length when the loop starts). -/
def ShipRenderContext.UploadElementsStart_loop (G : GameParameters) :
    List Nat → List ConnectedComponentData → Resources →
      List ConnectedComponentData × Resources
  | maxSize :: maxSizes, cc :: remaining, r =>
    let prepared := ShipRenderContext.UploadElementsStart_component G maxSize cc r
    let others := ShipRenderContext.UploadElementsStart_loop G maxSizes remaining prepared.2
    (prepared.1 :: others.1, others.2)
  | _, remaining, r => (remaining, r)

/-- A value-initialised `ConnectedComponentData`, as `std::vector::resize` creates it:
no elements, no capacity, no buffer, no buffer object. -/
def ConnectedComponentData.initial : ConnectedComponentData :=
  { pointElementCount := 0, pointElementMaxCount := 0, pointElementBuffer := none,
    pointElementVBO := none,
    springElementCount := 0, springElementMaxCount := 0, springElementBuffer := none,
    springElementVBO := none,
    ropeElementCount := 0, ropeElementMaxCount := 0, ropeElementBuffer := none,
    ropeElementVBO := none,
    triangleElementCount := 0, triangleElementMaxCount := 0, triangleElementBuffer := none,
    triangleElementVBO := none,
    stressedSpringElementCount := 0, stressedSpringElementMaxCount := 0,
    stressedSpringElementBuffer := none, stressedSpringElementVBO := none }

/-- Member `ShipRenderContext::UpdateVisibleWorldCoordinates`. -/
def ShipRenderContext.UpdateVisibleWorldCoordinates (ctx : ShipRenderContext)
    (canvasToVisibleWorldHeightRatio : ℚ) : ShipRenderContext :=
  { ctx with mCanvasToVisibleWorldHeightRatio := canvasToVisibleWorldHeightRatio }

/-- Member `ShipRenderContext::UpdateWaterLevelThreshold`: the new value of
`mWaterLevelThreshold`; the same value is then set as the parameter
`WaterLevelThreshold` of the three ship programs. -/
def ShipRenderContext.UpdateWaterLevelThreshold (ctx : ShipRenderContext)
    (waterLevelOfDetail : ℚ) : ShipRenderContext :=
  { ctx with mWaterLevelThreshold := 2 + waterLevelOfDetail * (-2 + 1 / 100) }

/-- Member `ShipRenderContext::UpdateShipRenderMode`. -/
def ShipRenderContext.UpdateShipRenderMode (ctx : ShipRenderContext)
    (shipRenderMode : ShipRenderMode) : ShipRenderContext :=
  { ctx with mShipRenderMode := shipRenderMode }

/-- Member `ShipRenderContext::UpdateDebugShipRenderMode`. -/
def ShipRenderContext.UpdateDebugShipRenderMode (ctx : ShipRenderContext)
    (debugShipRenderMode : DebugShipRenderMode) : ShipRenderContext :=
  { ctx with mDebugShipRenderMode := debugShipRenderMode }

/-- Member `ShipRenderContext::UpdateVectorFieldRenderMode`. -/
def ShipRenderContext.UpdateVectorFieldRenderMode (ctx : ShipRenderContext)
    (vectorFieldRenderMode : VectorFieldRenderMode) : ShipRenderContext :=
  { ctx with mVectorFieldRenderMode := vectorFieldRenderMode }

/-- Member `ShipRenderContext::UpdateShowStressedSprings`. -/
def ShipRenderContext.UpdateShowStressedSprings (ctx : ShipRenderContext)
    (showStressedSprings : Bool) : ShipRenderContext :=
  { ctx with mShowStressedSprings := showStressedSprings }

/-- Member `ShipRenderContext::RenderStart`. -/
def ShipRenderContext.RenderStart (ctx : ShipRenderContext)
    (connectedComponentsMaxSizes : List Nat) : ShipRenderContext :=
  { ctx with
    mConnectedComponentsMaxSizes := connectedComponentsMaxSizes
    mGenericTextureConnectedComponents :=
      List.replicate connectedComponentsMaxSizes.length ⟨[]⟩
    mGenericTextureMaxVertexBufferSize := 0 }

/-- Member `ShipRenderContext::UploadElementsStart`: when the number of declared maximum
sizes differs from the number of records, the records are cleared and as many
value-initialised records are created; then the loop prepares every record. -/
def ShipRenderContext.UploadElementsStart (G : GameParameters) (ctx : ShipRenderContext)
    (r : Resources) : ShipRenderContext × Resources :=
  let mConnectedComponents :=
    if ctx.mConnectedComponentsMaxSizes.length ≠ ctx.mConnectedComponents.length then
      List.replicate ctx.mConnectedComponentsMaxSizes.length ConnectedComponentData.initial
    else ctx.mConnectedComponents
  let prepared := ShipRenderContext.UploadElementsStart_loop G
    ctx.mConnectedComponentsMaxSizes mConnectedComponents r
  ({ ctx with mConnectedComponents := prepared.1 }, prepared.2)

/-- The loop `for (size_t c = 0; c < mConnectedComponentsMaxSizes.size(); ++c)` of
`ShipRenderContext::UploadElementsStart` with its subscripts made explicit: from the
index `c` on, with `iterations` iterations still to go, the record
`mConnectedComponents[c]` is read, prepared with `mConnectedComponentsMaxSizes[c]` and
written back in place. The result is `none` when a subscript is outside its vector. -/
def ShipRenderContext.UploadElementsStart_indexed (G : GameParameters)
    (mConnectedComponentsMaxSizes : List Nat) :
    Nat → Nat → List ConnectedComponentData → Resources →
      Option (List ConnectedComponentData × Resources)
  | _, 0, mConnectedComponents, r => some (mConnectedComponents, r)
  | c, iterations + 1, mConnectedComponents, r =>
    match mConnectedComponentsMaxSizes[c]?, mConnectedComponents[c]? with
    | some maxSize, some cc =>
      let prepared := ShipRenderContext.UploadElementsStart_component G maxSize cc r
      ShipRenderContext.UploadElementsStart_indexed G mConnectedComponentsMaxSizes (c + 1)
        iterations (mConnectedComponents.set c prepared.1) prepared.2
    | _, _ => none

/-- Member `ShipRenderContext::UploadElementsStart` with the subscripts of its loop
checked: `none` when the loop would read or write outside `mConnectedComponents` or
`mConnectedComponentsMaxSizes`. -/
def ShipRenderContext.UploadElementsStart_checked (G : GameParameters)
    (ctx : ShipRenderContext) (r : Resources) : Option (ShipRenderContext × Resources) :=
  let mConnectedComponents :=
    if ctx.mConnectedComponentsMaxSizes.length ≠ ctx.mConnectedComponents.length then
      List.replicate ctx.mConnectedComponentsMaxSizes.length ConnectedComponentData.initial
    else ctx.mConnectedComponents
  (ShipRenderContext.UploadElementsStart_indexed G ctx.mConnectedComponentsMaxSizes 0
      ctx.mConnectedComponentsMaxSizes.length mConnectedComponents r).map
    (fun prepared => ({ ctx with mConnectedComponents := prepared.1 }, prepared.2))

/-- Member `ShipRenderContext::UploadElementStressedSpringsStart`. -/
def ShipRenderContext.UploadElementStressedSpringsStart (ctx : ShipRenderContext) :
    ShipRenderContext :=
  { ctx with
    mConnectedComponents :=
      ctx.mConnectedComponents.map (fun cc => { cc with stressedSpringElementCount := 0 }) }

/-- Member `ShipRenderContext::UploadEphemeralPointsStart`. -/
def ShipRenderContext.UploadEphemeralPointsStart (ctx : ShipRenderContext) :
    ShipRenderContext :=
  { ctx with mEphemeralPoints := [] }

/-! ## The ship render context: vector arrows -/

/-- The functions on `float` that `ShipRenderContext::UploadVectors` uses and that are
not rational expressions of their arguments: the constant `Pi<float>`, `cos`, `sin` and
`vec2f::normalise`. They are parameters. -/
structure FloatFunctions where
  Pi : ℚ
  cos : ℚ → ℚ
  sin : ℚ → ℚ
  normalise : vec2f → vec2f

/-- The static `CosAlphaLeftRight` of `UploadVectors`. -/
def FloatFunctions.CosAlphaLeftRight (M : FloatFunctions) : ℚ := M.cos (-2 * M.Pi / 8)

/-- The static `SinAlphaLeft` of `UploadVectors`. -/
def FloatFunctions.SinAlphaLeft (M : FloatFunctions) : ℚ := M.sin (-2 * M.Pi / 8)

/-- The static `SinAlphaRight` of `UploadVectors`. -/
def FloatFunctions.SinAlphaRight (M : FloatFunctions) : ℚ := -M.SinAlphaLeft

/-- The static `XMatrixLeft` of `UploadVectors`. -/
def FloatFunctions.XMatrixLeft (M : FloatFunctions) : vec2f :=
  ⟨M.CosAlphaLeftRight, M.SinAlphaLeft⟩

/-- The static `YMatrixLeft` of `UploadVectors`. -/
def FloatFunctions.YMatrixLeft (M : FloatFunctions) : vec2f :=
  ⟨-M.SinAlphaLeft, M.CosAlphaLeftRight⟩

/-- The static `XMatrixRight` of `UploadVectors`. -/
def FloatFunctions.XMatrixRight (M : FloatFunctions) : vec2f :=
  ⟨M.CosAlphaLeftRight, M.SinAlphaRight⟩

/-- The static `YMatrixRight` of `UploadVectors`. -/
def FloatFunctions.YMatrixRight (M : FloatFunctions) : vec2f :=
  ⟨-M.SinAlphaRight, M.CosAlphaLeftRight⟩

/-- The body of the loop of `ShipRenderContext::UploadVectors` for the index `i`: the
six positions it pushes at the back of the arrow buffer, in order. The arrays `position`
and `vector` are functions of the index. -/
def ShipRenderContext.UploadVectors_arrow (M : FloatFunctions) (position vector : Nat → vec2f)
    (lengthAdjustment : ℚ) (i : Nat) : List vec2f :=
  -- Stem
  let stemEndpoint := position i + (vector i).scale lengthAdjustment
  -- Left
  let leftDir := M.normalise
    ⟨-(vector i).dot M.XMatrixLeft, -(vector i).dot M.YMatrixLeft⟩
  -- Right
  let rightDir := M.normalise
    ⟨-(vector i).dot M.XMatrixRight, -(vector i).dot M.YMatrixRight⟩
  [position i, stemEndpoint,
   stemEndpoint, stemEndpoint + leftDir.scale (1 / 5),
   stemEndpoint, stemEndpoint + rightDir.scale (1 / 5)]

/-- Member `ShipRenderContext::UploadVectors`: the arrow buffer is cleared, the loop
`for (size_t i = 0; i < count; ++i)` pushes the six positions of every arrow at its
back, and the colour is stored. (The buffer is then handed to OpenGL.) -/
def ShipRenderContext.UploadVectors (M : FloatFunctions) (ctx : ShipRenderContext)
    (count : Nat) (position vector : Nat → vec2f) (lengthAdjustment : ℚ) (color : vec4f) :
    ShipRenderContext :=
  { ctx with
    mVectorArrowPointPositionBuffer :=
      (List.range count).foldl
        (fun buffer i =>
          buffer ++ ShipRenderContext.UploadVectors_arrow M position vector lengthAdjustment i)
        []
    mVectorArrowColor := color }

/-! ## The ship render context: the spring and triangle passes -/

/-- The shader programs `ProgramType::...` named in `ShipRenderContext.cpp`. -/
inductive ProgramType where
  | ShipTrianglesColor
  | ShipTrianglesTexture
  | ShipRopes
  | ShipStressedSprings
  | GenericTextures
  | Matte
deriving DecidableEq

/-- The primitive kinds passed to `glDrawElements`. -/
inductive DrawMode where
  | GL_POINTS
  | GL_LINES
  | GL_TRIANGLES
deriving DecidableEq

/-- A statement executed by the body of `RenderSpringElements` or of
`RenderTriangleElements`: a call to the shader manager, a call to OpenGL, or the update
of a counter of `mRenderStatistics`. A texture or buffer argument is the content of the
wrapper that holds the name. -/
inductive PassStep where
  | ActivateProgram (program : ProgramType)
  | ActivateTexture
  | glBindTexture (texture : Option Nat)
  | CheckOpenGLError
  | glLineWidth (width : ℚ)
  | glBindBuffer (buffer : Option Nat)
  | glDrawElements (mode : DrawMode) (count : Nat)
  | addLastRenderedShipSprings (count : Nat)
  | addLastRenderedShipTriangles (count : Nat)
deriving DecidableEq

/-- Member `ShipRenderContext::RenderSpringElements`: the statements it executes, in
order. -/
def ShipRenderContext.RenderSpringElements (ctx : ShipRenderContext)
    (connectedComponent : ConnectedComponentData) (withTexture : Bool) : List PassStep :=
  (if withTexture = true ∧ ctx.mElementShipTexture ≠ none then
    -- Use texture program, bind texture
    [PassStep.ActivateProgram ProgramType.ShipTrianglesTexture,
     PassStep.ActivateTexture,
     PassStep.glBindTexture ctx.mElementShipTexture,
     PassStep.CheckOpenGLError]
  else
    -- Use color program
    [PassStep.ActivateProgram ProgramType.ShipTrianglesColor])
  -- Set line size, bind VBO, draw, update stats
  ++ [PassStep.glLineWidth (1 / 10 * 2 * ctx.mCanvasToVisibleWorldHeightRatio),
      PassStep.glBindBuffer connectedComponent.springElementVBO,
      PassStep.CheckOpenGLError,
      PassStep.glDrawElements DrawMode.GL_LINES (2 * connectedComponent.springElementCount),
      PassStep.addLastRenderedShipSprings connectedComponent.springElementCount]

/-- Member `ShipRenderContext::RenderTriangleElements`: the statements it executes, in
order. -/
def ShipRenderContext.RenderTriangleElements (ctx : ShipRenderContext)
    (connectedComponent : ConnectedComponentData) (withTexture : Bool) : List PassStep :=
  (if withTexture = true ∧ ctx.mElementShipTexture ≠ none then
    -- Use texture program, bind texture
    [PassStep.ActivateProgram ProgramType.ShipTrianglesTexture,
     PassStep.ActivateTexture,
     PassStep.glBindTexture ctx.mElementShipTexture]
  else
    -- Use color program
    [PassStep.ActivateProgram ProgramType.ShipTrianglesColor])
  ++ (if ctx.mDebugShipRenderMode = DebugShipRenderMode.Wireframe then
    [PassStep.glLineWidth (1 / 10)]
  else [])
  -- Bind VBO, draw, update stats
  ++ [PassStep.glBindBuffer connectedComponent.triangleElementVBO,
      PassStep.CheckOpenGLError,
      PassStep.glDrawElements DrawMode.GL_TRIANGLES
        (3 * connectedComponent.triangleElementCount),
      PassStep.addLastRenderedShipTriangles connectedComponent.triangleElementCount]

/-- The programs a pass activates, in order. -/
def PassStep.programs : List PassStep → List ProgramType
  | [] => []
  | .ActivateProgram program :: rest => program :: PassStep.programs rest
  | _ :: rest => PassStep.programs rest

/-! ## The ship render context: construction and sequences of calls -/

/-- The constructor `ShipRenderContext::ShipRenderContext`, as far as the members
modelled here go: the member initialisers; the eight buffer names and the two texture
names it generates, the first texture being the ship texture `mElementShipTexture`; and
the calls of the `Update...` members that end it. -/
def ShipRenderContext.new (canvasToVisibleWorldHeightRatio waterLevelOfDetail : ℚ)
    (shipRenderMode : ShipRenderMode) (debugShipRenderMode : DebugShipRenderMode)
    (vectorFieldRenderMode : VectorFieldRenderMode) (showStressedSprings : Bool)
    (r : Resources) : ShipRenderContext × Resources :=
  let initialised : ShipRenderContext :=
    { mCanvasToVisibleWorldHeightRatio := 0
      mWaterLevelThreshold := 0
      mShipRenderMode := ShipRenderMode.Structure
      mDebugShipRenderMode := DebugShipRenderMode.None
      mVectorFieldRenderMode := VectorFieldRenderMode.None
      mShowStressedSprings := false
      mElementShipTexture := none
      mGenericTextureConnectedComponents := []
      mGenericTextureMaxVertexBufferSize := 0
      mConnectedComponentsMaxSizes := []
      mConnectedComponents := []
      mEphemeralPoints := []
      mVectorArrowPointPositionBuffer := []
      mVectorArrowColor := ⟨0, 0, 0, 0⟩ }
  -- glGenBuffers(5, pointVBOs)
  let pointVBOs : Resources := { r with generatedBuffers := r.generatedBuffers + 5 }
  -- Create and upload ship texture
  let shipTexture := pointVBOs.glGenTextures
  -- Create stressed spring texture
  let stressedSpringTexture := shipTexture.2.glGenTextures
  -- The buffer objects of the generic textures, the ephemeral points and the vectors
  let genericTextureVBO := stressedSpringTexture.2.glGenBuffers
  let ephemeralPointVBO := genericTextureVBO.2.glGenBuffers
  let vectorArrowVBO := ephemeralPointVBO.2.glGenBuffers
  -- Set parameters to initial values
  ((((((({ initialised with mElementShipTexture := some shipTexture.1 }
    ).UpdateVisibleWorldCoordinates canvasToVisibleWorldHeightRatio
    ).UpdateWaterLevelThreshold waterLevelOfDetail
    ).UpdateShipRenderMode shipRenderMode
    ).UpdateDebugShipRenderMode debugShipRenderMode
    ).UpdateVectorFieldRenderMode vectorFieldRenderMode
    ).UpdateShowStressedSprings showStressedSprings,
    vectorArrowVBO.2)

/-- A call of one of the member functions of `ShipRenderContext` modelled here that
change the context, with its arguments. -/
inductive ShipRenderContext.Call where
  | UpdateVisibleWorldCoordinates (canvasToVisibleWorldHeightRatio : ℚ)
  | UpdateWaterLevelThreshold (waterLevelOfDetail : ℚ)
  | UpdateShipRenderMode (shipRenderMode : ShipRenderMode)
  | UpdateDebugShipRenderMode (debugShipRenderMode : DebugShipRenderMode)
  | UpdateVectorFieldRenderMode (vectorFieldRenderMode : VectorFieldRenderMode)
  | UpdateShowStressedSprings (showStressedSprings : Bool)
  | RenderStart (connectedComponentsMaxSizes : List Nat)
  | UploadElementsStart
  | UploadElementStressedSpringsStart
  | UploadEphemeralPointsStart
  | UploadVectors (count : Nat) (position vector : Nat → vec2f) (lengthAdjustment : ℚ)
      (color : vec4f)

/-- Performs one call on a context, with the resources it draws from. -/
def ShipRenderContext.call (G : GameParameters) (M : FloatFunctions)
    (state : ShipRenderContext × Resources) :
    ShipRenderContext.Call → ShipRenderContext × Resources
  | .UpdateVisibleWorldCoordinates canvasToVisibleWorldHeightRatio =>
    (state.1.UpdateVisibleWorldCoordinates canvasToVisibleWorldHeightRatio, state.2)
  | .UpdateWaterLevelThreshold waterLevelOfDetail =>
    (state.1.UpdateWaterLevelThreshold waterLevelOfDetail, state.2)
  | .UpdateShipRenderMode shipRenderMode =>
    (state.1.UpdateShipRenderMode shipRenderMode, state.2)
  | .UpdateDebugShipRenderMode debugShipRenderMode =>
    (state.1.UpdateDebugShipRenderMode debugShipRenderMode, state.2)
  | .UpdateVectorFieldRenderMode vectorFieldRenderMode =>
    (state.1.UpdateVectorFieldRenderMode vectorFieldRenderMode, state.2)
  | .UpdateShowStressedSprings showStressedSprings =>
    (state.1.UpdateShowStressedSprings showStressedSprings, state.2)
  | .RenderStart connectedComponentsMaxSizes =>
    (state.1.RenderStart connectedComponentsMaxSizes, state.2)
  | .UploadElementsStart => ShipRenderContext.UploadElementsStart G state.1 state.2
  | .UploadElementStressedSpringsStart =>
    (state.1.UploadElementStressedSpringsStart, state.2)
  | .UploadEphemeralPointsStart => (state.1.UploadEphemeralPointsStart, state.2)
  | .UploadVectors count position vector lengthAdjustment color =>
    (ShipRenderContext.UploadVectors M state.1 count position vector lengthAdjustment color,
      state.2)

/-- Whether a call is a call of `ShipRenderContext::RenderStart`. -/
def ShipRenderContext.Call.isRenderStart : ShipRenderContext.Call → Bool
  | .RenderStart _ => true
  | _ => false

/-- Performs a sequence of calls, one after the other. -/
def ShipRenderContext.run (G : GameParameters) (M : FloatFunctions)
    (state : ShipRenderContext × Resources) (calls : List ShipRenderContext.Call) :
    ShipRenderContext × Resources :=
  calls.foldl (ShipRenderContext.call G M) state

end Render

namespace Physics

/-! ## A concrete instance, for the worked examples -/

/-- A small ship for worked examples: its id, whether the interactive operations
succeed on it, how many state-changing operations were invoked on it, and the point it
reports as nearest to any target, with the position of that point. -/
structure ExampleShip where
  id : ShipId
  hit : Bool
  invocations : Nat
  nearestPoint : ElementIndex
  nearestPointPosition : vec2f
deriving DecidableEq

/-- A state-changing operation on an example ship: it is counted, and nothing else
changes. -/
def ExampleShip.touch (s : ExampleShip) : ExampleShip :=
  { s with invocations := s.invocations + 1 }

/-- An interactive operation on an example ship: it is counted, and it reports the
flag `hit` of the ship. -/
def ExampleShip.interact (s : ExampleShip) : Bool × ExampleShip := (s.hit, s.touch)

/-- Collaborators for worked examples: ships are `ExampleShip`s, a ship definition is
the ship to build (the builder stamps the id on it), the environment is trivial, ids
and visit sequence numbers are 32 bits wide, the reserved visit sequence number is `0`,
the reserved element index is `2 ^ 32 - 1` and a simulation step lasts `1 / 50`. -/
def exampleCollaborators : Collaborators where
  Ship := ExampleShip
  Stars := Unit
  Clouds := Unit
  WaterSurface := Unit
  OceanFloor := Unit
  Wind := Unit
  GameParameters := Unit
  ShipDefinition := ExampleShip
  MaterialDatabase := Unit
  ResourceLoader := Unit
  GameEventHandler := Unit
  RenderContext := Unit
  ShipIdBits := 32
  VisitSequenceNumberBits := 32
  NoneVisitSequenceNumber := 0
  NoneElementIndex := 4294967295
  SimulationStepTimeDuration := 1 / 50
  Stars_new := ()
  Clouds_new := ()
  WaterSurface_new := ()
  OceanFloor_new := fun _ => ()
  Wind_new := fun _ => ()
  Stars_Update := fun _ s => s
  Wind_Update := fun _ s => s
  Clouds_Update := fun _ _ s => s
  WaterSurface_Update := fun _ _ _ s => s
  OceanFloor_Update := fun _ s => s
  OceanFloor_AdjustTo := fun _ _ s => (true, s)
  ShipBuilder_Create := fun shipId _ shipDefinition _ _ _ => { shipDefinition with id := shipId }
  Ship_GetId := fun s => s.id
  Ship_GetPointCount := fun _ => 1
  Ship_GetPointPosition := fun s _ => s.nearestPointPosition
  Ship_MoveBy := fun _ _ s => s.touch
  Ship_RotateBy := fun _ _ _ s => s.touch
  Ship_DestroyAt := fun _ _ _ _ s => s.touch
  Ship_SawThrough := fun _ _ _ _ s => s.touch
  Ship_DrawTo := fun _ _ _ s => s.touch
  Ship_SwirlAt := fun _ _ _ s => s.touch
  Ship_TogglePinAt := fun _ _ s => s.interact
  Ship_InjectBubblesAt := fun _ _ _ s => s.interact
  Ship_FloodAt := fun _ _ _ _ s => s.interact
  Ship_ToggleAntiMatterBombAt := fun _ _ s => s.interact
  Ship_ToggleImpactBombAt := fun _ _ s => s.interact
  Ship_ToggleRCBombAt := fun _ _ s => s.interact
  Ship_ToggleTimerBombAt := fun _ _ s => s.interact
  Ship_DetonateRCBombs := fun s => s.touch
  Ship_DetonateAntiMatterBombs := fun s => s.touch
  Ship_GetNearestPointAt := fun _ _ s => s.nearestPoint
  Ship_QueryNearestPointAt := fun _ _ s => s.hit
  Ship_Update := fun _ _ _ _ s => s.touch

/-- An example ship with the given id, success flag and nearest point, not yet
operated on. -/
def exampleShip (id : ShipId) (hit : Bool) (nearestPoint : ElementIndex)
    (x y : ℚ) : ExampleShip :=
  { id := id, hit := hit, invocations := 0, nearestPoint := nearestPoint,
    nearestPointPosition := ⟨x, y⟩ }

/-- An example world holding the given ships, at time `0`. -/
def exampleWorld (ships : List ExampleShip) : World exampleCollaborators :=
  { mAllShips := ships, mStars := (), mClouds := (), mWaterSurface := (), mOceanFloor := (),
    mWind := (), mCurrentSimulationTime := 0, mCurrentVisitSequenceNumber := 1,
    mGameEventHandler := () }

/-- Render collaborators for worked examples: the setting `ShowShipThroughSeaWater` is
the given one, the visible world is `4` wide around the camera at `(10, 0)`, the ocean
floor is at the height `x - 100` and the water at the height `x / 2`, and the sea is
`1000` deep. -/
def exampleRenderCollaborators (showShipThroughSeaWater : Bool) :
    RenderCollaborators exampleCollaborators where
  RenderContext_GetShowShipThroughSeaWater := fun _ => showShipThroughSeaWater
  RenderContext_GetVisibleWorldWidth := fun _ => 4
  RenderContext_GetCameraWorldPosition := fun _ => ⟨10, 0⟩
  OceanFloor_GetFloorHeightAt := fun _ x => x - 100
  WaterSurface_GetWaterHeightAt := fun _ x => x / 2
  GameParameters_SeaDepth := fun _ => 1000

/-- A sequence of calls with three `AddShip` calls among other calls. -/
def exampleCalls : List (World.Call exampleCollaborators) :=
  [.AddShip (exampleShip 0 true 0 0 0) () (), .Update () (),
   .AddShip (exampleShip 0 false 0 1 1) () (), .TogglePinAt ⟨0, 0⟩ (), .MoveBy 2 ⟨1, 0⟩ (),
   .AddShip (exampleShip 0 true 0 2 2) () (), .Update () ()]

end Physics

namespace Render

/-- A component record for worked examples, with `n` elements of every kind. -/
def exampleComponent (n : Nat) : ConnectedComponentData :=
  { pointElementCount := n, pointElementMaxCount := n, pointElementBuffer := some ⟨5 * n, n⟩,
    pointElementVBO := some (5 * n),
    springElementCount := n, springElementMaxCount := n, springElementBuffer := some ⟨5 * n + 1, n⟩,
    springElementVBO := some (5 * n + 1),
    ropeElementCount := n, ropeElementMaxCount := n, ropeElementBuffer := some ⟨5 * n + 2, n⟩,
    ropeElementVBO := some (5 * n + 2),
    triangleElementCount := n, triangleElementMaxCount := n, triangleElementBuffer := some ⟨5 * n + 3, n⟩,
    triangleElementVBO := some (5 * n + 3),
    stressedSpringElementCount := n, stressedSpringElementMaxCount := n,
    stressedSpringElementBuffer := some ⟨5 * n + 4, n⟩, stressedSpringElementVBO := some (5 * n + 4) }

/-- A render context for worked examples, with two connected components and the given
render modes. -/
def exampleContext (debugShipRenderMode : DebugShipRenderMode)
    (shipRenderMode : ShipRenderMode) (showStressedSprings : Bool) : ShipRenderContext :=
  { mCanvasToVisibleWorldHeightRatio := 1
    mWaterLevelThreshold := 2
    mShipRenderMode := shipRenderMode
    mDebugShipRenderMode := debugShipRenderMode
    mVectorFieldRenderMode := VectorFieldRenderMode.None
    mShowStressedSprings := showStressedSprings
    mElementShipTexture := some 1
    mGenericTextureConnectedComponents := [⟨[]⟩, ⟨[]⟩]
    mGenericTextureMaxVertexBufferSize := 0
    mConnectedComponentsMaxSizes := [1, 2]
    mConnectedComponents := [exampleComponent 1, exampleComponent 2]
    mEphemeralPoints := []
    mVectorArrowPointPositionBuffer := []
    mVectorArrowColor := ⟨0, 0, 0, 0⟩ }

/-- Game parameters for worked examples: at most nine springs and at most eight
triangles per point. -/
def exampleGameParameters : GameParameters :=
  { MaxSpringsPerPoint := 9, MaxTrianglesPerPoint := 8 }

/-- Float functions for worked examples, chosen for easy evaluation and not for accuracy;
they are used only where the outcome does not depend on their values. -/
def exampleFloatFunctions : FloatFunctions :=
  { Pi := 22 / 7, cos := fun _ => 1, sin := fun _ => 0, normalise := fun v => v }

/-- The resources before anything was allocated or generated. -/
def exampleResources : Resources :=
  { allocatedArrays := 0, generatedBuffers := 0, generatedTextures := 0 }

/-- A newly constructed render context for worked examples, with the given ship render
mode, no debug mode, no vector field and no stressed springs. -/
def exampleNewContext (shipRenderMode : ShipRenderMode) : ShipRenderContext × Resources :=
  ShipRenderContext.new 1 0 shipRenderMode DebugShipRenderMode.None
    VectorFieldRenderMode.None false exampleResources

end Render

/-! # Theorems -/

namespace Physics

variable {C : Collaborators}

/-! ## The loops over the ships -/

/-- The loop over all ships applies the operation to every ship, in place. -/
theorem forEachShip_eq_map {Ship : Type} (op : Ship → Ship) (ships : List Ship) :
    forEachShip op ships = ships.map op := by
  induction ships with
  | nil => rfl
  | cons s rest ih => simp [forEachShip, ih]

/-- The loop over all ships keeps the number of ships. -/
theorem length_forEachShip {Ship : Type} (op : Ship → Ship) (ships : List Ship) :
    (forEachShip op ships).length = ships.length := by
  simp [forEachShip_eq_map]

/-- The search from the last ship keeps the number of ships. -/
theorem length_searchFromLast {Ship : Type} (op : Ship → Bool × Ship) (ships : List Ship) :
    (searchFromLast op ships).2.length = ships.length := by
  induction ships with
  | nil => rfl
  | cons s rest ih =>
    unfold searchFromLast
    split <;> simp [ih]

/-- When no ship succeeds, the search visits every ship and reports failure. -/
theorem searchFromLast_all_fail {Ship : Type} (op : Ship → Bool × Ship) (ships : List Ship)
    (hfail : ∀ s ∈ ships, (op s).1 = false) :
    searchFromLast op ships = (false, ships.map (fun s => (op s).2)) := by
  induction ships with
  | nil => rfl
  | cons s rest ih =>
    have hs : (op s).1 = false := hfail s (List.mem_cons_self _ _)
    have hrest := ih (fun t ht => hfail t (List.mem_cons_of_mem _ ht))
    simp [searchFromLast, hs, hrest]

/-- The search stops at the first ship that succeeds: the ships visited before it are
left in the state their failed operation produced, the ships after it are untouched. -/
theorem searchFromLast_first_success {Ship : Type} (op : Ship → Bool × Ship)
    (later earlier : List Ship) (b : Ship)
    (hfail : ∀ s ∈ later, (op s).1 = false) (hb : (op b).1 = true) :
    searchFromLast op (later ++ b :: earlier)
      = (true, later.map (fun s => (op s).2) ++ (op b).2 :: earlier) := by
  induction later with
  | nil => simp [searchFromLast, hb]
  | cons s rest ih =>
    have hs : (op s).1 = false := hfail s (List.mem_cons_self _ _)
    have hrest := ih (fun t ht => hfail t (List.mem_cons_of_mem _ ht))
    simp [searchFromLast, hs, hrest]

/-- The search over the reversed ship list, in terms of the insertion order: with `b`
the last inserted ship that succeeds, the ships inserted before `b` are untouched. -/
theorem searchFromLast_reverse_success {Ship : Type} (op : Ship → Bool × Ship)
    (pre post : List Ship) (b : Ship)
    (hb : (op b).1 = true) (hfail : ∀ s ∈ post, (op s).1 = false) :
    (searchFromLast op (pre ++ b :: post).reverse).1 = true ∧
    (searchFromLast op (pre ++ b :: post).reverse).2.reverse
      = pre ++ (op b).2 :: post.map (fun s => (op s).2) := by
  have h := searchFromLast_first_success op post.reverse pre.reverse b
    (fun s hs => hfail s (List.mem_reverse.mp hs)) hb
  have e : (pre ++ b :: post).reverse = post.reverse ++ b :: pre.reverse := by simp
  rw [e, h]
  simp

/-- The search over the reversed ship list when no ship succeeds. -/
theorem searchFromLast_reverse_all_fail {Ship : Type} (op : Ship → Bool × Ship)
    (ships : List Ship) (hfail : ∀ s ∈ ships, (op s).1 = false) :
    (searchFromLast op ships.reverse).1 = false ∧
    (searchFromLast op ships.reverse).2.reverse = ships.map (fun s => (op s).2) := by
  rw [searchFromLast_all_fail op ships.reverse (fun s hs => hfail s (List.mem_reverse.mp hs))]
  simp

/-- A list of ships either has no ship that succeeds, or splits at the last one that
does. -/
theorem exists_last_success {Ship : Type} (op : Ship → Bool × Ship) (ships : List Ship) :
    (∀ s ∈ ships, (op s).1 = false) ∨
    ∃ pre b post, ships = pre ++ b :: post ∧ (op b).1 = true ∧ ∀ s ∈ post, (op s).1 = false := by
  induction ships with
  | nil => left; simp
  | cons s rest ih =>
    rcases ih with hall | ⟨pre, b, post, rfl, hb, hpost⟩
    · cases hs : (op s).1 with
      | false =>
        left
        intro t ht
        rcases List.mem_cons.mp ht with rfl | ht
        · exact hs
        · exact hall t ht
      | true => exact Or.inr ⟨[], s, rest, rfl, hs, hall⟩
    · exact Or.inr ⟨s :: pre, b, post, rfl, hb, hpost⟩

/-! ## Single calls -/

/-- The number of ships after one call: `AddShip` adds one ship and returns the id
computed from the previous number of ships; no other call changes the number of ships or
returns an id. -/
theorem World.call_length (w w' : World C) (c : World.Call C) (r : World.Returned)
    (h : w.call c = some (r, w')) :
    (∃ sd md gp, c = .AddShip sd md gp ∧ w'.mAllShips.length = w.mAllShips.length + 1 ∧
      r = .shipId ((w.mAllShips.length % 2 ^ C.ShipIdBits + 1) % 2 ^ C.ShipIdBits)) ∨
    ((∀ id, r ≠ .shipId id) ∧ w'.mAllShips.length = w.mAllShips.length) := by
  cases c <;> simp only [World.call, Option.some.injEq, Prod.mk.injEq, Option.map_eq_some'] at h
  case AddShip sd md gp =>
    left
    obtain ⟨h1, h2⟩ := h
    refine ⟨sd, md, gp, rfl, ?_, ?_⟩
    · rw [← h2]; simp [World.AddShip]
    · rw [← h1]; simp [World.AddShip]
  case MoveBy id off gp =>
    right
    obtain ⟨a, ha, h1, h2⟩ := h
    subst h1 h2
    simp only [World.MoveBy] at ha
    split at ha
    · simp at ha; subst ha; simp
    · simp at ha
  case RotateBy id ang ce gp =>
    right
    obtain ⟨a, ha, h1, h2⟩ := h
    subst h1 h2
    simp only [World.RotateBy] at ha
    split at ha
    · simp at ha; subst ha; simp
    · simp at ha
  all_goals
    right
    obtain ⟨h1, h2⟩ := h
    subst h1 h2
    simp [World.DestroyAt, World.SawThrough, World.DrawTo, World.SwirlAt, World.TogglePinAt,
      World.InjectBubblesAt, World.FloodAt, World.ToggleAntiMatterBombAt,
      World.ToggleImpactBombAt, World.ToggleRCBombAt, World.ToggleTimerBombAt,
      World.DetonateRCBombs, World.DetonateAntiMatterBombs, World.AdjustOceanFloorTo,
      World.Update, length_forEachShip, length_searchFromLast]

/-- The clock and the visit sequence number after one call: `Update` adds one step to
the time and takes the next visit sequence number; every other call leaves both as they
are. -/
theorem World.call_clock (w w' : World C) (c : World.Call C) (r : World.Returned)
    (h : w.call c = some (r, w')) :
    (c.isUpdate = true ∧
      w'.mCurrentVisitSequenceNumber
        = World.nextVisitSequenceNumber C w.mCurrentVisitSequenceNumber ∧
      w'.mCurrentSimulationTime = w.mCurrentSimulationTime + C.SimulationStepTimeDuration) ∨
    (c.isUpdate = false ∧
      w'.mCurrentVisitSequenceNumber = w.mCurrentVisitSequenceNumber ∧
      w'.mCurrentSimulationTime = w.mCurrentSimulationTime) := by
  cases c <;> simp only [World.call, Option.some.injEq, Prod.mk.injEq, Option.map_eq_some'] at h
  case MoveBy id off gp =>
    right
    obtain ⟨a, ha, h1, h2⟩ := h
    subst h1 h2
    simp only [World.MoveBy] at ha
    split at ha
    · simp at ha; subst ha; simp [World.Call.isUpdate]
    · simp at ha
  case RotateBy id ang ce gp =>
    right
    obtain ⟨a, ha, h1, h2⟩ := h
    subst h1 h2
    simp only [World.RotateBy] at ha
    split at ha
    · simp at ha; subst ha; simp [World.Call.isUpdate]
    · simp at ha
  case Update gp rc =>
    left
    obtain ⟨h1, h2⟩ := h
    subst h1 h2
    simp [World.Call.isUpdate, World.Update]
  all_goals
    right
    obtain ⟨h1, h2⟩ := h
    subst h1 h2
    simp [World.Call.isUpdate, World.AddShip, World.DestroyAt, World.SawThrough, World.DrawTo,
      World.SwirlAt, World.TogglePinAt,
      World.InjectBubblesAt, World.FloodAt, World.ToggleAntiMatterBombAt,
      World.ToggleImpactBombAt, World.ToggleRCBombAt, World.ToggleTimerBombAt,
      World.DetonateRCBombs, World.DetonateAntiMatterBombs, World.AdjustOceanFloorTo]

/-! ## Ship identifiers -/

/-- A returned value that is not a ship id adds nothing to the log of `AddShip` calls. -/
theorem World.addShipLog_cons_other (r : World.Returned) (w' : World C)
    (rest : List (World.Returned × World C)) (hr : ∀ id, r ≠ .shipId id) :
    World.addShipLog ((r, w') :: rest) = World.addShipLog rest := by
  cases r with
  | void => rfl
  | bool b => rfl
  | shipId id => exact absurd rfl (hr id)

/-- From a world with `n` ships, the `AddShip` calls of any sequence of calls return
`n + 1`, `n + 2`, ... as long as these fit the type `ShipId`, and the ship count after each
is the id it returned. -/
theorem World.trace_addShipLog (calls : List (World.Call C)) :
    ∀ (w : World C) (history : List (World.Returned × World C)),
      w.trace calls = some history →
      w.mAllShips.length + (World.addShipLog history).length < 2 ^ C.ShipIdBits →
      World.addShipLog history =
        (List.range' (w.mAllShips.length + 1) (World.addShipLog history).length).map
          (fun k => (k, k)) := by
  induction calls with
  | nil =>
    intro w history h _
    simp only [World.trace, Option.some.injEq] at h
    subst h
    simp [World.addShipLog]
  | cons c rest ih =>
    intro w history h hfit
    simp only [World.trace] at h
    cases hc : w.call c with
    | none => simp [hc] at h
    | some p =>
      obtain ⟨r, w'⟩ := p
      simp only [hc, Option.map_eq_some'] at h
      obtain ⟨h', hh', rfl⟩ := h
      rcases World.call_length w w' c r hc with ⟨sd, md, gp, -, hlen, hr⟩ | ⟨hr, hlen⟩
      · subst hr
        simp only [World.addShipLog, List.length_cons] at hfit ⊢
        have hlt : w.mAllShips.length + 1 < 2 ^ C.ShipIdBits := by omega
        have hid : (w.mAllShips.length % 2 ^ C.ShipIdBits + 1) % 2 ^ C.ShipIdBits
            = w.mAllShips.length + 1 := by
          have h1 : w.mAllShips.length % 2 ^ C.ShipIdBits = w.mAllShips.length :=
            Nat.mod_eq_of_lt (by omega)
          rw [h1, Nat.mod_eq_of_lt hlt]
        have := ih w' h' hh' (by rw [hlen]; omega)
        rw [hid, List.range'_succ, List.map_cons, this, hlen]
        simp [World.GetShipCount, hlen]
      · rw [World.addShipLog_cons_other r w' h' hr] at hfit ⊢
        have := ih w' h' hh' (by rw [hlen]; exact hfit)
        rw [this, hlen]
        simp

/-- Claim C1: in every sequence of calls on a newly constructed world, whatever other
calls come in between, the `k`-th call of `AddShip` returns the ship id `k` and
`GetShipCount()` is `k` right after it, so that the first id is `1`, every later id is the
previous one plus `1`, and no id is returned twice. The ids are values of the unsigned
type `ShipId`: the statement is for sequences with fewer than `2 ^ ShipIdBits` calls of
`AddShip`. `World.addShipLog history` lists, for the calls of `AddShip` in order, the id
returned and the ship count right after the call. -/
theorem World.AddShip_returns_consecutive_ids (gameEventHandler : C.GameEventHandler)
    (gameParameters : C.GameParameters) (resourceLoader : C.ResourceLoader)
    (calls : List (World.Call C)) (history : List (World.Returned × World C))
    (hrun : (World.new gameEventHandler gameParameters resourceLoader).trace calls
      = some history)
    (hfit : (World.addShipLog history).length < 2 ^ C.ShipIdBits) :
    World.addShipLog history
        = (List.range' 1 (World.addShipLog history).length).map (fun k => (k, k))
      ∧ (∀ (k : Nat) (hk : k < (World.addShipLog history).length),
          (World.addShipLog history)[k] = (k + 1, k + 1))
      ∧ ((World.addShipLog history).map Prod.fst).Nodup := by
  have h := World.trace_addShipLog calls _ history hrun (by simpa [World.new] using hfit)
  simp only [World.new, List.length_nil, Nat.zero_add] at h
  refine ⟨h, ?_, ?_⟩
  · intro k hk
    rw [List.getElem_of_eq h hk]
    simp
    omega
  · rw [h]
    simp only [List.map_map]
    have : (Prod.fst ∘ fun k : Nat => (k, k)) = id := by funext k; rfl
    rw [this, List.map_id]
    exact List.nodup_range' 1 _

/-- Claim C1, worked example: seven calls on a new world, three of them `AddShip`; the
three calls return the ids `1`, `2`, `3`, and the ship count after each is its id. -/
theorem World.AddShip_returns_consecutive_ids_witness :
    ∃ history,
      (World.new (C := exampleCollaborators) () () ()).trace exampleCalls = some history ∧
      (World.addShipLog history).length < 2 ^ exampleCollaborators.ShipIdBits ∧
      World.addShipLog history = [(1, 1), (2, 2), (3, 3)] := by
  refine ⟨_, rfl, by decide, ?_⟩
  have h := (World.AddShip_returns_consecutive_ids (C := exampleCollaborators) () () ()
      exampleCalls _ rfl (by decide)).1
  rw [h]
  rfl

/-! ## Dispatch to one ship -/

/-- Claim C2: each of `TogglePinAt`, `ToggleAntiMatterBombAt`, `ToggleImpactBombAt`,
`ToggleRCBombAt` and `ToggleTimerBombAt` tries the ship operation from the last inserted
ship backwards and stops at the first success. With the ships split as
`pre ++ b :: post`, where `b` succeeds and no ship inserted after it does, the ship
affected is `b`; the ships of `post` were tried and failed; the ships of `pre`, inserted
before `b`, are not invoked: they are in the new world as they were. (With two ships
`A`, `B` that both succeed this is `pre = [A]`, `b = B`, `post = []`.) -/
theorem World.toggle_dispatch_stops_at_last_inserted_success (w : World C) (targetPos : vec2f)
    (gameParameters : C.GameParameters) (pre post : List C.Ship) (b : C.Ship)
    (hsplit : w.mAllShips = pre ++ b :: post) :
    ∀ p ∈ [(C.Ship_TogglePinAt, World.TogglePinAt (C := C)),
        (C.Ship_ToggleAntiMatterBombAt, World.ToggleAntiMatterBombAt),
        (C.Ship_ToggleImpactBombAt, World.ToggleImpactBombAt),
        (C.Ship_ToggleRCBombAt, World.ToggleRCBombAt),
        (C.Ship_ToggleTimerBombAt, World.ToggleTimerBombAt)],
      (p.1 targetPos gameParameters b).1 = true →
      (∀ s ∈ post, (p.1 targetPos gameParameters s).1 = false) →
      (p.2 w targetPos gameParameters).mAllShips
        = pre ++ (p.1 targetPos gameParameters b).2
            :: post.map (fun s => (p.1 targetPos gameParameters s).2) := by
  intro p hp hb hpost
  simp only [List.mem_cons, List.mem_singleton, List.not_mem_nil, or_false] at hp
  rcases hp with rfl | rfl | rfl | rfl | rfl
  all_goals
    simp only [World.TogglePinAt, World.ToggleAntiMatterBombAt, World.ToggleImpactBombAt,
      World.ToggleRCBombAt, World.ToggleTimerBombAt, hsplit]
    exact (searchFromLast_reverse_success _ pre post b hb hpost).2

/-- Claim C2, worked example: ships `A` (added first) and `B` (added second) would both
succeed; after `TogglePinAt` no operation was invoked on `A` and one on `B`. -/
theorem World.toggle_dispatch_stops_at_last_inserted_success_witness :
    ((exampleWorld [exampleShip 1 true 7 3 4, exampleShip 2 true 9 0 3]).TogglePinAt
        ⟨0, 0⟩ ()).mAllShips
      = [exampleShip 1 true 7 3 4, { exampleShip 2 true 9 0 3 with invocations := 1 }] :=
  World.toggle_dispatch_stops_at_last_inserted_success
    (exampleWorld [exampleShip 1 true 7 3 4, exampleShip 2 true 9 0 3]) ⟨0, 0⟩ ()
    [exampleShip 1 true 7 3 4] [] (exampleShip 2 true 9 0 3) rfl
    (exampleCollaborators.Ship_TogglePinAt, World.TogglePinAt) (by simp) rfl (by simp)

/-! ## Single precision comparisons -/

/-- No `float` is below itself. -/
theorem float.lt_irrefl (a : float) : float.lt a a = false := by
  cases a <;> simp [float.lt]

/-- The operator `<` of `float` is transitive. -/
theorem float.lt_trans (a b c : float) (hab : float.lt a b = true)
    (hbc : float.lt b c = true) : float.lt a c = true := by
  cases a <;> cases b <;> cases c <;> simp_all [float.lt]
  exact hab.trans hbc

/-- A `float` that is below another one is not a NaN. -/
theorem float.ne_nan_of_lt (a b : float) (hab : float.lt a b = true) : a ≠ float.nan := by
  cases a <;> simp_all [float.lt]

/-- Among numbers (not NaN), when `b < a` is false then `a <= b` is true. -/
theorem float.le_of_not_lt (a b : float) (ha : a ≠ float.nan) (hb : b ≠ float.nan)
    (h : float.lt b a = false) : float.le a b = true := by
  cases a <;> cases b <;> simp_all [float.lt, float.le]

/-- Rounding never gives a NaN. -/
theorem float.round_ne_nan (q : ℚ) : float.round q ≠ float.nan := by
  unfold float.round
  split
  · simp
  · split
    · split <;> simp
    · simp

/-- Rounding a number that is not negative never gives the negative infinity. -/
theorem float.round_ne_negInf (q : ℚ) (hq : 0 ≤ q) : float.round q ≠ float.negInf := by
  unfold float.round
  split
  · simp
  · rename_i h0
    have hpos : 0 < q := lt_of_le_of_ne hq (Ne.symm h0)
    split
    · simp [hpos]
    · simp

/-- The square of a `float` that is not a NaN is neither a NaN nor the negative
infinity. -/
theorem float.mul_self (a : float) (ha : a ≠ float.nan) :
    float.mul a a ≠ float.nan ∧ float.mul a a ≠ float.negInf := by
  cases a with
  | finite q =>
    exact ⟨float.round_ne_nan _, float.round_ne_negInf _ (mul_self_nonneg q)⟩
  | posInf => simp [float.mul]
  | negInf => simp [float.mul]
  | nan => exact absurd rfl ha

/-- The sum of two values of `float` that are neither a NaN nor the negative infinity is
not a NaN. -/
theorem float.add_ne_nan (a b : float) (ha : a ≠ float.nan ∧ a ≠ float.negInf)
    (hb : b ≠ float.nan ∧ b ≠ float.negInf) : float.add a b ≠ float.nan := by
  cases a <;> cases b <;> simp_all [float.add]
  exact float.round_ne_nan _

/-- The difference of two finite values of `float` is not a NaN. -/
theorem float.sub_finite_ne_nan (a b : ℚ) :
    float.sub (float.finite a) (float.finite b) ≠ float.nan :=
  float.round_ne_nan _

/-- The square distance between two points with finite coordinates is not a NaN. -/
theorem vec2f.squareDistance_ne_nan (a b : vec2f) : (a.sub b).squareLength ≠ float.nan := by
  unfold vec2f.sub vec2f_computed.squareLength
  exact float.add_ne_nan _ _ (float.mul_self _ (float.sub_finite_ne_nan _ _))
    (float.mul_self _ (float.sub_finite_ne_nan _ _))

/-! ## The nearest point -/

/-- The square distance computed for a ship is not a NaN. -/
theorem World.shipSquareDistance_ne_nan (targetPos : vec2f) (radius : ℚ) (ship : C.Ship) :
    World.shipSquareDistance C targetPos radius ship ≠ float.nan :=
  vec2f.squareDistance_ne_nan _ _

/-- One iteration of the scan, in terms of what the ship reports. -/
theorem World.GetNearestPointAt_visit_eq (targetPos : vec2f) (radius : ℚ)
    (best : NearestPointSearch) (ship : C.Ship) :
    World.GetNearestPointAt_visit C targetPos radius best ship =
      if World.shipReportsPoint C targetPos radius ship ∧
          float.lt (World.shipSquareDistance C targetPos radius ship) best.bestSquareDistance
            = true then
        { bestPointId := some (World.shipPointId C targetPos radius ship)
          bestSquareDistance := World.shipSquareDistance C targetPos radius ship }
      else best := by
  unfold World.GetNearestPointAt_visit World.shipReportsPoint World.shipSquareDistance
    World.shipPointId
  by_cases h1 : C.NoneElementIndex ≠ C.Ship_GetNearestPointAt targetPos radius ship
  · by_cases h2 : float.lt ((C.Ship_GetPointPosition ship
        (C.Ship_GetNearestPointAt targetPos radius ship)).sub targetPos).squareLength
        best.bestSquareDistance = true
    · simp [h1, h2]
    · simp [h1, h2]
  · simp [h1]

/-- The invariant of the scan of `World::GetNearestPointAt`, after the ships `ships`. -/
theorem World.GetNearestPointAt_scan (targetPos : vec2f) (radius : ℚ) (ships : List C.Ship) :
    ∀ best, best = ships.foldl (World.GetNearestPointAt_visit C targetPos radius)
        { bestPointId := none, bestSquareDistance := float.finite numeric_limits_float_max } →
      (best.bestPointId = none →
        best.bestSquareDistance = float.finite numeric_limits_float_max) ∧
      (∀ id, best.bestPointId = some id →
        ∃ ship ∈ ships, World.shipReportsPoint C targetPos radius ship ∧
          id = World.shipPointId C targetPos radius ship ∧
          best.bestSquareDistance = World.shipSquareDistance C targetPos radius ship ∧
          float.lt (World.shipSquareDistance C targetPos radius ship)
            (float.finite numeric_limits_float_max) = true) ∧
      (∀ s ∈ ships, World.shipReportsPoint C targetPos radius s →
        float.lt (World.shipSquareDistance C targetPos radius s) best.bestSquareDistance
          = false) ∧
      (float.lt best.bestSquareDistance (float.finite numeric_limits_float_max) = true
        ∨ best.bestSquareDistance = float.finite numeric_limits_float_max) := by
  induction ships using List.reverseRecOn with
  | nil =>
    rintro best rfl
    exact ⟨fun _ => rfl, fun id h => by simp at h, fun s hs => by simp at hs, Or.inr rfl⟩
  | append_singleton seen x ih =>
    rintro best' rfl
    rw [List.foldl_append, List.foldl_cons, List.foldl_nil, World.GetNearestPointAt_visit_eq]
    obtain ⟨ih_none, ih_some, ih_le, ih_max⟩ := ih _ rfl
    generalize (seen.foldl (World.GetNearestPointAt_visit C targetPos radius)
        { bestPointId := none, bestSquareDistance := float.finite numeric_limits_float_max })
      = best at ih_none ih_some ih_le ih_max ⊢
    by_cases hx : World.shipReportsPoint C targetPos radius x ∧
        float.lt (World.shipSquareDistance C targetPos radius x) best.bestSquareDistance = true
    · rw [if_pos hx]
      have hxmax : float.lt (World.shipSquareDistance C targetPos radius x)
          (float.finite numeric_limits_float_max) = true := by
        rcases ih_max with h | h
        · exact float.lt_trans _ _ _ hx.2 h
        · rw [← h]; exact hx.2
      refine ⟨fun h => by simp at h, ?_, ?_, Or.inl hxmax⟩
      · intro id hid
        simp only [Option.some.injEq] at hid
        exact ⟨x, by simp, hx.1, hid.symm, rfl, hxmax⟩
      · intro s hs hrep
        rcases List.mem_append.mp hs with hs | hs
        · cases hlt : float.lt (World.shipSquareDistance C targetPos radius s)
              (World.shipSquareDistance C targetPos radius x) with
          | false => rfl
          | true =>
            have := float.lt_trans _ _ _ hlt hx.2
            rw [ih_le s hs hrep] at this
            cases this
        · simp only [List.mem_singleton] at hs
          subst hs
          exact float.lt_irrefl _
    · rw [if_neg hx]
      refine ⟨ih_none, ?_, ?_, ih_max⟩
      · intro id hid
        obtain ⟨ship, hmem, h⟩ := ih_some id hid
        exact ⟨ship, List.mem_append_left _ hmem, h⟩
      · intro s hs hrep
        rcases List.mem_append.mp hs with hs | hs
        · exact ih_le s hs hrep
        · simp only [List.mem_singleton] at hs
          subst hs
          cases hlt : float.lt (World.shipSquareDistance C targetPos radius s)
              best.bestSquareDistance with
          | false => rfl
          | true => exact absurd ⟨hrep, hlt⟩ hx

/-- Ships that are not strictly closer than the best so far leave the search as it is. -/
theorem World.GetNearestPointAt_scan_unchanged (targetPos : vec2f) (radius : ℚ)
    (ships : List C.Ship) (best : NearestPointSearch)
    (h : ∀ s ∈ ships, World.shipReportsPoint C targetPos radius s →
      float.lt (World.shipSquareDistance C targetPos radius s) best.bestSquareDistance
        = false) :
    ships.foldl (World.GetNearestPointAt_visit C targetPos radius) best = best := by
  induction ships with
  | nil => rfl
  | cons x rest ih =>
    rw [List.foldl_cons, World.GetNearestPointAt_visit_eq]
    have hx : ¬ (World.shipReportsPoint C targetPos radius x ∧
        float.lt (World.shipSquareDistance C targetPos radius x) best.bestSquareDistance
          = true) := by
      rintro ⟨hrep, hlt⟩
      rw [h x (List.mem_cons_self _ _) hrep] at hlt
      cases hlt
    rw [if_neg hx]
    exact ih (fun s hs => h s (List.mem_cons_of_mem _ hs))

/-- The first ship that attains the least computed square distance, when that is below
the largest finite `float`, is the one whose point the scan ends with. -/
theorem World.GetNearestPointAt_scan_first_least (targetPos : vec2f) (radius : ℚ)
    (pre post : List C.Ship) (ship : C.Ship)
    (hrep : World.shipReportsPoint C targetPos radius ship)
    (hmax : float.lt (World.shipSquareDistance C targetPos radius ship)
      (float.finite numeric_limits_float_max) = true)
    (hpre : ∀ s ∈ pre, World.shipReportsPoint C targetPos radius s →
      float.lt (World.shipSquareDistance C targetPos radius ship)
        (World.shipSquareDistance C targetPos radius s) = true)
    (hpost : ∀ s ∈ post, World.shipReportsPoint C targetPos radius s →
      float.lt (World.shipSquareDistance C targetPos radius s)
        (World.shipSquareDistance C targetPos radius ship) = false) :
    ((pre ++ ship :: post).foldl (World.GetNearestPointAt_visit C targetPos radius)
        { bestPointId := none,
          bestSquareDistance := float.finite numeric_limits_float_max }).bestPointId
      = some (World.shipPointId C targetPos radius ship) := by
  rw [List.foldl_append, List.foldl_cons, World.GetNearestPointAt_visit_eq]
  obtain ⟨h_none, h_some, -, -⟩ := World.GetNearestPointAt_scan targetPos radius pre _ rfl
  generalize (pre.foldl (World.GetNearestPointAt_visit C targetPos radius)
      { bestPointId := none, bestSquareDistance := float.finite numeric_limits_float_max })
    = best at h_none h_some ⊢
  have hlt : float.lt (World.shipSquareDistance C targetPos radius ship)
      best.bestSquareDistance = true := by
    cases hb : best.bestPointId with
    | none => rw [h_none hb]; exact hmax
    | some id =>
      obtain ⟨s, hs, hsrep, -, hdist, -⟩ := h_some id hb
      rw [hdist]
      exact hpre s hs hsrep
  rw [if_pos ⟨hrep, hlt⟩, World.GetNearestPointAt_scan_unchanged targetPos radius post _ hpost]

/-- The result is a point of a ship that reports it, and no reporting ship is strictly
nearer in the computed square distances. -/
theorem World.GetNearestPointAt_some_scan (w : World C) (targetPos : vec2f) (radius : ℚ)
    (id : ObjectId) (h : w.GetNearestPointAt targetPos radius = some id) :
    ∃ ship ∈ w.mAllShips, World.shipReportsPoint C targetPos radius ship ∧
      id = World.shipPointId C targetPos radius ship ∧
      float.lt (World.shipSquareDistance C targetPos radius ship)
        (float.finite numeric_limits_float_max) = true ∧
      ∀ s ∈ w.mAllShips, World.shipReportsPoint C targetPos radius s →
        float.lt (World.shipSquareDistance C targetPos radius s)
          (World.shipSquareDistance C targetPos radius ship) = false := by
  obtain ⟨-, h_some, h_le, -⟩ := World.GetNearestPointAt_scan targetPos radius w.mAllShips _ rfl
  obtain ⟨ship, hmem, hrep, hid, hdist, hmax⟩ := h_some id h
  refine ⟨ship, hmem, hrep, hid, hmax, ?_⟩
  intro s hs hsrep
  rw [← hdist]
  exact h_le s hs hsrep

/-- The result is empty exactly when no ship reports a point whose computed square
distance is below the largest finite `float`. -/
theorem World.GetNearestPointAt_none_scan (w : World C) (targetPos : vec2f) (radius : ℚ) :
    w.GetNearestPointAt targetPos radius = none ↔
      ∀ ship ∈ w.mAllShips, World.shipReportsPoint C targetPos radius ship →
        float.lt (World.shipSquareDistance C targetPos radius ship)
          (float.finite numeric_limits_float_max) = false := by
  obtain ⟨h_none, h_some, h_le, -⟩ :=
    World.GetNearestPointAt_scan targetPos radius w.mAllShips _ rfl
  constructor
  · intro h ship hmem hrep
    have := h_le ship hmem hrep
    rwa [h_none h] at this
  · intro h
    cases hres : w.GetNearestPointAt targetPos radius with
    | none => rfl
    | some id =>
      obtain ⟨ship, hmem, hrep, -, -, hmax⟩ := h_some id hres
      rw [h ship hmem hrep] at hmax
      cases hmax

/-- Claim C3: when `World::GetNearestPointAt` returns a point, the point is the one
reported by a ship of the world, its square distance to the target is less than or equal
to the square distance of the point reported by every ship of the world, and the
`ObjectId` returned carries the id `GetId()` of the ship that reported it together with
the index of the point in that ship. The square distances are the values of type `float`
that the function computes and compares, with the rounding of single precision, and
`<=` is that of `float`. With a ship `A` reporting a point at distance `5` and a ship `B`
reporting a point at distance `3`, in either insertion order, the result is the point of
`B`. -/
theorem World.GetNearestPointAt_returns_globally_closest (w : World C) (targetPos : vec2f)
    (radius : ℚ) :
    (∀ id, w.GetNearestPointAt targetPos radius = some id →
      ∃ ship ∈ w.mAllShips, World.shipReportsPoint C targetPos radius ship ∧
        id = ObjectId.mk (C.Ship_GetId ship) (C.Ship_GetNearestPointAt targetPos radius ship) ∧
        ∀ s ∈ w.mAllShips, World.shipReportsPoint C targetPos radius s →
          float.le (World.shipSquareDistance C targetPos radius ship)
            (World.shipSquareDistance C targetPos radius s) = true)
    ∧ (∀ A B : C.Ship, World.shipReportsPoint C targetPos radius A →
        World.shipReportsPoint C targetPos radius B →
        World.shipSquareDistance C targetPos radius A = float.finite (5 ^ 2) →
        World.shipSquareDistance C targetPos radius B = float.finite (3 ^ 2) →
        (w.mAllShips = [A, B] ∨ w.mAllShips = [B, A]) →
        w.GetNearestPointAt targetPos radius
          = some (ObjectId.mk (C.Ship_GetId B) (C.Ship_GetNearestPointAt targetPos radius B))) := by
  constructor
  · intro id h
    obtain ⟨ship, hmem, hrep, hid, hmax, hle⟩ :=
      World.GetNearestPointAt_some_scan w targetPos radius id h
    refine ⟨ship, hmem, hrep, hid, ?_⟩
    intro s hs hsrep
    exact float.le_of_not_lt _ _ (float.ne_nan_of_lt _ _ hmax)
      (World.shipSquareDistance_ne_nan targetPos radius s) (hle s hs hsrep)
  · intro A B hA hB dA dB hw
    have hmax : float.lt (World.shipSquareDistance C targetPos radius B)
        (float.finite numeric_limits_float_max) = true := by
      rw [dB]; simp [float.lt, numeric_limits_float_max]; norm_num
    have hBA : float.lt (World.shipSquareDistance C targetPos radius B)
        (World.shipSquareDistance C targetPos radius A) = true := by
      rw [dA, dB]; simp [float.lt]; norm_num
    have hAB : float.lt (World.shipSquareDistance C targetPos radius A)
        (World.shipSquareDistance C targetPos radius B) = false := by
      rw [dA, dB]; simp [float.lt]; norm_num
    rcases hw with hw | hw
    · have := World.GetNearestPointAt_scan_first_least targetPos radius [A] [] B hB hmax
        (by intro s hs _; simp only [List.mem_singleton] at hs; subst hs; exact hBA)
        (by intro s hs; simp at hs)
      simpa [World.GetNearestPointAt, hw, World.shipPointId] using this
    · have := World.GetNearestPointAt_scan_first_least targetPos radius [] [A] B hB hmax
        (by intro s hs; simp at hs)
        (by intro s hs _; simp only [List.mem_singleton] at hs; subst hs; exact hAB)
      simpa [World.GetNearestPointAt, hw, World.shipPointId] using this

/-- Claim C3, worked example: ship 1 reports its point 7 at `(3, 4)`, at distance 5 from
the target `(0, 0)`, and ship 2 reports its point 9 at `(0, 3)`, at distance 3: the result
is the point 9 of ship 2. -/
theorem World.GetNearestPointAt_returns_globally_closest_witness :
    (exampleWorld [exampleShip 1 true 7 3 4, exampleShip 2 true 9 0 3]).GetNearestPointAt
        ⟨0, 0⟩ 10 = some ⟨2, 9⟩ :=
  (World.GetNearestPointAt_returns_globally_closest
    (exampleWorld [exampleShip 1 true 7 3 4, exampleShip 2 true 9 0 3]) ⟨0, 0⟩ 10).2
    (exampleShip 1 true 7 3 4) (exampleShip 2 true 9 0 3) (by decide) (by decide)
    (by decide!) (by decide!) (Or.inl rfl)

/-- Two square distances that differ before rounding and are equal as values of `float`:
the point `(2 ^ (-12), 5)` of ship 1 and the point `(3, 4)` of ship 2 both have the
computed square distance `25` from the target `(0, 0)`, and the result is the point 7 of
ship 1, the first one found. -/
theorem World.GetNearestPointAt_equal_after_rounding :
    World.shipSquareDistance exampleCollaborators ⟨0, 0⟩ 10
        (exampleShip 1 true 7 (1 / 4096) 5) = float.finite 25
    ∧ World.shipSquareDistance exampleCollaborators ⟨0, 0⟩ 10 (exampleShip 2 true 9 3 4)
      = float.finite 25
    ∧ (exampleWorld [exampleShip 1 true 7 (1 / 4096) 5,
        exampleShip 2 true 9 3 4]).GetNearestPointAt ⟨0, 0⟩ 10 = some ⟨1, 7⟩ := by
  decide!

/-- Claim C4, evaluated on a world where the code departs from it: the ships 1 and 2 both
report a point at `(2 ^ 64 - 2 ^ 40, 3 * 2 ^ 50)`, whose computed square distance from the
target `(0, 0)` is the largest finite `float`, the value that the search starts from. The
two ships report candidate points at the same minimum square distance, and
`World::GetNearestPointAt` returns no point, where the claim has the point 7 of ship 1,
the first of the two in insertion order: the comparison
`squareDistance < bestSquareDistance` is false for both ships. -/
theorem World.GetNearestPointAt_tie_at_float_max_returns_nothing :
    World.shipReportsPoint exampleCollaborators ⟨0, 0⟩ 36893488147419103232
        (exampleShip 1 true 7 18446742974197923840 3377699720527872)
    ∧ World.shipReportsPoint exampleCollaborators ⟨0, 0⟩ 36893488147419103232
        (exampleShip 2 true 9 18446742974197923840 3377699720527872)
    ∧ World.shipSquareDistance exampleCollaborators ⟨0, 0⟩ 36893488147419103232
        (exampleShip 1 true 7 18446742974197923840 3377699720527872)
      = float.finite numeric_limits_float_max
    ∧ World.shipSquareDistance exampleCollaborators ⟨0, 0⟩ 36893488147419103232
        (exampleShip 2 true 9 18446742974197923840 3377699720527872)
      = float.finite numeric_limits_float_max
    ∧ (exampleWorld [exampleShip 1 true 7 18446742974197923840 3377699720527872,
        exampleShip 2 true 9 18446742974197923840 3377699720527872]).GetNearestPointAt
          ⟨0, 0⟩ 36893488147419103232 = none
    ∧ (exampleWorld [exampleShip 1 true 7 18446742974197923840 3377699720527872,
        exampleShip 2 true 9 18446742974197923840 3377699720527872]).GetNearestPointAt
          ⟨0, 0⟩ 36893488147419103232 ≠ some ⟨1, 7⟩ := by
  decide!

/-- Claim C5, evaluated on a world where the code departs from it: the only ship of the
world reports its point 7, which is not `NoneElementIndex`, at
`(2 ^ 64 - 2 ^ 40, 3 * 2 ^ 50)`. The computed square distance of that point from the
target `(0, 0)` is the largest finite `float`, the value that the search starts from, so
the comparison `squareDistance < bestSquareDistance` is false and
`World::GetNearestPointAt` returns the empty optional, where the claim has a point. A
point whose computed square distance overflows to the infinity, such as `(2 ^ 64, 0)`, is
missed in the same way. -/
theorem World.GetNearestPointAt_empty_though_a_ship_reports_a_point :
    exampleCollaborators.Ship_GetNearestPointAt ⟨0, 0⟩ 36893488147419103232
        (exampleShip 1 true 7 18446742974197923840 3377699720527872) = 7
    ∧ exampleCollaborators.NoneElementIndex ≠ 7
    ∧ World.shipSquareDistance exampleCollaborators ⟨0, 0⟩ 36893488147419103232
        (exampleShip 1 true 7 18446742974197923840 3377699720527872)
      = float.finite numeric_limits_float_max
    ∧ (exampleWorld
        [exampleShip 1 true 7 18446742974197923840 3377699720527872]).GetNearestPointAt
          ⟨0, 0⟩ 36893488147419103232 = none
    ∧ World.shipSquareDistance exampleCollaborators ⟨0, 0⟩ 36893488147419103232
        (exampleShip 1 true 7 18446744073709551616 0) = float.posInf
    ∧ (exampleWorld [exampleShip 1 true 7 18446744073709551616 0]).GetNearestPointAt
          ⟨0, 0⟩ 36893488147419103232 = none := by
  decide!

/-! ## The visit sequence number and the simulation time -/

/-- The next visit sequence number is never the reserved value, when the reserved
value is not `1`. -/
theorem World.nextVisitSequenceNumber_ne_none (hnone : C.NoneVisitSequenceNumber ≠ 1)
    (current : VisitSequenceNumber) :
    World.nextVisitSequenceNumber C current ≠ C.NoneVisitSequenceNumber := by
  unfold World.nextVisitSequenceNumber
  by_cases h : C.NoneVisitSequenceNumber = (current + 1) % 2 ^ C.VisitSequenceNumberBits
  · simp only [h, if_true]
    rw [← h]
    exact fun e => hnone e.symm
  · simp only [h, if_false]
    exact fun e => h e.symm

/-- No sequence of calls brings the visit sequence number to the reserved value. -/
theorem World.run_visit_ne_none (hnone : C.NoneVisitSequenceNumber ≠ 1)
    (calls : List (World.Call C)) :
    ∀ (w w' : World C), w.run calls = some w' →
      w.mCurrentVisitSequenceNumber ≠ C.NoneVisitSequenceNumber →
      w'.mCurrentVisitSequenceNumber ≠ C.NoneVisitSequenceNumber := by
  induction calls with
  | nil =>
    intro w w' h hw
    simp only [World.run, Option.some.injEq] at h
    subst h
    exact hw
  | cons c rest ih =>
    intro w w' h hw
    simp only [World.run] at h
    cases hc : w.call c with
    | none => simp [hc] at h
    | some p =>
      obtain ⟨r, w1⟩ := p
      simp only [hc] at h
      refine ih w1 w' h ?_
      rcases World.call_clock w w1 c r hc with ⟨-, hv, -⟩ | ⟨-, hv, -⟩
      · rw [hv]; exact World.nextVisitSequenceNumber_ne_none hnone _
      · rw [hv]; exact hw

/-- The time after a sequence of calls: one step for each call of `Update`. -/
theorem World.run_time (calls : List (World.Call C)) :
    ∀ (w w' : World C), w.run calls = some w' →
      w'.mCurrentSimulationTime
        = w.mCurrentSimulationTime
          + (calls.countP World.Call.isUpdate : ℚ) * C.SimulationStepTimeDuration := by
  induction calls with
  | nil =>
    intro w w' h
    simp only [World.run, Option.some.injEq] at h
    subst h
    simp
  | cons c rest ih =>
    intro w w' h
    simp only [World.run] at h
    cases hc : w.call c with
    | none => simp [hc] at h
    | some p =>
      obtain ⟨r, w1⟩ := p
      simp only [hc] at h
      rw [ih w1 w' h]
      rcases World.call_clock w w1 c r hc with ⟨hu, -, ht⟩ | ⟨hu, -, ht⟩
      · rw [ht, List.countP_cons_of_pos _ _ hu]
        push_cast
        ring
      · rw [ht, List.countP_cons_of_neg _ _ (by simp [hu])]

/-- Claim C6: the visit sequence number of a newly constructed world is `1`; in every
state reached from it by any sequence of calls (any number of `Update` calls, with any
other calls in between) it differs from the reserved `NoneVisitSequenceNumber`, also
after the increment wrapped around in the unsigned type of the counter; and an `Update`
whose increment lands on the reserved value sets the counter to `1`. The reserved value
is declared outside the available sources: it is a parameter, different from the initial
value `1`. -/
theorem World.visit_sequence_number_never_none (hnone : C.NoneVisitSequenceNumber ≠ 1)
    (gameEventHandler : C.GameEventHandler) (gameParameters : C.GameParameters)
    (resourceLoader : C.ResourceLoader) (calls : List (World.Call C)) (w : World C)
    (hrun : (World.new gameEventHandler gameParameters resourceLoader).run calls = some w) :
    (World.new gameEventHandler gameParameters resourceLoader).mCurrentVisitSequenceNumber = 1
    ∧ w.mCurrentVisitSequenceNumber ≠ C.NoneVisitSequenceNumber
    ∧ ∀ (gameParameters' : C.GameParameters) (renderContext : C.RenderContext),
        (w.mCurrentVisitSequenceNumber + 1) % 2 ^ C.VisitSequenceNumberBits
            = C.NoneVisitSequenceNumber →
        (w.Update gameParameters' renderContext).mCurrentVisitSequenceNumber = 1 := by
  refine ⟨rfl, ?_, ?_⟩
  · exact World.run_visit_ne_none hnone calls _ w hrun (fun e => hnone e.symm)
  · intro gp rc h
    simp [World.Update, World.nextVisitSequenceNumber, h]

/-- Claim C7: the simulation time of a newly constructed world is `0`; after any
sequence of calls it is the number of `Update` calls of the sequence times
`GameParameters::SimulationStepTimeDuration` (in exact arithmetic), so after `N` calls of
`Update` it is `N` times the step; each `Update` adds exactly one step; and no call other
than `Update` changes the simulation time. -/
theorem World.Update_advances_time_by_one_step (gameEventHandler : C.GameEventHandler)
    (gameParameters : C.GameParameters) (resourceLoader : C.ResourceLoader)
    (calls : List (World.Call C)) (w : World C)
    (hrun : (World.new gameEventHandler gameParameters resourceLoader).run calls = some w) :
    (World.new gameEventHandler gameParameters resourceLoader).mCurrentSimulationTime = 0
    ∧ w.mCurrentSimulationTime
        = (calls.countP World.Call.isUpdate : ℚ) * C.SimulationStepTimeDuration
    ∧ (∀ (gameParameters' : C.GameParameters) (renderContext : C.RenderContext),
        (w.Update gameParameters' renderContext).mCurrentSimulationTime
          = w.mCurrentSimulationTime + C.SimulationStepTimeDuration)
    ∧ (∀ (c : World.Call C) (r : World.Returned) (w' : World C),
        w.call c = some (r, w') → c.isUpdate = false →
        w'.mCurrentSimulationTime = w.mCurrentSimulationTime) := by
  refine ⟨rfl, ?_, ?_, ?_⟩
  · have h := World.run_time calls _ w hrun
    simpa [World.new] using h
  · intro gp rc
    simp [World.Update]
  · intro c r w' hc hu
    rcases World.call_clock w w' c r hc with ⟨hu', -, -⟩ | ⟨-, -, ht⟩
    · rw [hu] at hu'; cases hu'
    · exact ht

/-- Claim C6, worked example: with 32-bit counters and the reserved value `0`, the
example calls (two of them `Update`) leave the counter at `3`, and the increment of the
largest counter value `2 ^ 32 - 1` gives `1`. -/
theorem World.visit_sequence_number_never_none_witness :
    exampleCollaborators.NoneVisitSequenceNumber ≠ 1
    ∧ ∃ w, (World.new (C := exampleCollaborators) () () ()).run exampleCalls = some w
      ∧ w.mCurrentVisitSequenceNumber = 3
      ∧ w.mCurrentVisitSequenceNumber ≠ exampleCollaborators.NoneVisitSequenceNumber
      ∧ World.nextVisitSequenceNumber exampleCollaborators 4294967295 = 1 :=
  ⟨by decide, _, rfl, rfl,
    (World.visit_sequence_number_never_none (C := exampleCollaborators) (by decide) () () ()
      exampleCalls _ rfl).2.1, by decide⟩

/-- Claim C7, worked example: the example calls, two of them `Update`, with a step of
`1 / 50`, leave the simulation time at `2 * (1 / 50)`. -/
theorem World.Update_advances_time_by_one_step_witness :
    ∃ w, (World.new (C := exampleCollaborators) () () ()).run exampleCalls = some w
      ∧ w.mCurrentSimulationTime = 2 * (1 / 50) := by
  refine ⟨_, rfl, ?_⟩
  have h := (World.Update_advances_time_by_one_step (C := exampleCollaborators) () () ()
      exampleCalls _ rfl).2.1
  rw [h]
  norm_num [exampleCalls, World.Call.isUpdate, List.countP_cons, exampleCollaborators]

/-! ## Broadcasts and reporting dispatch -/

/-- Claim C8: each of `DestroyAt`, `SawThrough`, `DrawTo`, `SwirlAt`, `DetonateRCBombs`
and `DetonateAntiMatterBombs` applies the corresponding ship operation, with the
arguments of the caller (and the current simulation time where the ship operation takes
it), once to every ship of the world, whatever the operation does: the new ship list has
the same length and its `i`-th ship is the result of the operation on the old `i`-th
ship. Each pair below is a ship operation and the ship list left by the world function
that broadcasts it. -/
theorem World.broadcast_reaches_every_ship (w : World C) (targetPos startPos endPos : vec2f)
    (radiusMultiplier strength : ℚ) (gameParameters : C.GameParameters) :
    ∀ p ∈ [(C.Ship_DestroyAt targetPos radiusMultiplier w.mCurrentSimulationTime gameParameters,
          (w.DestroyAt targetPos radiusMultiplier gameParameters).mAllShips),
        (C.Ship_SawThrough startPos endPos w.mCurrentSimulationTime gameParameters,
          (w.SawThrough startPos endPos gameParameters).mAllShips),
        (C.Ship_DrawTo targetPos strength gameParameters,
          (w.DrawTo targetPos strength gameParameters).mAllShips),
        (C.Ship_SwirlAt targetPos strength gameParameters,
          (w.SwirlAt targetPos strength gameParameters).mAllShips),
        (C.Ship_DetonateRCBombs, w.DetonateRCBombs.mAllShips),
        (C.Ship_DetonateAntiMatterBombs, w.DetonateAntiMatterBombs.mAllShips)],
      p.2 = w.mAllShips.map p.1
      ∧ p.2.length = w.mAllShips.length
      ∧ ∀ (i : Nat) (hi : i < w.mAllShips.length) (hi' : i < p.2.length),
          p.2[i] = p.1 w.mAllShips[i] := by
  intro p hp
  have key : p.2 = w.mAllShips.map p.1 := by
    simp only [List.mem_cons, List.mem_singleton, List.not_mem_nil, or_false] at hp
    rcases hp with rfl | rfl | rfl | rfl | rfl | rfl <;>
      simp [World.DestroyAt, World.SawThrough, World.DrawTo, World.SwirlAt,
        World.DetonateRCBombs, World.DetonateAntiMatterBombs, forEachShip_eq_map]
  refine ⟨key, by rw [key, List.length_map], ?_⟩
  intro i hi hi'
  simp [key]

/-- Claim C9: `FloodAt` and `InjectBubblesAt` return `true` if and only if the operation
succeeds on at least one ship; they return `false` for a world without ships; when they
return `true`, the ships split as `pre ++ b :: post` where `b` is the last inserted ship
on which the operation succeeds: it is the only ship that reported success, the ships of
`post` were tried and reported failure, and the ships of `pre` were not invoked; when
they return `false` every ship was tried. Each pair below is a ship operation and the
result of the world function that dispatches it. -/
theorem World.flood_and_bubbles_report_last_inserted_success (w : World C) (targetPos : vec2f)
    (waterQuantityMultiplier searchRadius : ℚ) (gameParameters : C.GameParameters) :
    ∀ p ∈ [(C.Ship_FloodAt targetPos waterQuantityMultiplier searchRadius gameParameters,
          w.FloodAt targetPos waterQuantityMultiplier searchRadius gameParameters),
        (C.Ship_InjectBubblesAt targetPos w.mCurrentSimulationTime gameParameters,
          w.InjectBubblesAt targetPos gameParameters)],
      (p.2.1 = true ↔ ∃ s ∈ w.mAllShips, (p.1 s).1 = true)
      ∧ (w.mAllShips = [] → p.2.1 = false)
      ∧ (p.2.1 = true →
          ∃ pre b post, w.mAllShips = pre ++ b :: post ∧ (p.1 b).1 = true
            ∧ (∀ s ∈ post, (p.1 s).1 = false)
            ∧ p.2.2.mAllShips = pre ++ (p.1 b).2 :: post.map (fun s => (p.1 s).2))
      ∧ (p.2.1 = false → p.2.2.mAllShips = w.mAllShips.map (fun s => (p.1 s).2)) := by
  intro p hp
  have key : p.2.1 = (searchFromLast p.1 w.mAllShips.reverse).1
      ∧ p.2.2.mAllShips = (searchFromLast p.1 w.mAllShips.reverse).2.reverse := by
    simp only [List.mem_cons, List.mem_singleton, List.not_mem_nil, or_false] at hp
    rcases hp with rfl | rfl <;> exact ⟨rfl, rfl⟩
  obtain ⟨k1, k2⟩ := key
  rw [k1, k2]
  rcases exists_last_success p.1 w.mAllShips with hall | ⟨pre, b, post, hsplit, hb, hpost⟩
  · obtain ⟨h1, h2⟩ := searchFromLast_reverse_all_fail p.1 w.mAllShips hall
    rw [h1, h2]
    refine ⟨?_, fun _ => rfl, fun h => by simp at h, fun _ => rfl⟩
    constructor
    · intro h; simp at h
    · rintro ⟨s, hs, hst⟩
      rw [hall s hs] at hst
      simp at hst
  · obtain ⟨h1, h2⟩ := searchFromLast_reverse_success p.1 pre post b hb hpost
    rw [hsplit, h1, h2]
    refine ⟨?_, fun h => by simp at h, fun _ => ⟨pre, b, post, rfl, hb, hpost, rfl⟩,
      fun h => by simp at h⟩
    constructor
    · intro _
      exact ⟨b, by simp, hb⟩
    · intro _; rfl

/-- Claim C8, worked example: `DestroyAt` on a world of two ships invokes one operation
on each of them. -/
theorem World.broadcast_reaches_every_ship_witness :
    ((exampleWorld [exampleShip 1 true 7 3 4, exampleShip 2 false 9 0 3]).DestroyAt
        ⟨0, 0⟩ 1 ()).mAllShips
      = [{ exampleShip 1 true 7 3 4 with invocations := 1 },
         { exampleShip 2 false 9 0 3 with invocations := 1 }] :=
  (World.broadcast_reaches_every_ship
    (exampleWorld [exampleShip 1 true 7 3 4, exampleShip 2 false 9 0 3])
    ⟨0, 0⟩ ⟨0, 0⟩ ⟨1, 1⟩ 1 1 ()
    (exampleCollaborators.Ship_DestroyAt ⟨0, 0⟩ 1 0 (),
      ((exampleWorld [exampleShip 1 true 7 3 4, exampleShip 2 false 9 0 3]).DestroyAt
        ⟨0, 0⟩ 1 ()).mAllShips)
    (List.mem_cons_self _ _)).1

/-- Claim C9, worked example: of three ships the first two would succeed and the third
fails; `FloodAt` returns `true`, the third and the second ship were invoked once, the
first not at all. -/
theorem World.flood_and_bubbles_report_last_inserted_success_witness :
    ((exampleWorld [exampleShip 1 true 7 3 4, exampleShip 2 true 9 0 3,
        exampleShip 3 false 5 1 1]).FloodAt ⟨0, 0⟩ 1 1 ()).1 = true
    ∧ ((exampleWorld [exampleShip 1 true 7 3 4, exampleShip 2 true 9 0 3,
        exampleShip 3 false 5 1 1]).FloodAt ⟨0, 0⟩ 1 1 ()).2.mAllShips
      = [exampleShip 1 true 7 3 4, { exampleShip 2 true 9 0 3 with invocations := 1 },
         { exampleShip 3 false 5 1 1 with invocations := 1 }] :=
  ⟨(World.flood_and_bubbles_report_last_inserted_success
      (exampleWorld [exampleShip 1 true 7 3 4, exampleShip 2 true 9 0 3,
        exampleShip 3 false 5 1 1]) ⟨0, 0⟩ 1 1 ()
      (exampleCollaborators.Ship_FloodAt ⟨0, 0⟩ 1 1 (),
        (exampleWorld [exampleShip 1 true 7 3 4, exampleShip 2 true 9 0 3,
          exampleShip 3 false 5 1 1]).FloodAt ⟨0, 0⟩ 1 1 ())
      (List.mem_cons_self _ _)).1.mpr
      ⟨exampleShip 2 true 9 0 3, by simp [exampleWorld], rfl⟩,
    rfl⟩

/-! ## Ship identifiers stay valid -/

/-- Ships related place by place: a ship of the first list has a related ship at the same
place of the second. -/
theorem forall2_at_place {α : Type} {R : α → α → Prop} {l u : List α}
    (h : List.Forall₂ R l u) :
    ∀ (i : Nat) (s : α), l[i]? = some s → ∃ s', u[i]? = some s' ∧ R s s' := by
  induction h with
  | nil => intro i s hs; simp at hs
  | cons hab _ ih =>
    intro i s hs
    cases i with
    | zero =>
      simp only [List.getElem?_cons_zero, Option.some.injEq] at hs
      subst hs
      exact ⟨_, by simp, hab⟩
    | succ i =>
      simp only [List.getElem?_cons_succ] at hs ⊢
      exact ih i s hs

/-- The search from the last ship leaves every ship either untouched or in the state its
operation produced, at its place. -/
theorem searchFromLast_pointwise {Ship : Type} (op : Ship → Bool × Ship) (ships : List Ship) :
    List.Forall₂ (fun s s' => s' = s ∨ s' = (op s).2) ships (searchFromLast op ships).2 := by
  induction ships with
  | nil => exact List.Forall₂.nil
  | cons s rest ih =>
    unfold searchFromLast
    split
    · exact List.Forall₂.cons (Or.inr rfl) (List.forall₂_same.mpr (fun _ _ => Or.inl rfl))
    · exact List.Forall₂.cons (Or.inr rfl) ih

/-- The dispatch loop, in insertion order: every place holds the ship it held, untouched or
after the operation. -/
theorem searchFromLast_reverse_at_place {Ship : Type} (op : Ship → Bool × Ship)
    (ships : List Ship) (i : Nat) (s : Ship) (hs : ships[i]? = some s) :
    ∃ s', (searchFromLast op ships.reverse).2.reverse[i]? = some s'
      ∧ (s' = s ∨ s' = (op s).2) := by
  have h := searchFromLast_pointwise op ships.reverse
  have h2 : List.Forall₂ (fun s s' => s' = s ∨ s' = (op s).2) ships
      (searchFromLast op ships.reverse).2.reverse := by
    rw [← List.forall₂_reverse_iff]
    simpa using h
  exact forall2_at_place h2 i s hs

/-- The broadcast loop: every place holds the ship it held, after the operation. -/
theorem forEachShip_at_place {Ship : Type} (op : Ship → Ship) (ships : List Ship) (i : Nat)
    (s : Ship) (hs : ships[i]? = some s) : (forEachShip op ships)[i]? = some (op s) := by
  rw [forEachShip_eq_map, List.getElem?_map, hs]
  rfl

/-- One call keeps every ship at its place: the ship at a place after the call is the ship
that was there before, after zero or more operations on it. -/
theorem World.call_ships (w w' : World C) (c : World.Call C) (r : World.Returned)
    (h : w.call c = some (r, w')) (i : Nat) (s : C.Ship) (hs : w.mAllShips[i]? = some s) :
    ∃ s', w'.mAllShips[i]? = some s' ∧ C.SameShipLater s s' := by
  have toggled : ∀ (op : C.Ship → Bool × C.Ship), (∀ t, C.ShipOperated t (op t).2) →
      ∃ s', (searchFromLast op w.mAllShips.reverse).2.reverse[i]? = some s'
        ∧ C.SameShipLater s s' := by
    intro op hop
    obtain ⟨s', h1, h2⟩ := searchFromLast_reverse_at_place op w.mAllShips i s hs
    refine ⟨s', h1, ?_⟩
    rcases h2 with rfl | rfl
    · exact Relation.ReflTransGen.refl
    · exact Relation.ReflTransGen.single (hop s)
  have broadcast : ∀ (op : C.Ship → C.Ship), (∀ t, C.ShipOperated t (op t)) →
      ∃ s', (forEachShip op w.mAllShips)[i]? = some s' ∧ C.SameShipLater s s' := by
    intro op hop
    exact ⟨_, forEachShip_at_place op w.mAllShips i s hs, Relation.ReflTransGen.single (hop s)⟩
  have modified : ∀ (op : C.Ship → C.Ship) (n : Nat), (∀ t, C.ShipOperated t (op t)) →
      ∃ s', (w.mAllShips.modify op n)[i]? = some s' ∧ C.SameShipLater s s' := by
    intro op n hop
    rw [List.getElem?_modify, hs]
    by_cases hn : n = i
    · exact ⟨op s, by simp [hn], Relation.ReflTransGen.single (hop s)⟩
    · exact ⟨s, by simp [hn], Relation.ReflTransGen.refl⟩
  cases c <;> simp only [World.call, Option.some.injEq, Prod.mk.injEq, Option.map_eq_some'] at h
  case AddShip sd md gp =>
    obtain ⟨-, h2⟩ := h
    subst h2
    refine ⟨s, ?_, Relation.ReflTransGen.refl⟩
    have hi : i < w.mAllShips.length := (List.getElem?_eq_some.mp hs).1
    simp only [World.AddShip]
    rw [List.getElem?_append_left hi, hs]
  case MoveBy id off gp =>
    obtain ⟨a, ha, -, h2⟩ := h
    subst h2
    simp only [World.MoveBy] at ha
    split at ha
    · simp only [Option.some.injEq] at ha
      subst ha
      exact modified _ _ (fun t => Collaborators.ShipOperated.MoveBy off gp t)
    · simp at ha
  case RotateBy id ang ce gp =>
    obtain ⟨a, ha, -, h2⟩ := h
    subst h2
    simp only [World.RotateBy] at ha
    split at ha
    · simp only [Option.some.injEq] at ha
      subst ha
      exact modified _ _ (fun t => Collaborators.ShipOperated.RotateBy ang ce gp t)
    · simp at ha
  case DestroyAt tp rm gp =>
    obtain ⟨-, h2⟩ := h
    subst h2
    exact broadcast _ (fun t => Collaborators.ShipOperated.DestroyAt tp rm _ gp t)
  case SawThrough sp ep gp =>
    obtain ⟨-, h2⟩ := h
    subst h2
    exact broadcast _ (fun t => Collaborators.ShipOperated.SawThrough sp ep _ gp t)
  case DrawTo tp st gp =>
    obtain ⟨-, h2⟩ := h
    subst h2
    exact broadcast _ (fun t => Collaborators.ShipOperated.DrawTo tp st gp t)
  case SwirlAt tp st gp =>
    obtain ⟨-, h2⟩ := h
    subst h2
    exact broadcast _ (fun t => Collaborators.ShipOperated.SwirlAt tp st gp t)
  case TogglePinAt tp gp =>
    obtain ⟨-, h2⟩ := h
    subst h2
    exact toggled _ (fun t => Collaborators.ShipOperated.TogglePinAt tp gp t)
  case InjectBubblesAt tp gp =>
    obtain ⟨-, h2⟩ := h
    subst h2
    exact toggled _ (fun t => Collaborators.ShipOperated.InjectBubblesAt tp _ gp t)
  case FloodAt tp wq sr gp =>
    obtain ⟨-, h2⟩ := h
    subst h2
    exact toggled _ (fun t => Collaborators.ShipOperated.FloodAt tp wq sr gp t)
  case ToggleAntiMatterBombAt tp gp =>
    obtain ⟨-, h2⟩ := h
    subst h2
    exact toggled _ (fun t => Collaborators.ShipOperated.ToggleAntiMatterBombAt tp gp t)
  case ToggleImpactBombAt tp gp =>
    obtain ⟨-, h2⟩ := h
    subst h2
    exact toggled _ (fun t => Collaborators.ShipOperated.ToggleImpactBombAt tp gp t)
  case ToggleRCBombAt tp gp =>
    obtain ⟨-, h2⟩ := h
    subst h2
    exact toggled _ (fun t => Collaborators.ShipOperated.ToggleRCBombAt tp gp t)
  case ToggleTimerBombAt tp gp =>
    obtain ⟨-, h2⟩ := h
    subst h2
    exact toggled _ (fun t => Collaborators.ShipOperated.ToggleTimerBombAt tp gp t)
  case DetonateRCBombs =>
    obtain ⟨-, h2⟩ := h
    subst h2
    exact broadcast _ (fun t => Collaborators.ShipOperated.DetonateRCBombs t)
  case DetonateAntiMatterBombs =>
    obtain ⟨-, h2⟩ := h
    subst h2
    exact broadcast _ (fun t => Collaborators.ShipOperated.DetonateAntiMatterBombs t)
  case AdjustOceanFloorTo x y =>
    obtain ⟨-, h2⟩ := h
    subst h2
    exact ⟨s, hs, Relation.ReflTransGen.refl⟩
  case Update gp rc =>
    obtain ⟨-, h2⟩ := h
    subst h2
    exact broadcast _ (fun t => Collaborators.ShipOperated.Update _ _ gp rc t)

/-- A call that hands back a ship id is a call of `AddShip`: the world after it holds the
ships of the world before it, followed by the ship built for that id. -/
theorem World.call_shipId (w w' : World C) (c : World.Call C) (id : ShipId)
    (h : w.call c = some (.shipId id, w')) :
    ∃ sd md gp, w'.mAllShips = w.mAllShips
      ++ [C.ShipBuilder_Create id w.mGameEventHandler sd md gp w.mCurrentVisitSequenceNumber] := by
  cases c <;> simp only [World.call, Option.some.injEq, Prod.mk.injEq, Option.map_eq_some',
    World.Returned.shipId.injEq, false_and, and_false, exists_false, reduceCtorEq] at h
  case AddShip sd md gp =>
    obtain ⟨h1, h2⟩ := h
    refine ⟨sd, md, gp, ?_⟩
    rw [← h2, ← h1]
    rfl

/-- Every world of a recorded history keeps the ships of the starting world at their
places. -/
theorem World.trace_ships (calls : List (World.Call C)) :
    ∀ (w : World C) (history : List (World.Returned × World C)),
      w.trace calls = some history →
      ∀ (k : Nat) (rk : World.Returned) (wk : World C), history[k]? = some (rk, wk) →
      ∀ (i : Nat) (s : C.Ship), w.mAllShips[i]? = some s →
        ∃ s', wk.mAllShips[i]? = some s' ∧ C.SameShipLater s s' := by
  induction calls with
  | nil =>
    intro w history h k rk wk hk
    simp only [World.trace, Option.some.injEq] at h
    subst h
    simp at hk
  | cons c rest ih =>
    intro w history h k rk wk hk i s hs
    simp only [World.trace] at h
    cases hc : w.call c with
    | none => simp [hc] at h
    | some p =>
      obtain ⟨r, w'⟩ := p
      simp only [hc, Option.map_eq_some'] at h
      obtain ⟨h', hh', rfl⟩ := h
      obtain ⟨s1, hs1, hrel1⟩ := World.call_ships w w' c r hc i s hs
      cases k with
      | zero =>
        simp only [List.getElem?_cons_zero, Option.some.injEq, Prod.mk.injEq] at hk
        obtain ⟨-, rfl⟩ := hk
        exact ⟨s1, hs1, hrel1⟩
      | succ k =>
        simp only [List.getElem?_cons_succ] at hk
        obtain ⟨s2, hs2, hrel2⟩ := ih w' h' hh' k rk wk hk i s1 hs1
        exact ⟨s2, hs2, Relation.ReflTransGen.trans hrel1 hrel2⟩

/-- A later world of a recorded history keeps the ships of an earlier one at their
places. -/
theorem World.trace_ships_between (calls : List (World.Call C)) :
    ∀ (w : World C) (history : List (World.Returned × World C)),
      w.trace calls = some history →
      ∀ (j k : Nat) (rj rk : World.Returned) (wj wk : World C), j ≤ k →
      history[j]? = some (rj, wj) → history[k]? = some (rk, wk) →
      ∀ (i : Nat) (s : C.Ship), wj.mAllShips[i]? = some s →
        ∃ s', wk.mAllShips[i]? = some s' ∧ C.SameShipLater s s' := by
  induction calls with
  | nil =>
    intro w history h j k rj rk wj wk _ hj
    simp only [World.trace, Option.some.injEq] at h
    subst h
    simp at hj
  | cons c rest ih =>
    intro w history h j k rj rk wj wk hjk hj hk i s hs
    simp only [World.trace] at h
    cases hc : w.call c with
    | none => simp [hc] at h
    | some p =>
      obtain ⟨r, w'⟩ := p
      simp only [hc, Option.map_eq_some'] at h
      obtain ⟨h', hh', rfl⟩ := h
      cases j with
      | zero =>
        simp only [List.getElem?_cons_zero, Option.some.injEq, Prod.mk.injEq] at hj
        obtain ⟨-, rfl⟩ := hj
        cases k with
        | zero =>
          simp only [List.getElem?_cons_zero, Option.some.injEq, Prod.mk.injEq] at hk
          obtain ⟨-, rfl⟩ := hk
          exact ⟨s, hs, Relation.ReflTransGen.refl⟩
        | succ k =>
          simp only [List.getElem?_cons_succ] at hk
          exact World.trace_ships rest w' h' hh' k rk wk hk i s hs
      | succ j =>
        cases k with
        | zero => omega
        | succ k =>
          simp only [List.getElem?_cons_succ] at hj hk
          exact ih w' h' hh' j k rj rk wj wk (by omega) hj hk i s hs

/-- The world recorded with a returned ship id holds, as its last ship, the ship built for
that id. -/
theorem World.trace_shipId (calls : List (World.Call C)) :
    ∀ (w : World C) (history : List (World.Returned × World C)),
      w.trace calls = some history →
      ∀ (j : Nat) (id : ShipId) (wj : World C), history[j]? = some (.shipId id, wj) →
        ∃ (before : World C) (sd : C.ShipDefinition) (md : C.MaterialDatabase)
          (gp : C.GameParameters),
          wj.mAllShips = before.mAllShips
            ++ [C.ShipBuilder_Create id before.mGameEventHandler sd md gp
                  before.mCurrentVisitSequenceNumber] := by
  induction calls with
  | nil =>
    intro w history h j id wj hj
    simp only [World.trace, Option.some.injEq] at h
    subst h
    simp at hj
  | cons c rest ih =>
    intro w history h j id wj hj
    simp only [World.trace] at h
    cases hc : w.call c with
    | none => simp [hc] at h
    | some p =>
      obtain ⟨r, w'⟩ := p
      simp only [hc, Option.map_eq_some'] at h
      obtain ⟨h', hh', rfl⟩ := h
      cases j with
      | zero =>
        simp only [List.getElem?_cons_zero, Option.some.injEq, Prod.mk.injEq] at hj
        obtain ⟨rfl, rfl⟩ := hj
        obtain ⟨sd, md, gp, hadd⟩ := World.call_shipId w w' c id hc
        exact ⟨w, sd, md, gp, hadd⟩
      | succ j =>
        simp only [List.getElem?_cons_succ] at hj
        exact ih w' h' hh' j id wj hj

/-- A returned ship id of a recorded history is in the log of `AddShip` calls, with the
ship count of the world recorded with it. -/
theorem World.mem_addShipLog :
    ∀ (history : List (World.Returned × World C)) (j : Nat) (id : ShipId) (wj : World C),
      history[j]? = some (.shipId id, wj) →
      (id, wj.GetShipCount) ∈ World.addShipLog history := by
  intro history
  induction history with
  | nil => intro j id wj hj; simp at hj
  | cons p rest ih =>
    intro j id wj hj
    obtain ⟨r, w'⟩ := p
    cases j with
    | zero =>
      simp only [List.getElem?_cons_zero, Option.some.injEq, Prod.mk.injEq] at hj
      obtain ⟨rfl, rfl⟩ := hj
      simp [World.addShipLog]
    | succ j =>
      simp only [List.getElem?_cons_succ] at hj
      have := ih j id wj hj
      cases r with
      | void => exact this
      | bool b => exact this
      | shipId id0 => exact List.mem_cons_of_mem _ this

/-- Claim C15: in every sequence of calls on a newly constructed world (`AddShip`,
`Update` and the interaction commands, in any order), take a ship id returned by a call of
`AddShip` and the world after that call or after any later call. The id satisfies the
assertion `shipId > 0 && shipId <= mAllShips.size()` of `GetShipPointCount`, `MoveBy` and
`RotateBy`, so these three do not fail on it; the index `shipId - 1` is in bounds; and the
ship at that index is the ship that `AddShip` call built with `ShipBuilder::Create` for
this id and pushed at the back, after the operations invoked on it since. As for claim C1
the ids are values of the unsigned type `ShipId`: the statement is for sequences with
fewer than `2 ^ ShipIdBits` calls of `AddShip`. -/
theorem World.returned_ship_ids_stay_valid (gameEventHandler : C.GameEventHandler)
    (gameParameters : C.GameParameters) (resourceLoader : C.ResourceLoader)
    (calls : List (World.Call C)) (history : List (World.Returned × World C))
    (hrun : (World.new gameEventHandler gameParameters resourceLoader).trace calls
      = some history)
    (hfit : (World.addShipLog history).length < 2 ^ C.ShipIdBits)
    (j k : Nat) (shipId : ShipId) (wj wk : World C) (rk : World.Returned)
    (hj : history[j]? = some (.shipId shipId, wj)) (hk : history[k]? = some (rk, wk))
    (hjk : j ≤ k) :
    (0 < shipId ∧ shipId ≤ wk.mAllShips.length)
    ∧ shipId - 1 < wk.mAllShips.length
    ∧ (∃ (before : World C) (sd : C.ShipDefinition) (md : C.MaterialDatabase)
        (gp : C.GameParameters) (created ship : C.Ship),
        created = C.ShipBuilder_Create shipId before.mGameEventHandler sd md gp
          before.mCurrentVisitSequenceNumber
        ∧ wj.mAllShips = before.mAllShips ++ [created]
        ∧ wj.mAllShips[shipId - 1]? = some created
        ∧ wk.mAllShips[shipId - 1]? = some ship
        ∧ C.SameShipLater created ship
        ∧ wk.GetShipPointCount shipId = some (C.Ship_GetPointCount ship))
    ∧ (∀ offset gp, (wk.MoveBy shipId offset gp).isSome = true)
    ∧ (∀ angle center gp, (wk.RotateBy shipId angle center gp).isSome = true) := by
  have hlog := World.trace_addShipLog calls _ history hrun (by simpa [World.new] using hfit)
  simp only [World.new, List.length_nil, Nat.zero_add] at hlog
  have hmem := World.mem_addShipLog history j shipId wj hj
  rw [hlog] at hmem
  simp only [List.mem_map, Prod.mk.injEq, List.mem_range'_1] at hmem
  obtain ⟨n, ⟨hn1, -⟩, rfl, hcount⟩ := hmem
  obtain ⟨before, sd, md, gp, hadd⟩ := World.trace_shipId calls _ history hrun j n wj hj
  have hlen : wj.mAllShips.length = n := hcount.symm
  have hbefore : before.mAllShips.length = n - 1 := by
    have := congrArg List.length hadd
    simp at this
    omega
  have hcreated : wj.mAllShips[n - 1]? = some (C.ShipBuilder_Create n before.mGameEventHandler
      sd md gp before.mCurrentVisitSequenceNumber) := by
    rw [hadd, ← hbefore]
    exact List.getElem?_concat_length _ _
  obtain ⟨ship, hship, hrel⟩ := World.trace_ships_between calls _ history hrun j k _ rk wj wk
    hjk hj hk (n - 1) _ hcreated
  have hin : n - 1 < wk.mAllShips.length := (List.getElem?_eq_some.mp hship).1
  have hassert : 0 < n ∧ n ≤ wk.mAllShips.length := ⟨by omega, by omega⟩
  refine ⟨hassert, hin, ⟨before, sd, md, gp, _, ship, rfl, hadd, hcreated, hship, hrel, ?_⟩,
    ?_, ?_⟩
  · simp [World.GetShipPointCount, hassert, List.get?_eq_getElem?, hship]
  · intro offset gp
    simp [World.MoveBy, hassert]
  · intro angle center gp
    simp [World.RotateBy, hassert]

/-- Claim C15, worked example: the first of the example calls is an `AddShip` that returns
the id `1`. In the world after the seventh call the id passes the assertion,
`GetShipPointCount(1)` succeeds, and the ship at index `0` is the ship built with the id
`1`, after the three operations that reached it since (two `Update`s and one
`TogglePinAt`). -/
theorem World.returned_ship_ids_stay_valid_witness :
    ∃ history wj wk rk,
      (World.new (C := exampleCollaborators) () () ()).trace exampleCalls = some history
      ∧ history[0]? = some (.shipId 1, wj) ∧ history[6]? = some (rk, wk)
      ∧ (0 < 1 ∧ 1 ≤ wk.mAllShips.length)
      ∧ wk.GetShipPointCount 1 = some 1
      ∧ wk.mAllShips[0]?.map (fun s => (s.id, s.invocations)) = some (1, 3) := by
  refine ⟨_, _, _, _, rfl, rfl, rfl, ?_⟩
  have h := World.returned_ship_ids_stay_valid (C := exampleCollaborators) () () ()
    exampleCalls _ rfl (by decide) 0 6 1 _ _ _ rfl rfl (by decide)
  exact ⟨h.1, rfl, rfl⟩

/-! ## Rendering the world -/

/-- The calls of the loop of `World::UploadLandAndWater`: the iteration `i` uploads the
sample at the starting abscissa plus `i` slice widths. -/
theorem World.UploadLandAndWater_loop_steps (R : RenderCollaborators C) (w : World C)
    (gameParameters : C.GameParameters) (sliceWidth : ℚ) :
    ∀ (iterations : Nat) (sliceX : ℚ),
      World.UploadLandAndWater_loop R w gameParameters sliceWidth iterations sliceX
        = (List.range iterations).map (fun i : Nat =>
            World.RenderStep.UploadLandAndWater (sliceX + i * sliceWidth)
              (R.OceanFloor_GetFloorHeightAt w.mOceanFloor (sliceX + i * sliceWidth))
              (R.WaterSurface_GetWaterHeightAt w.mWaterSurface (sliceX + i * sliceWidth))
              (R.GameParameters_SeaDepth gameParameters)) := by
  intro iterations
  induction iterations with
  | zero => intro sliceX; rfl
  | succ n ih =>
    intro sliceX
    rw [List.range_succ_eq_map, List.map_cons, List.map_map]
    simp only [World.UploadLandAndWater_loop, ih]
    congr 1
    · simp
    · apply List.map_congr_left
      intro i _
      have e : sliceX + sliceWidth + (i : ℚ) * sliceWidth
          = sliceX + ((i + 1 : ℕ) : ℚ) * sliceWidth := by
        push_cast; ring
      simp only [Function.comp, e]

/-- The calls of `World::UploadLandAndWater`, written out: the start with 500 slices, the
501 samples from the left edge of the visible world in steps of one slice width, and the
end. -/
theorem World.UploadLandAndWater_steps (R : RenderCollaborators C) (w : World C)
    (gameParameters : C.GameParameters) (renderContext : C.RenderContext) :
    w.UploadLandAndWater R gameParameters renderContext
      = World.RenderStep.UploadLandAndWaterStart 500
        :: (List.range 501).map (fun i : Nat =>
            World.RenderStep.UploadLandAndWater
              ((R.RenderContext_GetCameraWorldPosition renderContext).x
                - R.RenderContext_GetVisibleWorldWidth renderContext / 2
                + i * (R.RenderContext_GetVisibleWorldWidth renderContext / 500))
              (R.OceanFloor_GetFloorHeightAt w.mOceanFloor
                ((R.RenderContext_GetCameraWorldPosition renderContext).x
                  - R.RenderContext_GetVisibleWorldWidth renderContext / 2
                  + i * (R.RenderContext_GetVisibleWorldWidth renderContext / 500)))
              (R.WaterSurface_GetWaterHeightAt w.mWaterSurface
                ((R.RenderContext_GetCameraWorldPosition renderContext).x
                  - R.RenderContext_GetVisibleWorldWidth renderContext / 2
                  + i * (R.RenderContext_GetVisibleWorldWidth renderContext / 500)))
              (R.GameParameters_SeaDepth gameParameters))
        ++ [World.RenderStep.UploadLandAndWaterEnd] := by
  simp only [World.UploadLandAndWater, World.UploadLandAndWater_loop_steps]
  norm_num

/-- Claim C21: for every render context, with camera abscissa `cx` and visible world
width `W`, `World::UploadLandAndWater` calls `UploadLandAndWaterStart(500)`, then
`UploadLandAndWater` 501 times, then `UploadLandAndWaterEnd()`. The call number `i`
(`i = 0, ..., 500`) is for the abscissa `cx - W / 2 + i * (W / 500)` and carries the
ocean-floor height and the water height at that same abscissa, and the sea depth. The
first abscissa is the left edge `cx - W / 2` and the last one the right edge
`cx + W / 2`. Arithmetic is exact. -/
theorem World.UploadLandAndWater_samples (R : RenderCollaborators C) (w : World C)
    (gameParameters : C.GameParameters) (renderContext : C.RenderContext) :
    w.UploadLandAndWater R gameParameters renderContext
        = World.RenderStep.UploadLandAndWaterStart 500
          :: (List.range 501).map (fun i : Nat =>
              World.RenderStep.UploadLandAndWater
                ((R.RenderContext_GetCameraWorldPosition renderContext).x
                  - R.RenderContext_GetVisibleWorldWidth renderContext / 2
                  + i * (R.RenderContext_GetVisibleWorldWidth renderContext / 500))
                (R.OceanFloor_GetFloorHeightAt w.mOceanFloor
                  ((R.RenderContext_GetCameraWorldPosition renderContext).x
                    - R.RenderContext_GetVisibleWorldWidth renderContext / 2
                    + i * (R.RenderContext_GetVisibleWorldWidth renderContext / 500)))
                (R.WaterSurface_GetWaterHeightAt w.mWaterSurface
                  ((R.RenderContext_GetCameraWorldPosition renderContext).x
                    - R.RenderContext_GetVisibleWorldWidth renderContext / 2
                    + i * (R.RenderContext_GetVisibleWorldWidth renderContext / 500)))
                (R.GameParameters_SeaDepth gameParameters))
          ++ [World.RenderStep.UploadLandAndWaterEnd]
    ∧ (w.UploadLandAndWater R gameParameters renderContext).length = 501 + 2
    ∧ (R.RenderContext_GetCameraWorldPosition renderContext).x
        - R.RenderContext_GetVisibleWorldWidth renderContext / 2
        + (0 : ℕ) * (R.RenderContext_GetVisibleWorldWidth renderContext / 500)
      = (R.RenderContext_GetCameraWorldPosition renderContext).x
        - R.RenderContext_GetVisibleWorldWidth renderContext / 2
    ∧ (R.RenderContext_GetCameraWorldPosition renderContext).x
        - R.RenderContext_GetVisibleWorldWidth renderContext / 2
        + (500 : ℕ) * (R.RenderContext_GetVisibleWorldWidth renderContext / 500)
      = (R.RenderContext_GetCameraWorldPosition renderContext).x
        + R.RenderContext_GetVisibleWorldWidth renderContext / 2 := by
  refine ⟨World.UploadLandAndWater_steps R w gameParameters renderContext, ?_, ?_, ?_⟩
  · rw [World.UploadLandAndWater_steps]
    simp
  · push_cast; ring
  · push_cast; ring

/-- The next visit sequence number differs from the current one, and is a value of the
type again. -/
theorem World.nextVisitSequenceNumber_ne_current (hbits : 1 ≤ C.VisitSequenceNumberBits)
    (hnone : C.NoneVisitSequenceNumber ≠ 2 % 2 ^ C.VisitSequenceNumberBits)
    (current : Nat) (hvalue : current < 2 ^ C.VisitSequenceNumberBits) :
    World.nextVisitSequenceNumber C current ≠ current
    ∧ World.nextVisitSequenceNumber C current < 2 ^ C.VisitSequenceNumberBits := by
  have hP : 2 ≤ 2 ^ C.VisitSequenceNumberBits := by
    calc 2 = 2 ^ 1 := rfl
      _ ≤ 2 ^ C.VisitSequenceNumberBits := Nat.pow_le_pow_right (by decide) hbits
  have hinc : (current + 1) % 2 ^ C.VisitSequenceNumberBits ≠ current := by
    by_cases h : current + 1 < 2 ^ C.VisitSequenceNumberBits
    · rw [Nat.mod_eq_of_lt h]; omega
    · have e : current + 1 = 2 ^ C.VisitSequenceNumberBits := by omega
      rw [e, Nat.mod_self]; omega
  have hlt : (current + 1) % 2 ^ C.VisitSequenceNumberBits < 2 ^ C.VisitSequenceNumberBits :=
    Nat.mod_lt _ (by omega)
  unfold World.nextVisitSequenceNumber
  simp only
  split
  · rename_i heq
    refine ⟨?_, Nat.lt_of_lt_of_le (by decide : 1 < 2) hP⟩
    intro h1
    apply hnone
    rw [heq, ← h1]
  · exact ⟨hinc, hlt⟩

/-- Claim C22: for every world whose visit sequence number is a value of its unsigned
type, the visit sequence number that `World::Update` hands to every ship, which is also
the number in force after the call, differs from the number in force before the call:
the number that `AddShip` hands to `ShipBuilder::Create` for a ship added before the
call, and that `AddShip` leaves as it is. This includes the update whose increment
reaches the reserved value and gives `1` instead. The constants are not part of the
available sources: the statement is for a type at least one bit wide and a reserved
value other than `2` (reduced to the width of the type), which holds for the reserved
value `0` and a type at least two bits wide. -/
theorem World.Update_hands_out_a_new_visit_sequence_number
    (hbits : 1 ≤ C.VisitSequenceNumberBits)
    (hnone : C.NoneVisitSequenceNumber ≠ 2 % 2 ^ C.VisitSequenceNumberBits)
    (w : World C) (hvalue : w.mCurrentVisitSequenceNumber < 2 ^ C.VisitSequenceNumberBits)
    (gameParameters : C.GameParameters) (renderContext : C.RenderContext) :
    World.nextVisitSequenceNumber C w.mCurrentVisitSequenceNumber
        ≠ w.mCurrentVisitSequenceNumber
    ∧ (w.Update gameParameters renderContext).mAllShips
        = forEachShip
            (C.Ship_Update (w.mCurrentSimulationTime + C.SimulationStepTimeDuration)
              (World.nextVisitSequenceNumber C w.mCurrentVisitSequenceNumber)
              gameParameters renderContext)
            w.mAllShips
    ∧ (w.Update gameParameters renderContext).mCurrentVisitSequenceNumber
        = World.nextVisitSequenceNumber C w.mCurrentVisitSequenceNumber
    ∧ (w.Update gameParameters renderContext).mCurrentVisitSequenceNumber
        < 2 ^ C.VisitSequenceNumberBits
    ∧ ∀ (shipDefinition : C.ShipDefinition) (materialDatabase : C.MaterialDatabase)
        (shipParameters : C.GameParameters),
        (w.AddShip shipDefinition materialDatabase shipParameters).2.mAllShips
            = w.mAllShips
              ++ [C.ShipBuilder_Create
                  (w.AddShip shipDefinition materialDatabase shipParameters).1
                  w.mGameEventHandler shipDefinition materialDatabase shipParameters
                  w.mCurrentVisitSequenceNumber]
        ∧ (w.AddShip shipDefinition materialDatabase
            shipParameters).2.mCurrentVisitSequenceNumber = w.mCurrentVisitSequenceNumber := by
  obtain ⟨hne, hlt⟩ := World.nextVisitSequenceNumber_ne_current hbits hnone
    w.mCurrentVisitSequenceNumber hvalue
  exact ⟨hne, rfl, rfl, hlt, fun _ _ _ => ⟨rfl, rfl⟩⟩

/-- Claim C22, worked example: with 32-bit numbers and the reserved value `0`, an update
of a world whose visit sequence number is the largest value `2 ^ 32 - 1` takes the
number `1`, which differs from `2 ^ 32 - 1`. -/
theorem World.Update_hands_out_a_new_visit_sequence_number_witness :
    ({ exampleWorld [] with mCurrentVisitSequenceNumber := 4294967295 }
        : World exampleCollaborators).mCurrentVisitSequenceNumber
      < 2 ^ exampleCollaborators.VisitSequenceNumberBits
    ∧ World.nextVisitSequenceNumber exampleCollaborators
        ({ exampleWorld [] with mCurrentVisitSequenceNumber := 4294967295 }
          : World exampleCollaborators).mCurrentVisitSequenceNumber
      ≠ ({ exampleWorld [] with mCurrentVisitSequenceNumber := 4294967295 }
          : World exampleCollaborators).mCurrentVisitSequenceNumber
    ∧ (({ exampleWorld [] with mCurrentVisitSequenceNumber := 4294967295 }
          : World exampleCollaborators).Update () ()).mCurrentVisitSequenceNumber = 1 :=
  ⟨by decide,
    (World.Update_hands_out_a_new_visit_sequence_number (C := exampleCollaborators)
      (by decide) (by decide)
      { exampleWorld [] with mCurrentVisitSequenceNumber := 4294967295 } (by decide)
      () ()).1,
    by decide⟩

/-- The reserved value matters for the next visit sequence number to be a new one: were
the reserved value `2`, the update of a world whose visit sequence number is `1` would
take the number `1` again. -/
theorem World.nextVisitSequenceNumber_with_reserved_two :
    World.nextVisitSequenceNumber { exampleCollaborators with NoneVisitSequenceNumber := 2 } 1
      = 1 := by
  decide

/-! ## Rendering the world: worked examples -/

/-- Claim C21, worked example: with the camera at the abscissa `10` and a visible world
`4` wide, 503 calls are made, the first sample is at `8` and the last at `12`. -/
theorem World.UploadLandAndWater_samples_witness :
    ((exampleWorld []).UploadLandAndWater (exampleRenderCollaborators true) () ()).length
      = 501 + 2
    ∧ (10 : ℚ) - 4 / 2 + (0 : ℕ) * (4 / 500) = 10 - 4 / 2
    ∧ (10 : ℚ) - 4 / 2 + (500 : ℕ) * (4 / 500) = 10 + 4 / 2 :=
  (World.UploadLandAndWater_samples (exampleRenderCollaborators true) (exampleWorld []) ()
    ()).2

end Physics

namespace Render

/-! ## The render-mode decision table -/

/-- The element passes of `RenderEnd` are those of its loop over the components. -/
theorem ShipRenderContext.RenderEnd_filter (ctx : ShipRenderContext) :
    ctx.RenderEnd.filter RenderEndStep.isElementPass
      = (ctx.RenderEnd_loop 0 ctx.mConnectedComponents).filter RenderEndStep.isElementPass := by
  unfold ShipRenderContext.RenderEnd
  by_cases h : ctx.mVectorFieldRenderMode ≠ VectorFieldRenderMode.None
  · simp [List.filter_append, List.filter_cons, RenderEndStep.isElementPass, h]
  · simp [List.filter_append, List.filter_cons, RenderEndStep.isElementPass, h]

/-- The element passes of the loop are those of its body, component after component. -/
theorem ShipRenderContext.RenderEnd_loop_filter (ctx : ShipRenderContext)
    (body : ConnectedComponentData → List RenderEndStep)
    (hbody : ∀ c cc, (ctx.RenderEnd_component c cc).filter RenderEndStep.isElementPass = body cc)
    (components : List ConnectedComponentData) :
    ∀ c, (ctx.RenderEnd_loop c components).filter RenderEndStep.isElementPass
      = components.flatMap body := by
  induction components with
  | nil => intro c; rfl
  | cons cc rest ih =>
    intro c
    simp only [ShipRenderContext.RenderEnd_loop, List.filter_append, hbody, ih (c + 1),
      List.flatMap_cons]

/-- The element passes of the loop body for one component, for each combination of the
debug render mode and the ship render mode, in the order they are executed. -/
theorem ShipRenderContext.RenderEnd_component_filter (ctx : ShipRenderContext) (c : Nat)
    (cc : ConnectedComponentData) :
    (ctx.RenderEnd_component c cc).filter RenderEndStep.isElementPass
      = match ctx.mDebugShipRenderMode, ctx.mShipRenderMode with
        | .Points, _ => [RenderEndStep.RenderPointElements cc]
        | .Springs, _ => [.RenderSpringElements cc false, .RenderRopeElements cc]
        | .EdgeSprings, _ => [.RenderSpringElements cc false, .RenderRopeElements cc]
        | .Wireframe, .Structure => [.RenderTriangleElements cc false]
        | .Wireframe, .Texture => [.RenderTriangleElements cc true]
        | .None, .Structure =>
          [.RenderSpringElements cc false, .RenderTriangleElements cc false,
            .RenderRopeElements cc]
        | .None, .Texture =>
          [.RenderSpringElements cc true, .RenderRopeElements cc,
            .RenderTriangleElements cc true] := by
  unfold ShipRenderContext.RenderEnd_component
  by_cases hg : c < ctx.mGenericTextureConnectedComponents.length <;>
  cases hd : ctx.mDebugShipRenderMode <;> cases hs : ctx.mShipRenderMode <;>
  cases hst : ctx.mShowStressedSprings <;>
  simp [hg, List.filter_cons, RenderEndStep.isElementPass]

/-- Claim C10: when a debug mode is set, for every ship render mode, the element passes
(points, springs, ropes, triangles) that `ShipRenderContext::RenderEnd` executes are, for
each connected component in turn: under `Points` the point pass alone; under `Springs` or
`EdgeSprings` the spring pass followed by the rope pass, and no point or triangle pass;
under `Wireframe` the triangle pass alone. -/
theorem ShipRenderContext.RenderEnd_debug_modes (ctx : ShipRenderContext) :
    (ctx.mDebugShipRenderMode = DebugShipRenderMode.Points →
      ctx.RenderEnd.filter RenderEndStep.isElementPass
        = ctx.mConnectedComponents.flatMap
            (fun cc => [RenderEndStep.RenderPointElements cc]))
    ∧ (ctx.mDebugShipRenderMode = DebugShipRenderMode.Springs
        ∨ ctx.mDebugShipRenderMode = DebugShipRenderMode.EdgeSprings →
      ctx.RenderEnd.filter RenderEndStep.isElementPass
        = ctx.mConnectedComponents.flatMap
            (fun cc => [RenderEndStep.RenderSpringElements cc false,
              RenderEndStep.RenderRopeElements cc]))
    ∧ (ctx.mDebugShipRenderMode = DebugShipRenderMode.Wireframe →
      ctx.RenderEnd.filter RenderEndStep.isElementPass
        = ctx.mConnectedComponents.flatMap
            (fun cc => [RenderEndStep.RenderTriangleElements cc
              (decide (ctx.mShipRenderMode = ShipRenderMode.Texture))])) := by
  refine ⟨?_, ?_, ?_⟩
  · intro h
    rw [ShipRenderContext.RenderEnd_filter]
    refine ShipRenderContext.RenderEnd_loop_filter ctx _ ?_ _ 0
    intro c cc
    rw [ShipRenderContext.RenderEnd_component_filter, h]
  · intro h
    rw [ShipRenderContext.RenderEnd_filter]
    refine ShipRenderContext.RenderEnd_loop_filter ctx _ ?_ _ 0
    intro c cc
    rw [ShipRenderContext.RenderEnd_component_filter]
    rcases h with h | h <;> rw [h]
  · intro h
    rw [ShipRenderContext.RenderEnd_filter]
    refine ShipRenderContext.RenderEnd_loop_filter ctx _ ?_ _ 0
    intro c cc
    rw [ShipRenderContext.RenderEnd_component_filter, h]
    cases ctx.mShipRenderMode <;> simp

/-- Claim C10, worked example: with the debug mode `Points` and two connected
components, the element passes of `RenderEnd` are the point pass of the first and the
point pass of the second component. -/
theorem ShipRenderContext.RenderEnd_debug_modes_witness :
    (exampleContext DebugShipRenderMode.Points ShipRenderMode.Texture true).RenderEnd.filter
        RenderEndStep.isElementPass
      = [RenderEndStep.RenderPointElements (exampleComponent 1),
         RenderEndStep.RenderPointElements (exampleComponent 2)] :=
  (ShipRenderContext.RenderEnd_debug_modes
    (exampleContext DebugShipRenderMode.Points ShipRenderMode.Texture true)).1 rfl

/-! ## The ship render modes and the stressed springs -/

/-- Claim C11: without a debug mode no point pass is executed, and the element passes
(points, springs, ropes, triangles) that `ShipRenderContext::RenderEnd` executes are, for
each connected component in turn: under the ship mode `Structure` the spring pass, the
triangle pass and the rope pass, in this order, the springs and the triangles requested
without texture; under the ship mode `Texture` the spring pass, the rope pass and the
triangle pass, in this order, the springs and the triangles requested with texture. -/
theorem ShipRenderContext.RenderEnd_ship_modes (ctx : ShipRenderContext) :
    (ctx.mDebugShipRenderMode = DebugShipRenderMode.None →
      ctx.mShipRenderMode = ShipRenderMode.Structure →
      ctx.RenderEnd.filter RenderEndStep.isElementPass
        = ctx.mConnectedComponents.flatMap
            (fun cc => [RenderEndStep.RenderSpringElements cc false,
              RenderEndStep.RenderTriangleElements cc false,
              RenderEndStep.RenderRopeElements cc]))
    ∧ (ctx.mDebugShipRenderMode = DebugShipRenderMode.None →
      ctx.mShipRenderMode = ShipRenderMode.Texture →
      ctx.RenderEnd.filter RenderEndStep.isElementPass
        = ctx.mConnectedComponents.flatMap
            (fun cc => [RenderEndStep.RenderSpringElements cc true,
              RenderEndStep.RenderRopeElements cc,
              RenderEndStep.RenderTriangleElements cc true])) := by
  constructor
  · intro hd hs
    rw [ShipRenderContext.RenderEnd_filter]
    refine ShipRenderContext.RenderEnd_loop_filter ctx _ ?_ _ 0
    intro c cc
    rw [ShipRenderContext.RenderEnd_component_filter, hd, hs]
  · intro hd hs
    rw [ShipRenderContext.RenderEnd_filter]
    refine ShipRenderContext.RenderEnd_loop_filter ctx _ ?_ _ 0
    intro c cc
    rw [ShipRenderContext.RenderEnd_component_filter, hd, hs]

/-- Claim C11, worked example: without a debug mode, with the ship mode `Structure` and two
connected components, the element passes of `RenderEnd` are springs, triangles, ropes of
the first component and then of the second, none with texture. -/
theorem ShipRenderContext.RenderEnd_ship_modes_witness :
    (exampleContext DebugShipRenderMode.None ShipRenderMode.Structure true).RenderEnd.filter
        RenderEndStep.isElementPass
      = [RenderEndStep.RenderSpringElements (exampleComponent 1) false,
         RenderEndStep.RenderTriangleElements (exampleComponent 1) false,
         RenderEndStep.RenderRopeElements (exampleComponent 1),
         RenderEndStep.RenderSpringElements (exampleComponent 2) false,
         RenderEndStep.RenderTriangleElements (exampleComponent 2) false,
         RenderEndStep.RenderRopeElements (exampleComponent 2)] :=
  (ShipRenderContext.RenderEnd_ship_modes
    (exampleContext DebugShipRenderMode.None ShipRenderMode.Structure true)).1 rfl rfl

/-- The stressed-spring passes of the loop body of `RenderEnd` for one component: one pass
when there is no debug mode and the flag is set, none otherwise. -/
theorem ShipRenderContext.RenderEnd_component_stressed (ctx : ShipRenderContext) (c : Nat) (cc : ConnectedComponentData) :
    (ctx.RenderEnd_component c cc).filter RenderEndStep.isStressedSpringPass
      = if ctx.mDebugShipRenderMode = DebugShipRenderMode.None ∧ ctx.mShowStressedSprings = true
        then [RenderEndStep.RenderStressedSpringElements cc] else [] := by
  unfold ShipRenderContext.RenderEnd_component
  by_cases hg : c < ctx.mGenericTextureConnectedComponents.length <;>
  cases hd : ctx.mDebugShipRenderMode <;> cases hs : ctx.mShipRenderMode <;>
  cases hst : ctx.mShowStressedSprings <;>
  simp [hg, List.filter_cons, RenderEndStep.isStressedSpringPass]

/-- The stressed-spring passes of the loop of `RenderEnd`. -/
theorem ShipRenderContext.RenderEnd_loop_stressed (ctx : ShipRenderContext) (components : List ConnectedComponentData) :
    ∀ c, (ctx.RenderEnd_loop c components).filter RenderEndStep.isStressedSpringPass
      = if ctx.mDebugShipRenderMode = DebugShipRenderMode.None ∧ ctx.mShowStressedSprings = true
        then components.map RenderEndStep.RenderStressedSpringElements else [] := by
  induction components with
  | nil => intro c; simp [ShipRenderContext.RenderEnd_loop]
  | cons cc rest ih =>
    intro c
    simp only [ShipRenderContext.RenderEnd_loop, List.filter_append, ShipRenderContext.RenderEnd_component_stressed,
      ih (c + 1)]
    split <;> simp

/-- Claim C12, amended: for every debug mode and every ship mode,
`ShipRenderContext::RenderEnd` invokes the stressed-spring pass for every connected
component, once and in order, if and only if the debug mode is `None` and
`showStressedSprings` is enabled; otherwise it invokes no stressed-spring pass. The ship
mode plays no role. -/
theorem ShipRenderContext.RenderEnd_stressed_spring_passes (ctx : ShipRenderContext) :
    ctx.RenderEnd.filter RenderEndStep.isStressedSpringPass
      = if ctx.mDebugShipRenderMode = DebugShipRenderMode.None ∧ ctx.mShowStressedSprings = true
        then ctx.mConnectedComponents.map RenderEndStep.RenderStressedSpringElements
        else [] := by
  have h : ctx.RenderEnd.filter RenderEndStep.isStressedSpringPass
      = (ctx.RenderEnd_loop 0 ctx.mConnectedComponents).filter
          RenderEndStep.isStressedSpringPass := by
    unfold ShipRenderContext.RenderEnd
    by_cases h : ctx.mVectorFieldRenderMode ≠ VectorFieldRenderMode.None
    · simp [List.filter_append, List.filter_cons, RenderEndStep.isStressedSpringPass, h]
    · simp [List.filter_append, List.filter_cons, RenderEndStep.isStressedSpringPass, h]
  rw [h, ShipRenderContext.RenderEnd_loop_stressed]

/-- Claim C12, worked example of the amended claim: without a debug mode and with
`showStressedSprings` enabled, `RenderEnd` executes the stressed-spring pass of the first
and of the second component. -/
theorem ShipRenderContext.RenderEnd_stressed_spring_passes_witness :
    (exampleContext DebugShipRenderMode.None ShipRenderMode.Texture true).RenderEnd.filter
        RenderEndStep.isStressedSpringPass
      = [RenderEndStep.RenderStressedSpringElements (exampleComponent 1),
         RenderEndStep.RenderStressedSpringElements (exampleComponent 2)] :=
  (ShipRenderContext.RenderEnd_stressed_spring_passes
    (exampleContext DebugShipRenderMode.None ShipRenderMode.Texture true)).trans rfl

/-- Claim C12, counterexample: with `showStressedSprings` enabled, two connected
components and the debug mode `Points`, `RenderEnd` executes no stressed-spring pass. -/
theorem ShipRenderContext.RenderEnd_no_stressed_springs_in_debug_mode :
    (exampleContext DebugShipRenderMode.Points ShipRenderMode.Structure true).mShowStressedSprings
      = true
    ∧ (exampleContext DebugShipRenderMode.Points ShipRenderMode.Structure true
        ).mConnectedComponents.length = 2
    ∧ (exampleContext DebugShipRenderMode.Points ShipRenderMode.Structure true).RenderEnd.filter
        RenderEndStep.isStressedSpringPass = [] := by
  refine ⟨rfl, rfl, ?_⟩
  decide

/-! ## The final passes of `RenderEnd` -/

/-- The loop body of `RenderEnd` executes neither the ephemeral-point pass nor the vector
pass. -/
theorem ShipRenderContext.RenderEnd_component_no_final_pass (ctx : ShipRenderContext) (c : Nat) (cc : ConnectedComponentData) :
    ∀ step ∈ ctx.RenderEnd_component c cc,
      step ≠ RenderEndStep.RenderEphemeralPoints ∧ step ≠ RenderEndStep.RenderVectors := by
  intro step hstep
  unfold ShipRenderContext.RenderEnd_component at hstep
  simp only [List.mem_append] at hstep
  rcases hstep with (((((h | h) | h) | h) | h) | h) | h <;>
    (split at h <;> simp at h
     subst h
     simp)

/-- The loop of `RenderEnd` executes neither the ephemeral-point pass nor the vector
pass. -/
theorem ShipRenderContext.RenderEnd_loop_no_final_pass (ctx : ShipRenderContext) (components : List ConnectedComponentData) :
    ∀ c, ∀ step ∈ ctx.RenderEnd_loop c components,
      step ≠ RenderEndStep.RenderEphemeralPoints ∧ step ≠ RenderEndStep.RenderVectors := by
  induction components with
  | nil => intro c step h; simp [ShipRenderContext.RenderEnd_loop] at h
  | cons cc rest ih =>
    intro c step h
    simp only [ShipRenderContext.RenderEnd_loop, List.mem_append] at h
    rcases h with h | h
    · exact ShipRenderContext.RenderEnd_component_no_final_pass ctx c cc step h
    · exact ih (c + 1) step h

/-- Claim C17: `ShipRenderContext::RenderEnd` is the loop over the connected components,
then the update of the statistics and the ephemeral-point pass, then the vector pass when
the vector field mode is not `None`. The passes of the loop are never the ephemeral-point
or the vector pass, so both come after every component pass; the ephemeral-point pass is
executed exactly once, and the vector pass exactly once when the vector field mode is
not `None` and not at all when it is `None`. -/
theorem ShipRenderContext.RenderEnd_ephemeral_points_and_vectors_last (ctx : ShipRenderContext) :
    ctx.RenderEnd
        = [RenderEndStep.glDisableVertexAttribArray 0]
          ++ ctx.RenderEnd_loop 0 ctx.mConnectedComponents
          ++ [RenderEndStep.addLastRenderedShipConnectedComponents
                ctx.mConnectedComponents.length,
              RenderEndStep.RenderEphemeralPoints]
          ++ (if ctx.mVectorFieldRenderMode = VectorFieldRenderMode.None then []
              else [RenderEndStep.RenderVectors])
    ∧ (∀ step ∈ ctx.RenderEnd_loop 0 ctx.mConnectedComponents,
        step ≠ RenderEndStep.RenderEphemeralPoints ∧ step ≠ RenderEndStep.RenderVectors)
    ∧ ctx.RenderEnd.count RenderEndStep.RenderEphemeralPoints = 1
    ∧ ctx.RenderEnd.count RenderEndStep.RenderVectors
        = (if ctx.mVectorFieldRenderMode = VectorFieldRenderMode.None then 0 else 1) := by
  have hloop := ShipRenderContext.RenderEnd_loop_no_final_pass ctx ctx.mConnectedComponents 0
  have hE : (ctx.RenderEnd_loop 0 ctx.mConnectedComponents).count
      RenderEndStep.RenderEphemeralPoints = 0 :=
    List.count_eq_zero.mpr (fun h => (hloop _ h).1 rfl)
  have hV : (ctx.RenderEnd_loop 0 ctx.mConnectedComponents).count
      RenderEndStep.RenderVectors = 0 :=
    List.count_eq_zero.mpr (fun h => (hloop _ h).2 rfl)
  refine ⟨?_, hloop, ?_, ?_⟩
  · unfold ShipRenderContext.RenderEnd
    by_cases h : ctx.mVectorFieldRenderMode = VectorFieldRenderMode.None <;> simp [h]
  · unfold ShipRenderContext.RenderEnd
    by_cases h : ctx.mVectorFieldRenderMode = VectorFieldRenderMode.None <;>
      simp [h, List.count_append, List.count_cons, hE]
  · unfold ShipRenderContext.RenderEnd
    by_cases h : ctx.mVectorFieldRenderMode = VectorFieldRenderMode.None <;>
      simp [h, List.count_append, List.count_cons, hV]

/-- Claim C17, worked example: in the example context, whose vector field mode is `None`,
`RenderEnd` executes the ephemeral-point pass once and the vector pass not at all. -/
theorem ShipRenderContext.RenderEnd_ephemeral_points_and_vectors_last_witness :
    (exampleContext DebugShipRenderMode.None ShipRenderMode.Texture true).RenderEnd.count
        RenderEndStep.RenderEphemeralPoints = 1
    ∧ (exampleContext DebugShipRenderMode.None ShipRenderMode.Texture true).RenderEnd.count
        RenderEndStep.RenderVectors = 0 :=
  ⟨(ShipRenderContext.RenderEnd_ephemeral_points_and_vectors_last
      (exampleContext DebugShipRenderMode.None ShipRenderMode.Texture true)).2.2.1,
    by decide⟩

/-! ## The water level threshold -/

/-- Claim C14: `ShipRenderContext::UpdateWaterLevelThreshold` stores
`2.0 + waterLevelOfDetail * (0.01 - 2.0)`: the threshold is `2` for `0` and `0.01` for `1`,
it is an affine function of the argument, strictly decreasing, and it takes `[0, 1]` into
`[0.01, 2]`. Floats are exact rationals here. -/
theorem ShipRenderContext.UpdateWaterLevelThreshold_affine_decreasing (ctx : ShipRenderContext) :
    (∀ x : ℚ, (ctx.UpdateWaterLevelThreshold x).mWaterLevelThreshold
        = 2 + x * (1 / 100 - 2))
    ∧ (ctx.UpdateWaterLevelThreshold 0).mWaterLevelThreshold = 2
    ∧ (ctx.UpdateWaterLevelThreshold 1).mWaterLevelThreshold = 1 / 100
    ∧ (∀ x : ℚ, (ctx.UpdateWaterLevelThreshold x).mWaterLevelThreshold
        = (ctx.UpdateWaterLevelThreshold 0).mWaterLevelThreshold
          + x * ((ctx.UpdateWaterLevelThreshold 1).mWaterLevelThreshold
            - (ctx.UpdateWaterLevelThreshold 0).mWaterLevelThreshold))
    ∧ (∀ x y : ℚ, x < y →
        (ctx.UpdateWaterLevelThreshold y).mWaterLevelThreshold
          < (ctx.UpdateWaterLevelThreshold x).mWaterLevelThreshold)
    ∧ (∀ x : ℚ, 0 ≤ x → x ≤ 1 →
        1 / 100 ≤ (ctx.UpdateWaterLevelThreshold x).mWaterLevelThreshold
        ∧ (ctx.UpdateWaterLevelThreshold x).mWaterLevelThreshold ≤ 2) := by
  simp only [ShipRenderContext.UpdateWaterLevelThreshold]
  refine ⟨?_, ?_, ?_, ?_, ?_, ?_⟩
  · intro x; ring
  · norm_num
  · norm_num
  · intro x; ring
  · intro x y h; nlinarith
  · intro x h0 h1; constructor <;> nlinarith

/-- Claim C14, worked example: the level of detail `1 / 2` gives the threshold
`2 + 1 / 2 * (1 / 100 - 2)`, which is `201 / 200`. -/
theorem ShipRenderContext.UpdateWaterLevelThreshold_affine_decreasing_witness :
    ((exampleContext DebugShipRenderMode.None ShipRenderMode.Texture
        true).UpdateWaterLevelThreshold (1 / 2)).mWaterLevelThreshold = 201 / 200 := by
  rw [(ShipRenderContext.UpdateWaterLevelThreshold_affine_decreasing
    (exampleContext DebugShipRenderMode.None ShipRenderMode.Texture true)).1 (1 / 2)]
  norm_num

/-! ## The programs of the spring and triangle passes -/

/-- No call modelled here changes the ship texture. -/
theorem ShipRenderContext.call_texture (G : GameParameters) (M : FloatFunctions)
    (state : ShipRenderContext × Resources) (c : ShipRenderContext.Call) :
    (ShipRenderContext.call G M state c).1.mElementShipTexture = state.1.mElementShipTexture := by
  cases c <;> rfl

/-- No sequence of calls changes the ship texture. -/
theorem ShipRenderContext.run_texture (G : GameParameters) (M : FloatFunctions)
    (calls : List ShipRenderContext.Call) :
    ∀ state : ShipRenderContext × Resources,
      (ShipRenderContext.run G M state calls).1.mElementShipTexture
        = state.1.mElementShipTexture := by
  induction calls with
  | nil => intro state; rfl
  | cons c rest ih =>
    intro state
    simp only [ShipRenderContext.run, List.foldl_cons] at ih ⊢
    rw [ih, ShipRenderContext.call_texture]

/-- The texture flags that the loop body of `RenderEnd` passes to the spring pass and to
the triangle pass. -/
theorem ShipRenderContext.RenderEnd_component_flags (ctx : ShipRenderContext) (c : Nat) (cc : ConnectedComponentData) :
    ∀ step ∈ ctx.RenderEnd_component c cc,
      (∀ cc' wt, step = RenderEndStep.RenderSpringElements cc' wt →
        wt = decide (ctx.mDebugShipRenderMode = DebugShipRenderMode.None
          ∧ ctx.mShipRenderMode = ShipRenderMode.Texture))
      ∧ (∀ cc' wt, step = RenderEndStep.RenderTriangleElements cc' wt →
        wt = decide (ctx.mShipRenderMode = ShipRenderMode.Texture)) := by
  intro step hstep
  unfold ShipRenderContext.RenderEnd_component at hstep
  simp only [List.mem_append] at hstep
  rcases hstep with (((((h | h) | h) | h) | h) | h) | h <;>
    (split at h <;> simp at h
     subst h
     simp)

/-- The texture flags that the loop of `RenderEnd` passes to the spring pass and to the
triangle pass. -/
theorem ShipRenderContext.RenderEnd_loop_flags (ctx : ShipRenderContext) (components : List ConnectedComponentData) :
    ∀ c, ∀ step ∈ ctx.RenderEnd_loop c components,
      (∀ cc' wt, step = RenderEndStep.RenderSpringElements cc' wt →
        wt = decide (ctx.mDebugShipRenderMode = DebugShipRenderMode.None
          ∧ ctx.mShipRenderMode = ShipRenderMode.Texture))
      ∧ (∀ cc' wt, step = RenderEndStep.RenderTriangleElements cc' wt →
        wt = decide (ctx.mShipRenderMode = ShipRenderMode.Texture)) := by
  induction components with
  | nil => intro c step h; simp [ShipRenderContext.RenderEnd_loop] at h
  | cons cc rest ih =>
    intro c step h
    simp only [ShipRenderContext.RenderEnd_loop, List.mem_append] at h
    rcases h with h | h
    · exact ShipRenderContext.RenderEnd_component_flags ctx c cc step h
    · exact ih (c + 1) step h

/-- The texture flags that `RenderEnd` passes to the spring pass and to the triangle
pass. -/
theorem ShipRenderContext.RenderEnd_flags (ctx : ShipRenderContext) :
    ∀ step ∈ ctx.RenderEnd,
      (∀ cc' wt, step = RenderEndStep.RenderSpringElements cc' wt →
        wt = decide (ctx.mDebugShipRenderMode = DebugShipRenderMode.None
          ∧ ctx.mShipRenderMode = ShipRenderMode.Texture))
      ∧ (∀ cc' wt, step = RenderEndStep.RenderTriangleElements cc' wt →
        wt = decide (ctx.mShipRenderMode = ShipRenderMode.Texture)) := by
  intro step h
  unfold ShipRenderContext.RenderEnd at h
  simp only [List.mem_append, List.mem_singleton] at h
  rcases h with (((h | h) | h) | h) | h
  · subst h; simp
  · exact ShipRenderContext.RenderEnd_loop_flags ctx _ 0 step h
  · subst h; simp
  · subst h; simp
  · split at h <;> simp at h
    subst h; simp

/-- The program that `RenderSpringElements` activates: the texture program when a texture
is requested and the ship texture is present, the colour program otherwise. -/
theorem ShipRenderContext.RenderSpringElements_programs (ctx : ShipRenderContext) (cc : ConnectedComponentData) (wt : Bool) :
    PassStep.programs (ctx.RenderSpringElements cc wt)
      = [if wt = true ∧ ctx.mElementShipTexture ≠ none then ProgramType.ShipTrianglesTexture
         else ProgramType.ShipTrianglesColor] := by
  unfold ShipRenderContext.RenderSpringElements
  by_cases h : wt = true ∧ ctx.mElementShipTexture ≠ none <;>
    simp [h, PassStep.programs]

/-- The program that `RenderTriangleElements` activates: the texture program when a
texture is requested and the ship texture is present, the colour program otherwise. -/
theorem ShipRenderContext.RenderTriangleElements_programs (ctx : ShipRenderContext) (cc : ConnectedComponentData) (wt : Bool) :
    PassStep.programs (ctx.RenderTriangleElements cc wt)
      = [if wt = true ∧ ctx.mElementShipTexture ≠ none then ProgramType.ShipTrianglesTexture
         else ProgramType.ShipTrianglesColor] := by
  unfold ShipRenderContext.RenderTriangleElements
  by_cases h : wt = true ∧ ctx.mElementShipTexture ≠ none <;>
  by_cases hw : ctx.mDebugShipRenderMode = DebugShipRenderMode.Wireframe <;>
    simp [h, hw, PassStep.programs]

/-- Claim C16: in every context reached from the constructor by any sequence of calls the
ship texture is present, and every spring pass and every triangle pass that `RenderEnd`
executes activates exactly one program, following the decision table. Springs: the colour
program under the debug modes `Springs` and `EdgeSprings` (any ship mode) and under no
debug mode with the ship mode `Structure`; the texture program under no debug mode with
the ship mode `Texture`. Triangles: the colour program under no debug mode with the ship
mode `Structure`; the texture program under no debug mode with the ship mode
`Texture`. -/
theorem ShipRenderContext.spring_and_triangle_programs_follow_table (G : GameParameters) (M : FloatFunctions)
    (canvasToVisibleWorldHeightRatio waterLevelOfDetail : ℚ)
    (shipRenderMode : ShipRenderMode) (debugShipRenderMode : DebugShipRenderMode)
    (vectorFieldRenderMode : VectorFieldRenderMode) (showStressedSprings : Bool)
    (r : Resources) (calls : List ShipRenderContext.Call) (ctx : ShipRenderContext)
    (hrun : (ShipRenderContext.run G M
        (ShipRenderContext.new canvasToVisibleWorldHeightRatio waterLevelOfDetail shipRenderMode
          debugShipRenderMode vectorFieldRenderMode showStressedSprings r) calls).1 = ctx) :
    ctx.mElementShipTexture ≠ none
    ∧ ∀ step ∈ ctx.RenderEnd,
      (∀ cc wt, step = RenderEndStep.RenderSpringElements cc wt →
        (ctx.mDebugShipRenderMode = DebugShipRenderMode.Springs
            ∨ ctx.mDebugShipRenderMode = DebugShipRenderMode.EdgeSprings →
          PassStep.programs (ctx.RenderSpringElements cc wt) = [ProgramType.ShipTrianglesColor])
        ∧ (ctx.mDebugShipRenderMode = DebugShipRenderMode.None →
            ctx.mShipRenderMode = ShipRenderMode.Structure →
          PassStep.programs (ctx.RenderSpringElements cc wt) = [ProgramType.ShipTrianglesColor])
        ∧ (ctx.mDebugShipRenderMode = DebugShipRenderMode.None →
            ctx.mShipRenderMode = ShipRenderMode.Texture →
          PassStep.programs (ctx.RenderSpringElements cc wt)
            = [ProgramType.ShipTrianglesTexture]))
      ∧ (∀ cc wt, step = RenderEndStep.RenderTriangleElements cc wt →
        (ctx.mDebugShipRenderMode = DebugShipRenderMode.None →
            ctx.mShipRenderMode = ShipRenderMode.Structure →
          PassStep.programs (ctx.RenderTriangleElements cc wt)
            = [ProgramType.ShipTrianglesColor])
        ∧ (ctx.mDebugShipRenderMode = DebugShipRenderMode.None →
            ctx.mShipRenderMode = ShipRenderMode.Texture →
          PassStep.programs (ctx.RenderTriangleElements cc wt)
            = [ProgramType.ShipTrianglesTexture])) := by
  have htex : ctx.mElementShipTexture ≠ none := by
    rw [← hrun, ShipRenderContext.run_texture]
    simp [ShipRenderContext.new, ShipRenderContext.UpdateShowStressedSprings,
      ShipRenderContext.UpdateVectorFieldRenderMode, ShipRenderContext.UpdateDebugShipRenderMode,
      ShipRenderContext.UpdateShipRenderMode, ShipRenderContext.UpdateWaterLevelThreshold,
      ShipRenderContext.UpdateVisibleWorldCoordinates]
  refine ⟨htex, ?_⟩
  intro step hstep
  obtain ⟨hs, ht⟩ := ShipRenderContext.RenderEnd_flags ctx step hstep
  constructor
  · intro cc wt hcc
    have hwt := hs cc wt hcc
    rw [ShipRenderContext.RenderSpringElements_programs]
    refine ⟨?_, ?_, ?_⟩
    · intro hd
      rcases hd with hd | hd <;> simp [hwt, hd]
    · intro hd hm; simp [hwt, hd, hm]
    · intro hd hm; simp [hwt, hd, hm, htex]
  · intro cc wt hcc
    have hwt := ht cc wt hcc
    rw [ShipRenderContext.RenderTriangleElements_programs]
    refine ⟨?_, ?_⟩
    · intro hd hm; simp [hwt, hm]
    · intro hd hm; simp [hwt, hm, htex]

/-- Claim C16, worked example: a context constructed with the ship mode `Texture` and no
debug mode, after a frame that declares one component: the ship texture is present, and
the spring pass and the triangle pass of the component activate the texture program. -/
theorem ShipRenderContext.spring_and_triangle_programs_follow_table_witness :
    ∃ ctx cc,
      (ShipRenderContext.run exampleGameParameters exampleFloatFunctions
        (exampleNewContext ShipRenderMode.Texture)
        [.RenderStart [5], .UploadElementsStart]).1 = ctx
      ∧ ctx.mConnectedComponents = [cc]
      ∧ ctx.mElementShipTexture ≠ none
      ∧ PassStep.programs (ctx.RenderSpringElements cc true)
          = [ProgramType.ShipTrianglesTexture]
      ∧ PassStep.programs (ctx.RenderTriangleElements cc true)
          = [ProgramType.ShipTrianglesTexture] := by
  refine ⟨_, _, rfl, rfl, ?_⟩
  have h := ShipRenderContext.spring_and_triangle_programs_follow_table
    exampleGameParameters exampleFloatFunctions 1 0 ShipRenderMode.Texture
    DebugShipRenderMode.None VectorFieldRenderMode.None false exampleResources
    [.RenderStart [5], .UploadElementsStart] _ rfl
  refine ⟨h.1, ?_, ?_⟩
  · exact ((h.2 (RenderEndStep.RenderSpringElements _ true) (by decide)).1 _ true rfl).2.2
      rfl rfl
  · exact ((h.2 (RenderEndStep.RenderTriangleElements _ true) (by decide)).2 _ true rfl).2
      rfl rfl

/-! ## The vector arrows -/

/-- The arrow buffer after one more iteration of the loop of `UploadVectors`. -/
theorem ShipRenderContext.UploadVectors_loop_succ (M : FloatFunctions) (position vector : Nat → vec2f) (la : ℚ) (n : Nat) :
    (List.range (n + 1)).foldl
        (fun buffer i => buffer ++ ShipRenderContext.UploadVectors_arrow M position vector la i) []
      = (List.range n).foldl
          (fun buffer i => buffer ++ ShipRenderContext.UploadVectors_arrow M position vector la i) []
        ++ ShipRenderContext.UploadVectors_arrow M position vector la n := by
  rw [List.range_succ, List.foldl_append]
  rfl

/-- The loop of `UploadVectors` pushes six positions per iteration. -/
theorem ShipRenderContext.UploadVectors_loop_length (M : FloatFunctions) (position vector : Nat → vec2f) (la : ℚ) (n : Nat) :
    ((List.range n).foldl
        (fun buffer i => buffer ++ ShipRenderContext.UploadVectors_arrow M position vector la i)
        []).length = 6 * n := by
  induction n with
  | zero => rfl
  | succ n ih =>
    rw [ShipRenderContext.UploadVectors_loop_succ, List.length_append, ih]
    simp [ShipRenderContext.UploadVectors_arrow]
    omega

/-- The six positions of the arrow `i` are at the indices `6 * i`, ..., `6 * i + 5` of the
arrow buffer. -/
theorem ShipRenderContext.UploadVectors_loop_get (M : FloatFunctions) (position vector : Nat → vec2f) (la : ℚ) (n : Nat) :
    ∀ i, i < n → ∀ k, k < 6 →
      ((List.range n).foldl
        (fun buffer i => buffer ++ ShipRenderContext.UploadVectors_arrow M position vector la i)
        [])[6 * i + k]?
      = (ShipRenderContext.UploadVectors_arrow M position vector la i)[k]? := by
  induction n with
  | zero => intro i hi; omega
  | succ n ih =>
    intro i hi k hk
    rw [ShipRenderContext.UploadVectors_loop_succ]
    by_cases h : i < n
    · rw [List.getElem?_append_left (by rw [ShipRenderContext.UploadVectors_loop_length]; omega)]
      exact ih i h k hk
    · have hin : i = n := by omega
      subst hin
      rw [List.getElem?_append_right (by rw [ShipRenderContext.UploadVectors_loop_length]; omega), ShipRenderContext.UploadVectors_loop_length]
      congr 1
      omega

/-- Claim C20: after `ShipRenderContext::UploadVectors` with `count` vectors the arrow buffer
holds `6 * count` positions, and for every `i < count` the entry `6 * i` is `position[i]`,
the entry `6 * i + 1` is the stem endpoint `position[i] + vector[i] * lengthAdjustment`, and
the entries `6 * i + 2` and `6 * i + 4` are the stem endpoint too. -/
theorem ShipRenderContext.UploadVectors_arrow_endpoints (M : FloatFunctions) (ctx : ShipRenderContext) (count : Nat)
    (position vector : Nat → vec2f) (lengthAdjustment : ℚ) (color : vec4f) :
    (ShipRenderContext.UploadVectors M ctx count position vector lengthAdjustment
        color).mVectorArrowPointPositionBuffer.length = 6 * count
    ∧ ∀ i, i < count →
      (ShipRenderContext.UploadVectors M ctx count position vector lengthAdjustment
          color).mVectorArrowPointPositionBuffer[6 * i]? = some (position i)
      ∧ (ShipRenderContext.UploadVectors M ctx count position vector lengthAdjustment
          color).mVectorArrowPointPositionBuffer[6 * i + 1]?
        = some (position i + (vector i).scale lengthAdjustment)
      ∧ (ShipRenderContext.UploadVectors M ctx count position vector lengthAdjustment
          color).mVectorArrowPointPositionBuffer[6 * i + 2]?
        = some (position i + (vector i).scale lengthAdjustment)
      ∧ (ShipRenderContext.UploadVectors M ctx count position vector lengthAdjustment
          color).mVectorArrowPointPositionBuffer[6 * i + 4]?
        = some (position i + (vector i).scale lengthAdjustment) := by
  refine ⟨ShipRenderContext.UploadVectors_loop_length M position vector lengthAdjustment count, ?_⟩
  intro i hi
  have h := ShipRenderContext.UploadVectors_loop_get M position vector lengthAdjustment count i hi
  refine ⟨?_, ?_, ?_, ?_⟩
  · have := h 0 (by omega)
    simpa [ShipRenderContext.UploadVectors, ShipRenderContext.UploadVectors_arrow] using this
  · have := h 1 (by omega)
    simpa [ShipRenderContext.UploadVectors, ShipRenderContext.UploadVectors_arrow] using this
  · have := h 2 (by omega)
    simpa [ShipRenderContext.UploadVectors, ShipRenderContext.UploadVectors_arrow] using this
  · have := h 4 (by omega)
    simpa [ShipRenderContext.UploadVectors, ShipRenderContext.UploadVectors_arrow] using this

/-- Claim C20, worked example: two vectors, at the positions `(0, 0)` and `(1, 1)`, both
`(2, 0)`, with the length adjustment `1 / 2`: the buffer holds twelve positions, and the
entries `6` and `7` are `(1, 1)` and the stem endpoint `(2, 1)`. -/
theorem ShipRenderContext.UploadVectors_arrow_endpoints_witness :
    (ShipRenderContext.UploadVectors exampleFloatFunctions
        (exampleContext DebugShipRenderMode.None ShipRenderMode.Texture true) 2
        (fun i => ⟨i, i⟩) (fun _ => ⟨2, 0⟩) (1 / 2)
        ⟨1, 0, 0, 1⟩).mVectorArrowPointPositionBuffer.length = 12
    ∧ (ShipRenderContext.UploadVectors exampleFloatFunctions
        (exampleContext DebugShipRenderMode.None ShipRenderMode.Texture true) 2
        (fun i => ⟨i, i⟩) (fun _ => ⟨2, 0⟩) (1 / 2)
        ⟨1, 0, 0, 1⟩).mVectorArrowPointPositionBuffer[6 * 1]? = some ⟨(1 : ℕ), (1 : ℕ)⟩ := by
  have h := ShipRenderContext.UploadVectors_arrow_endpoints exampleFloatFunctions
    (exampleContext DebugShipRenderMode.None ShipRenderMode.Texture true) 2
    (fun i => ⟨i, i⟩) (fun _ => ⟨2, 0⟩) (1 / 2) ⟨1, 0, 0, 1⟩
  exact ⟨h.1, (h.2 1 (by decide)).1⟩

/-! ## The element buffers -/

/-- The slot after its preparation: no elements, the declared maximum count, a new array
when the maximum count was another one, a new buffer object when there was none. -/
theorem ElementSlot.prepare_fst (slot : ElementSlot) (m : Nat) (r : Resources) :
    (slot.prepare m r).1
      = { elementCount := 0
          elementMaxCount := m
          elementBuffer :=
            if slot.elementMaxCount ≠ m then some ⟨r.allocatedArrays, m⟩ else slot.elementBuffer
          elementVBO :=
            if slot.elementVBO = none then some (r.generatedBuffers + 1) else slot.elementVBO } := by
  unfold ElementSlot.prepare
  by_cases h1 : slot.elementMaxCount ≠ m <;> by_cases h2 : slot.elementVBO = none <;>
    simp [h1, h2, Resources.newArray, Resources.glGenBuffers]
  · exact not_not.mp h1
  · exact not_not.mp h1

/-- The resources after the preparation of a slot. -/
theorem ElementSlot.prepare_snd (slot : ElementSlot) (m : Nat) (r : Resources) :
    (slot.prepare m r).2
      = { allocatedArrays := r.allocatedArrays + (if slot.elementMaxCount ≠ m then 1 else 0)
          generatedBuffers := r.generatedBuffers + (if slot.elementVBO = none then 1 else 0)
          generatedTextures := r.generatedTextures } := by
  unfold ElementSlot.prepare
  by_cases h1 : slot.elementMaxCount ≠ m <;> by_cases h2 : slot.elementVBO = none <;>
    simp [h1, h2, Resources.newArray, Resources.glGenBuffers]

/-- Every slot of a component record is prepared with the maximum count declared for its
kind of element. -/
theorem ShipRenderContext.UploadElementsStart_component_slots (G : GameParameters) (m : Nat) (cc : ConnectedComponentData)
    (r : Resources) :
    ∀ (k : Nat) (slot : ElementSlot) (declared : Nat), cc.slots[k]? = some slot → (G.maxCounts m)[k]? = some declared →
      ∃ rk, r.allocatedArrays ≤ rk.allocatedArrays
        ∧ (ShipRenderContext.UploadElementsStart_component G m cc r).1.slots[k]?
          = some (slot.prepare declared rk).1 := by
  intro k slot declared hs hd
  rcases k with _ | _ | _ | _ | _ | k
  all_goals
    first
    | (simp only [ConnectedComponentData.slots, GameParameters.maxCounts,
        List.getElem?_cons_succ, List.getElem?_cons_zero, Option.some.injEq] at hs hd
       subst hs hd
       refine ⟨_, ?_, rfl⟩
       try simp only [ElementSlot.prepare_snd]
       repeat (first | exact Nat.le_refl _ | apply Nat.le_add_right_of_le))
    | simp [ConnectedComponentData.slots] at hs

/-- Preparing a component record never gives an array back. -/
theorem ShipRenderContext.UploadElementsStart_component_allocated (G : GameParameters) (m : Nat) (cc : ConnectedComponentData)
    (r : Resources) :
    r.allocatedArrays
      ≤ (ShipRenderContext.UploadElementsStart_component G m cc r).2.allocatedArrays := by
  simp only [ShipRenderContext.UploadElementsStart_component, ElementSlot.prepare_snd]
  repeat (first | exact Nat.le_refl _ | apply Nat.le_add_right_of_le)

/-- The loop of `UploadElementsStart` keeps the number of records. -/
theorem ShipRenderContext.UploadElementsStart_loop_length (G : GameParameters) :
    ∀ (sizes : List Nat) (comps : List ConnectedComponentData) (r : Resources),
      (ShipRenderContext.UploadElementsStart_loop G sizes comps r).1.length = comps.length := by
  intro sizes
  induction sizes with
  | nil => intro comps r; simp [ShipRenderContext.UploadElementsStart_loop]
  | cons m rest ih =>
    intro comps r
    cases comps with
    | nil => simp [ShipRenderContext.UploadElementsStart_loop]
    | cons cc ccs => simp [ShipRenderContext.UploadElementsStart_loop, ih]

/-- The loop of `UploadElementsStart` prepares the record at every index with the maximum
size declared at that index. -/
theorem ShipRenderContext.UploadElementsStart_loop_get (G : GameParameters) :
    ∀ (sizes : List Nat) (comps : List ConnectedComponentData) (r : Resources) (c m : Nat)
      (cc : ConnectedComponentData), sizes[c]? = some m → comps[c]? = some cc →
      ∃ rc, r.allocatedArrays ≤ rc.allocatedArrays
        ∧ (ShipRenderContext.UploadElementsStart_loop G sizes comps r).1[c]?
          = some (ShipRenderContext.UploadElementsStart_component G m cc rc).1 := by
  intro sizes
  induction sizes with
  | nil => intro comps r c m cc hs; simp at hs
  | cons m0 rest ih =>
    intro comps r c m cc hs hc
    cases comps with
    | nil => simp at hc
    | cons cc0 ccs =>
      cases c with
      | zero =>
        simp only [List.getElem?_cons_zero, Option.some.injEq] at hs hc
        subst hs hc
        exact ⟨r, Nat.le_refl _, by simp [ShipRenderContext.UploadElementsStart_loop]⟩
      | succ c =>
        simp only [List.getElem?_cons_succ] at hs hc
        obtain ⟨rc, hle, h⟩ := ih ccs
          (ShipRenderContext.UploadElementsStart_component G m0 cc0 r).2 c m cc hs hc
        exact ⟨rc, Nat.le_trans (ShipRenderContext.UploadElementsStart_component_allocated G m0 cc0 r) hle,
          by simpa [ShipRenderContext.UploadElementsStart_loop] using h⟩

/-- After the loop of `UploadElementsStart` every record is a prepared record. -/
theorem ShipRenderContext.UploadElementsStart_loop_mem (G : GameParameters) :
    ∀ (sizes : List Nat) (comps : List ConnectedComponentData) (r : Resources),
      sizes.length = comps.length →
      ∀ cc' ∈ (ShipRenderContext.UploadElementsStart_loop G sizes comps r).1,
        ∃ m cc rc, cc' = (ShipRenderContext.UploadElementsStart_component G m cc rc).1 := by
  intro sizes
  induction sizes with
  | nil =>
    intro comps r hlen cc' h
    cases comps with
    | nil => simp [ShipRenderContext.UploadElementsStart_loop] at h
    | cons _ _ => simp at hlen
  | cons m0 rest ih =>
    intro comps r hlen cc' h
    cases comps with
    | nil => simp at hlen
    | cons cc0 ccs =>
      simp only [ShipRenderContext.UploadElementsStart_loop, List.mem_cons] at h
      rcases h with h | h
      · exact ⟨m0, cc0, r, h⟩
      · exact ih ccs _ (by simpa using hlen) cc' h

/-- A prepared record has no elements of any kind. -/
theorem ShipRenderContext.UploadElementsStart_component_counts (G : GameParameters) (m : Nat) (cc : ConnectedComponentData)
    (r : Resources) :
    (ShipRenderContext.UploadElementsStart_component G m cc r).1.pointElementCount = 0
    ∧ (ShipRenderContext.UploadElementsStart_component G m cc r).1.springElementCount = 0
    ∧ (ShipRenderContext.UploadElementsStart_component G m cc r).1.ropeElementCount = 0
    ∧ (ShipRenderContext.UploadElementsStart_component G m cc r).1.triangleElementCount = 0
    ∧ (ShipRenderContext.UploadElementsStart_component G m cc r).1.stressedSpringElementCount
        = 0 := by
  simp [ShipRenderContext.UploadElementsStart_component, ElementSlot.prepare_fst]

/-- The records after `RenderStart` followed by `UploadElementsStart`. -/
theorem ShipRenderContext.UploadElementsStart_after_RenderStart (G : GameParameters) (ctx : ShipRenderContext) (sizes : List Nat)
    (r : Resources) :
    (ShipRenderContext.UploadElementsStart G (ctx.RenderStart sizes) r).1.mConnectedComponents
      = (ShipRenderContext.UploadElementsStart_loop G sizes
          (if sizes.length ≠ ctx.mConnectedComponents.length then
            List.replicate sizes.length ConnectedComponentData.initial
           else ctx.mConnectedComponents) r).1 := rfl

/-- The records after `UploadElementsStart`. -/
theorem ShipRenderContext.UploadElementsStart_components (G : GameParameters)
    (ctx : ShipRenderContext) (r : Resources) :
    (ShipRenderContext.UploadElementsStart G ctx r).1.mConnectedComponents
      = (ShipRenderContext.UploadElementsStart_loop G ctx.mConnectedComponentsMaxSizes
          (if ctx.mConnectedComponentsMaxSizes.length ≠ ctx.mConnectedComponents.length then
            List.replicate ctx.mConnectedComponentsMaxSizes.length
              ConnectedComponentData.initial
           else ctx.mConnectedComponents) r).1 := rfl

/-- Claim C19: after every call of `ShipRenderContext::UploadElementsStart`, whatever the
records held before, there are as many records as maximum sizes stored by `RenderStart`
(so, right after `RenderStart(sizes)`, as many as `sizes` has entries), and the point,
spring, rope, triangle and stressed-spring counts of every record are `0`. -/
theorem ShipRenderContext.UploadElementsStart_resets_counts (G : GameParameters)
    (ctx : ShipRenderContext) (sizes : List Nat) (r : Resources) :
    (ShipRenderContext.UploadElementsStart G ctx r).1.mConnectedComponents.length
        = ctx.mConnectedComponentsMaxSizes.length
    ∧ (ShipRenderContext.UploadElementsStart G (ctx.RenderStart sizes)
        r).1.mConnectedComponents.length = sizes.length
    ∧ ∀ cc ∈ (ShipRenderContext.UploadElementsStart G ctx r).1.mConnectedComponents,
      cc.pointElementCount = 0 ∧ cc.springElementCount = 0 ∧ cc.ropeElementCount = 0
      ∧ cc.triangleElementCount = 0 ∧ cc.stressedSpringElementCount = 0 := by
  have hlen : ∀ ctx : ShipRenderContext, ctx.mConnectedComponentsMaxSizes.length
      = (if ctx.mConnectedComponentsMaxSizes.length ≠ ctx.mConnectedComponents.length then
          List.replicate ctx.mConnectedComponentsMaxSizes.length
            ConnectedComponentData.initial
         else ctx.mConnectedComponents).length := by
    intro ctx
    split
    · simp
    · rename_i h; exact not_not.mp h
  have hcount : ∀ ctx : ShipRenderContext,
      (ShipRenderContext.UploadElementsStart G ctx r).1.mConnectedComponents.length
        = ctx.mConnectedComponentsMaxSizes.length := by
    intro ctx
    rw [ShipRenderContext.UploadElementsStart_components,
      ShipRenderContext.UploadElementsStart_loop_length]
    exact (hlen ctx).symm
  refine ⟨hcount ctx, hcount (ctx.RenderStart sizes), ?_⟩
  intro cc hcc
  rw [ShipRenderContext.UploadElementsStart_components] at hcc
  obtain ⟨m, cc0, rc, rfl⟩ :=
    ShipRenderContext.UploadElementsStart_loop_mem G _ _ r (hlen ctx) cc hcc
  exact ShipRenderContext.UploadElementsStart_component_counts G m cc0 rc

/-- Claim C19, worked example: the example context holds two records with one and two
elements of every kind; after `RenderStart` with three maximum sizes and
`UploadElementsStart` there are three records, all without elements. -/
theorem ShipRenderContext.UploadElementsStart_resets_counts_witness :
    (ShipRenderContext.UploadElementsStart exampleGameParameters
        ((exampleContext DebugShipRenderMode.None ShipRenderMode.Texture false).RenderStart
          [4, 5, 6]) exampleResources).1.mConnectedComponents.length = 3
    ∧ (ShipRenderContext.UploadElementsStart exampleGameParameters
        ((exampleContext DebugShipRenderMode.None ShipRenderMode.Texture false).RenderStart
          [4, 5, 6]) exampleResources).1.mConnectedComponents.map
          (fun cc => [cc.pointElementCount, cc.springElementCount, cc.ropeElementCount,
            cc.triangleElementCount, cc.stressedSpringElementCount])
        = [[0, 0, 0, 0, 0], [0, 0, 0, 0, 0], [0, 0, 0, 0, 0]] :=
  ⟨(ShipRenderContext.UploadElementsStart_resets_counts exampleGameParameters
      (exampleContext DebugShipRenderMode.None ShipRenderMode.Texture false) [4, 5, 6]
      exampleResources).2.1, by decide⟩

/-- A frame that declares as many components as there are records prepares every slot of
every record in place. -/
theorem ShipRenderContext.UploadElementsStart_slot (G : GameParameters) (ctx : ShipRenderContext) (sizes : List Nat)
    (r : Resources) (hsame : sizes.length = ctx.mConnectedComponents.length)
    (c m : Nat) (cc : ConnectedComponentData) (k : Nat) (slot : ElementSlot) (declared : Nat)
    (hcc : ctx.mConnectedComponents[c]? = some cc) (hm : sizes[c]? = some m)
    (hslot : cc.slots[k]? = some slot) (hdeclared : (G.maxCounts m)[k]? = some declared) :
    ∃ cc' rk, r.allocatedArrays ≤ rk.allocatedArrays
      ∧ (ShipRenderContext.UploadElementsStart G (ctx.RenderStart sizes)
          r).1.mConnectedComponents[c]? = some cc'
      ∧ cc'.slots[k]? = some (slot.prepare declared rk).1 := by
  rw [ShipRenderContext.UploadElementsStart_after_RenderStart, if_neg (not_not.mpr hsame)]
  obtain ⟨rc, hrc, h⟩ := ShipRenderContext.UploadElementsStart_loop_get G sizes ctx.mConnectedComponents r c m cc hm hcc
  obtain ⟨rk, hrk, h2⟩ := ShipRenderContext.UploadElementsStart_component_slots G m cc rc k slot declared hslot hdeclared
  exact ⟨_, rk, Nat.le_trans hrc hrk, h, h2⟩

/-- Claim C18: a frame (`RenderStart` followed by `UploadElementsStart`) that declares as
many components as there are records discards no record: the number of records is the
same, and the record at every index is the record that was there, with each of its five
slots (points, springs, ropes, triangles, stressed springs) keeping its buffer object
handle if it had one and, when the maximum declared for the slot is the maximum count it
had, its buffer and its maximum count. -/
theorem ShipRenderContext.UploadElementsStart_keeps_records (G : GameParameters)
    (ctx : ShipRenderContext) (sizes : List Nat) (r : Resources)
    (hsame : sizes.length = ctx.mConnectedComponents.length) :
    (ShipRenderContext.UploadElementsStart G (ctx.RenderStart sizes)
        r).1.mConnectedComponents.length = ctx.mConnectedComponents.length
    ∧ ∀ (c m : Nat) (cc : ConnectedComponentData),
        ctx.mConnectedComponents[c]? = some cc → sizes[c]? = some m →
        ∃ cc', (ShipRenderContext.UploadElementsStart G (ctx.RenderStart sizes)
            r).1.mConnectedComponents[c]? = some cc'
          ∧ ∀ (k : Nat) (slot : ElementSlot) (declared : Nat),
              cc.slots[k]? = some slot → (G.maxCounts m)[k]? = some declared →
              ∃ slot', cc'.slots[k]? = some slot'
                ∧ (∀ handle, slot.elementVBO = some handle → slot'.elementVBO = some handle)
                ∧ (slot.elementMaxCount = declared →
                    slot'.elementBuffer = slot.elementBuffer
                    ∧ slot'.elementMaxCount = slot.elementMaxCount) := by
  refine ⟨by rw [ShipRenderContext.UploadElementsStart_after_RenderStart,
    if_neg (not_not.mpr hsame), ShipRenderContext.UploadElementsStart_loop_length], ?_⟩
  intro c m cc hcc hm
  rw [ShipRenderContext.UploadElementsStart_after_RenderStart, if_neg (not_not.mpr hsame)]
  obtain ⟨rc, _, h⟩ :=
    ShipRenderContext.UploadElementsStart_loop_get G sizes ctx.mConnectedComponents r c m cc
      hm hcc
  refine ⟨_, h, ?_⟩
  intro k slot declared hslot hdeclared
  obtain ⟨rk, _, h2⟩ :=
    ShipRenderContext.UploadElementsStart_component_slots G m cc rc k slot declared hslot
      hdeclared
  refine ⟨_, h2, ?_, ?_⟩
  · intro handle hh
    simp [ElementSlot.prepare_fst, hh]
  · intro hd
    simp [ElementSlot.prepare_fst, hd]

/-- Claim C18, worked example: the example context holds two records; a frame declaring
the maximum sizes `1` and `7` keeps two records, the first with the point buffer, the point
capacity and the five buffer object handles it had. -/
theorem ShipRenderContext.UploadElementsStart_keeps_records_witness :
    [1, 7].length
        = (exampleContext DebugShipRenderMode.None ShipRenderMode.Texture false
            ).mConnectedComponents.length
    ∧ (ShipRenderContext.UploadElementsStart exampleGameParameters
        ((exampleContext DebugShipRenderMode.None ShipRenderMode.Texture false).RenderStart
          [1, 7]) exampleResources).1.mConnectedComponents.length = 2
    ∧ (ShipRenderContext.UploadElementsStart exampleGameParameters
        ((exampleContext DebugShipRenderMode.None ShipRenderMode.Texture false).RenderStart
          [1, 7]) exampleResources).1.mConnectedComponents[0]?.map
          (fun cc => (cc.pointElementBuffer, cc.pointElementMaxCount,
            cc.slots.map ElementSlot.elementVBO))
        = some (some ⟨5, 1⟩, 1, [some 5, some 6, some 7, some 8, some 9]) :=
  ⟨rfl, (ShipRenderContext.UploadElementsStart_keeps_records exampleGameParameters
      (exampleContext DebugShipRenderMode.None ShipRenderMode.Texture false) [1, 7]
      exampleResources rfl).1, by decide⟩

/-- Claim C13, amended: in a frame (`RenderStart` followed by `UploadElementsStart`)
that declares as many components as there are records, every slot of every record ends
with the maximum count declared for it in this frame, whether that is more or less than
before; the slot keeps its buffer when the declared maximum is the maximum count it had,
and gets a newly allocated array of the declared size exactly when the two differ. -/
theorem ShipRenderContext.UploadElementsStart_capacity_follows_declared_maximum
    (G : GameParameters) (ctx : ShipRenderContext) (sizes : List Nat)
    (r : Resources) (hsame : sizes.length = ctx.mConnectedComponents.length)
    (c m : Nat) (cc : ConnectedComponentData) (k : Nat) (slot : ElementSlot) (declared : Nat)
    (hcc : ctx.mConnectedComponents[c]? = some cc) (hm : sizes[c]? = some m)
    (hslot : cc.slots[k]? = some slot) (hdeclared : (G.maxCounts m)[k]? = some declared) :
    ∃ cc' slot', (ShipRenderContext.UploadElementsStart G (ctx.RenderStart sizes)
          r).1.mConnectedComponents[c]? = some cc'
      ∧ cc'.slots[k]? = some slot'
      ∧ slot'.elementMaxCount = declared
      ∧ (slot.elementMaxCount = declared → slot'.elementBuffer = slot.elementBuffer)
      ∧ (slot.elementMaxCount ≠ declared →
          ∃ allocation, r.allocatedArrays ≤ allocation
            ∧ slot'.elementBuffer = some ⟨allocation, declared⟩) := by
  obtain ⟨cc', rk, hrk, h, h2⟩ :=
    ShipRenderContext.UploadElementsStart_slot G ctx sizes r hsame c m cc k slot declared hcc
      hm hslot hdeclared
  refine ⟨cc', _, h, h2, ?_, ?_, ?_⟩
  · simp [ElementSlot.prepare_fst]
  · intro hd
    simp [ElementSlot.prepare_fst, hd]
  · intro hd
    exact ⟨rk.allocatedArrays, hrk, by simp [ElementSlot.prepare_fst, hd]⟩

/-- Claim C13, worked example of the amended claim: the second record of the example
context has room for two points; a frame declaring the maximum sizes `1` and `1` leaves it
with a maximum point count of `1`. -/
theorem ShipRenderContext.UploadElementsStart_capacity_follows_declared_maximum_witness :
    ∃ cc' slot', (ShipRenderContext.UploadElementsStart exampleGameParameters
          ((exampleContext DebugShipRenderMode.None ShipRenderMode.Texture false).RenderStart
            [1, 1]) exampleResources).1.mConnectedComponents[1]? = some cc'
      ∧ cc'.slots[0]? = some slot'
      ∧ slot'.elementMaxCount = 1 := by
  obtain ⟨cc', slot', h1, h2, h3, -⟩ :=
    ShipRenderContext.UploadElementsStart_capacity_follows_declared_maximum
      exampleGameParameters
      (exampleContext DebugShipRenderMode.None ShipRenderMode.Texture false) [1, 1]
      exampleResources rfl 1 1 (exampleComponent 2) 0
      ⟨2, 2, some ⟨10, 2⟩, some 10⟩ 1 rfl rfl rfl rfl
  exact ⟨cc', slot', h1, h2, h3⟩

/-- Claim C13, counterexample: on a newly constructed context, three frames that each
declare one component, with the maximum sizes `5`, `5` and `3`. After the second frame the
point buffer of the component is the array allocated first, with room for `5` points;
after the third frame, which declares a smaller maximum, it is a newly allocated array
with room for `3` points: the capacity decreased, and the buffer was reallocated in a
frame whose declared maximum is not larger than the capacity. -/
theorem ShipRenderContext.UploadElementsStart_shrinks_capacity :
    (ShipRenderContext.run exampleGameParameters exampleFloatFunctions
        (exampleNewContext ShipRenderMode.Texture)
        [.RenderStart [5], .UploadElementsStart,
         .RenderStart [5], .UploadElementsStart]).1.mConnectedComponents.map
        (fun cc => (cc.pointElementMaxCount, cc.pointElementBuffer))
      = [(5, some ⟨0, 5⟩)]
    ∧ (ShipRenderContext.run exampleGameParameters exampleFloatFunctions
        (exampleNewContext ShipRenderMode.Texture)
        [.RenderStart [5], .UploadElementsStart,
         .RenderStart [5], .UploadElementsStart,
         .RenderStart [3], .UploadElementsStart]).1.mConnectedComponents.map
        (fun cc => (cc.pointElementMaxCount, cc.pointElementBuffer))
      = [(3, some ⟨5, 3⟩)] := by
  decide

/-! ## The rope pass -/

/-- The rope passes of the loop body of `RenderEnd` for one component: the pass before
the triangles and the pass after the triangles, each under its condition. -/
theorem ShipRenderContext.RenderEnd_component_rope (ctx : ShipRenderContext) (c : Nat)
    (cc : ConnectedComponentData) :
    (ctx.RenderEnd_component c cc).filter RenderEndStep.isRopePass
      = (if ctx.mDebugShipRenderMode = DebugShipRenderMode.Springs
            ∨ ctx.mDebugShipRenderMode = DebugShipRenderMode.EdgeSprings
            ∨ (ctx.mDebugShipRenderMode = DebugShipRenderMode.None
              ∧ ctx.mShipRenderMode = ShipRenderMode.Texture) then
          [RenderEndStep.RenderRopeElements cc] else [])
        ++ (if ctx.mDebugShipRenderMode = DebugShipRenderMode.None
            ∧ ctx.mShipRenderMode = ShipRenderMode.Structure then
          [RenderEndStep.RenderRopeElements cc] else []) := by
  unfold ShipRenderContext.RenderEnd_component
  by_cases hg : c < ctx.mGenericTextureConnectedComponents.length <;>
  cases hd : ctx.mDebugShipRenderMode <;> cases hs : ctx.mShipRenderMode <;>
  cases hst : ctx.mShowStressedSprings <;>
  simp [hg, List.filter_cons, RenderEndStep.isRopePass]

/-- The rope passes of the loop of `RenderEnd`: the passes of the components, one
component after the other. -/
theorem ShipRenderContext.RenderEnd_loop_rope (ctx : ShipRenderContext)
    (components : List ConnectedComponentData) :
    ∀ c, (ctx.RenderEnd_loop c components).filter RenderEndStep.isRopePass
      = components.flatMap (fun cc =>
          (ctx.RenderEnd_component c cc).filter RenderEndStep.isRopePass) := by
  induction components with
  | nil => intro c; simp [ShipRenderContext.RenderEnd_loop]
  | cons cc rest ih =>
    intro c
    simp only [ShipRenderContext.RenderEnd_loop, List.filter_append, ih (c + 1),
      List.flatMap_cons]
    congr 1
    apply List.flatMap_congr
    intro cc' _
    rw [ShipRenderContext.RenderEnd_component_rope, ShipRenderContext.RenderEnd_component_rope]

/-- Claim C23: for every debug mode, ship mode and setting of the stressed springs, the
condition of the rope pass before the triangles and the condition of the rope pass after
the triangles are never both true; the loop body of `ShipRenderContext::RenderEnd`
executes the two rope passes each under its condition, so at most one rope pass for the
component; and `RenderEnd` as a whole executes, for every component, as many rope passes
as its loop body does. -/
theorem ShipRenderContext.RenderEnd_rope_pass_at_most_once (ctx : ShipRenderContext) :
    ¬ ((ctx.mDebugShipRenderMode = DebugShipRenderMode.Springs
          ∨ ctx.mDebugShipRenderMode = DebugShipRenderMode.EdgeSprings
          ∨ (ctx.mDebugShipRenderMode = DebugShipRenderMode.None
            ∧ ctx.mShipRenderMode = ShipRenderMode.Texture))
        ∧ (ctx.mDebugShipRenderMode = DebugShipRenderMode.None
          ∧ ctx.mShipRenderMode = ShipRenderMode.Structure))
    ∧ (∀ (c : Nat) (cc : ConnectedComponentData),
        (ctx.RenderEnd_component c cc).filter RenderEndStep.isRopePass
          = (if ctx.mDebugShipRenderMode = DebugShipRenderMode.Springs
                ∨ ctx.mDebugShipRenderMode = DebugShipRenderMode.EdgeSprings
                ∨ (ctx.mDebugShipRenderMode = DebugShipRenderMode.None
                  ∧ ctx.mShipRenderMode = ShipRenderMode.Texture) then
              [RenderEndStep.RenderRopeElements cc] else [])
            ++ (if ctx.mDebugShipRenderMode = DebugShipRenderMode.None
                ∧ ctx.mShipRenderMode = ShipRenderMode.Structure then
              [RenderEndStep.RenderRopeElements cc] else [])
        ∧ ((ctx.RenderEnd_component c cc).filter RenderEndStep.isRopePass).length ≤ 1)
    ∧ ctx.RenderEnd.filter RenderEndStep.isRopePass
        = ctx.mConnectedComponents.flatMap (fun cc =>
            (ctx.RenderEnd_component 0 cc).filter RenderEndStep.isRopePass)
    ∧ (ctx.RenderEnd.filter RenderEndStep.isRopePass).length
        ≤ ctx.mConnectedComponents.length := by
  have hcomponent : ∀ (c : Nat) (cc : ConnectedComponentData),
      ((ctx.RenderEnd_component c cc).filter RenderEndStep.isRopePass).length ≤ 1 := by
    intro c cc
    rw [ShipRenderContext.RenderEnd_component_rope]
    cases hd : ctx.mDebugShipRenderMode <;> cases hs : ctx.mShipRenderMode <;> simp
  have hall : ctx.RenderEnd.filter RenderEndStep.isRopePass
      = ctx.mConnectedComponents.flatMap (fun cc =>
          (ctx.RenderEnd_component 0 cc).filter RenderEndStep.isRopePass) := by
    rw [← ShipRenderContext.RenderEnd_loop_rope]
    unfold ShipRenderContext.RenderEnd
    by_cases h : ctx.mVectorFieldRenderMode ≠ VectorFieldRenderMode.None
    · simp [List.filter_append, List.filter_cons, RenderEndStep.isRopePass, h]
    · simp [List.filter_append, List.filter_cons, RenderEndStep.isRopePass, h]
  refine ⟨?_, fun c cc => ⟨ShipRenderContext.RenderEnd_component_rope ctx c cc,
    hcomponent c cc⟩, hall, ?_⟩
  · rintro ⟨h1, h2, h3⟩
    rcases h1 with h | h | ⟨-, h⟩
    · rw [h2] at h; cases h
    · rw [h2] at h; cases h
    · rw [h3] at h; cases h
  · rw [hall]
    have : ∀ comps : List ConnectedComponentData,
        (comps.flatMap (fun cc =>
          (ctx.RenderEnd_component 0 cc).filter RenderEndStep.isRopePass)).length
          ≤ comps.length := by
      intro comps
      induction comps with
      | nil => simp
      | cons cc rest ih =>
        simp only [List.flatMap_cons, List.length_append, List.length_cons]
        have := hcomponent 0 cc
        omega
    exact this _

/-- Claim C23, worked example: without a debug mode and with the ship mode `Structure`
the rope passes of `RenderEnd` for two components are one pass for the first and one pass
for the second component. -/
theorem ShipRenderContext.RenderEnd_rope_pass_at_most_once_witness :
    (exampleContext DebugShipRenderMode.None ShipRenderMode.Structure true).RenderEnd.filter
        RenderEndStep.isRopePass
      = [RenderEndStep.RenderRopeElements (exampleComponent 1),
         RenderEndStep.RenderRopeElements (exampleComponent 2)] :=
  (ShipRenderContext.RenderEnd_rope_pass_at_most_once
    (exampleContext DebugShipRenderMode.None ShipRenderMode.Structure true)).2.2.1.trans
      (by decide)

/-! ## The element buffers: maximum counts and repeated calls -/

/-- The maximum counts of a prepared record. -/
theorem ShipRenderContext.UploadElementsStart_component_maxCounts (G : GameParameters)
    (m : Nat) (cc : ConnectedComponentData) (r : Resources) :
    (ShipRenderContext.UploadElementsStart_component G m cc r).1.pointElementMaxCount = m
    ∧ (ShipRenderContext.UploadElementsStart_component G m cc r).1.springElementMaxCount
        = m * G.MaxSpringsPerPoint
    ∧ (ShipRenderContext.UploadElementsStart_component G m cc r).1.ropeElementMaxCount
        = m * G.MaxSpringsPerPoint
    ∧ (ShipRenderContext.UploadElementsStart_component G m cc r).1.triangleElementMaxCount
        = m * G.MaxTrianglesPerPoint
    ∧ (ShipRenderContext.UploadElementsStart_component G m cc r
        ).1.stressedSpringElementMaxCount = m * G.MaxSpringsPerPoint := by
  simp [ShipRenderContext.UploadElementsStart_component, ElementSlot.prepare_fst]

/-- The records on which the loop of `UploadElementsStart` runs are as many as the
declared maximum sizes. -/
theorem ShipRenderContext.UploadElementsStart_resized_length (ctx : ShipRenderContext) :
    (if ctx.mConnectedComponentsMaxSizes.length ≠ ctx.mConnectedComponents.length then
        List.replicate ctx.mConnectedComponentsMaxSizes.length ConnectedComponentData.initial
      else ctx.mConnectedComponents).length = ctx.mConnectedComponentsMaxSizes.length := by
  split
  · simp
  · rename_i h; exact (not_not.mp h).symm

/-- Claim C27: after `ShipRenderContext::UploadElementsStart`, for every index `c` of
the stored maximum sizes, with `m = mConnectedComponentsMaxSizes[c]`, there is a record
`mConnectedComponents[c]`, and its maximum counts are `m` for the points,
`m * MaxSpringsPerPoint` for the springs, the ropes and the stressed springs, and
`m * MaxTrianglesPerPoint` for the triangles. -/
theorem ShipRenderContext.UploadElementsStart_maximum_counts (G : GameParameters)
    (ctx : ShipRenderContext) (r : Resources) (c m : Nat)
    (hm : ctx.mConnectedComponentsMaxSizes[c]? = some m) :
    ∃ cc, (ShipRenderContext.UploadElementsStart G ctx r).1.mConnectedComponents[c]? = some cc
      ∧ cc.pointElementMaxCount = m
      ∧ cc.springElementMaxCount = m * G.MaxSpringsPerPoint
      ∧ cc.ropeElementMaxCount = m * G.MaxSpringsPerPoint
      ∧ cc.stressedSpringElementMaxCount = m * G.MaxSpringsPerPoint
      ∧ cc.triangleElementMaxCount = m * G.MaxTrianglesPerPoint := by
  have hc : c < ctx.mConnectedComponentsMaxSizes.length := (List.getElem?_eq_some.mp hm).1
  have hlen := ShipRenderContext.UploadElementsStart_resized_length ctx
  obtain ⟨cc0, hcc0⟩ : ∃ cc0,
      (if ctx.mConnectedComponentsMaxSizes.length ≠ ctx.mConnectedComponents.length then
        List.replicate ctx.mConnectedComponentsMaxSizes.length ConnectedComponentData.initial
      else ctx.mConnectedComponents)[c]? = some cc0 :=
    ⟨_, List.getElem?_eq_getElem (by rw [hlen]; exact hc)⟩
  obtain ⟨rc, -, h⟩ := ShipRenderContext.UploadElementsStart_loop_get G
    ctx.mConnectedComponentsMaxSizes _ r c m cc0 hm hcc0
  rw [ShipRenderContext.UploadElementsStart_components]
  obtain ⟨h1, h2, h3, h4, h5⟩ :=
    ShipRenderContext.UploadElementsStart_component_maxCounts G m cc0 rc
  exact ⟨_, h, h1, h2, h3, h5, h4⟩

/-- Claim C27, worked example: after a frame that declares the maximum sizes `1` and `7`
with nine springs and eight triangles per point, the second record has the maximum
counts `7`, `63`, `63`, `56` and `63`. -/
theorem ShipRenderContext.UploadElementsStart_maximum_counts_witness :
    ∃ cc, (ShipRenderContext.UploadElementsStart exampleGameParameters
          ((exampleContext DebugShipRenderMode.None ShipRenderMode.Texture false).RenderStart
            [1, 7]) exampleResources).1.mConnectedComponents[1]? = some cc
      ∧ cc.pointElementMaxCount = 7
      ∧ cc.springElementMaxCount = 7 * 9
      ∧ cc.ropeElementMaxCount = 7 * 9
      ∧ cc.stressedSpringElementMaxCount = 7 * 9
      ∧ cc.triangleElementMaxCount = 7 * 8 :=
  ShipRenderContext.UploadElementsStart_maximum_counts exampleGameParameters
    ((exampleContext DebugShipRenderMode.None ShipRenderMode.Texture false).RenderStart
      [1, 7]) exampleResources 1 7 rfl

/-- Preparing a prepared record again, for the same maximum size, changes neither the
record nor the resources. -/
theorem ShipRenderContext.UploadElementsStart_component_again (G : GameParameters)
    (m : Nat) (cc : ConnectedComponentData) (r r' : Resources) :
    ShipRenderContext.UploadElementsStart_component G m
        (ShipRenderContext.UploadElementsStart_component G m cc r).1 r'
      = ((ShipRenderContext.UploadElementsStart_component G m cc r).1, r') := by
  cases r'
  simp only [ShipRenderContext.UploadElementsStart_component, ElementSlot.prepare_fst,
    ElementSlot.prepare_snd]
  cases cc.pointElementVBO <;> cases cc.springElementVBO <;> cases cc.ropeElementVBO <;>
    cases cc.triangleElementVBO <;> cases cc.stressedSpringElementVBO <;> simp

/-- Running the loop of `UploadElementsStart` again on its result, for the same maximum
sizes, changes neither the records nor the resources. -/
theorem ShipRenderContext.UploadElementsStart_loop_again (G : GameParameters) :
    ∀ (sizes : List Nat) (comps : List ConnectedComponentData) (r r' : Resources),
      ShipRenderContext.UploadElementsStart_loop G sizes
          (ShipRenderContext.UploadElementsStart_loop G sizes comps r).1 r'
        = ((ShipRenderContext.UploadElementsStart_loop G sizes comps r).1, r') := by
  intro sizes
  induction sizes with
  | nil => intro comps r r'; simp [ShipRenderContext.UploadElementsStart_loop]
  | cons m rest ih =>
    intro comps r r'
    cases comps with
    | nil => simp [ShipRenderContext.UploadElementsStart_loop]
    | cons cc ccs =>
      simp only [ShipRenderContext.UploadElementsStart_loop,
        ShipRenderContext.UploadElementsStart_component_again, ih]

/-- A call of `UploadElementsStart` on a context that holds as many records as maximum
sizes, and whose records the loop leaves as they are, changes nothing. -/
theorem ShipRenderContext.UploadElementsStart_fixed (G : GameParameters)
    (ctx : ShipRenderContext) (r : Resources)
    (hlen : ctx.mConnectedComponentsMaxSizes.length = ctx.mConnectedComponents.length)
    (hloop : ShipRenderContext.UploadElementsStart_loop G ctx.mConnectedComponentsMaxSizes
      ctx.mConnectedComponents r = (ctx.mConnectedComponents, r)) :
    ShipRenderContext.UploadElementsStart G ctx r = (ctx, r) := by
  unfold ShipRenderContext.UploadElementsStart
  simp only [if_neg (not_not.mpr hlen), hloop]

/-- Claim C25: for every context and every state of the resources, a second call of
`ShipRenderContext::UploadElementsStart` right after the first gives the context and the
resources that the first call gave: no array is allocated, no buffer object is generated,
and the records (capacities, counts, buffers, handles) are those after the first call.
The same holds for the records and the resources when `RenderStart` is called in between
with the maximum sizes already stored. -/
theorem ShipRenderContext.UploadElementsStart_twice (G : GameParameters)
    (ctx : ShipRenderContext) (r : Resources) :
    ShipRenderContext.UploadElementsStart G (ShipRenderContext.UploadElementsStart G ctx r).1
        (ShipRenderContext.UploadElementsStart G ctx r).2
      = ShipRenderContext.UploadElementsStart G ctx r
    ∧ (ShipRenderContext.UploadElementsStart G
          ((ShipRenderContext.UploadElementsStart G ctx r).1.RenderStart
            ctx.mConnectedComponentsMaxSizes)
          (ShipRenderContext.UploadElementsStart G ctx r).2).1.mConnectedComponents
        = (ShipRenderContext.UploadElementsStart G ctx r).1.mConnectedComponents
    ∧ (ShipRenderContext.UploadElementsStart G
          ((ShipRenderContext.UploadElementsStart G ctx r).1.RenderStart
            ctx.mConnectedComponentsMaxSizes)
          (ShipRenderContext.UploadElementsStart G ctx r).2).2
        = (ShipRenderContext.UploadElementsStart G ctx r).2 := by
  have hlen : ctx.mConnectedComponentsMaxSizes.length
      = (ShipRenderContext.UploadElementsStart G ctx r).1.mConnectedComponents.length := by
    rw [ShipRenderContext.UploadElementsStart_components,
      ShipRenderContext.UploadElementsStart_loop_length,
      ShipRenderContext.UploadElementsStart_resized_length]
  have hloop : ShipRenderContext.UploadElementsStart_loop G ctx.mConnectedComponentsMaxSizes
      (ShipRenderContext.UploadElementsStart G ctx r).1.mConnectedComponents
      (ShipRenderContext.UploadElementsStart G ctx r).2
      = ((ShipRenderContext.UploadElementsStart G ctx r).1.mConnectedComponents,
          (ShipRenderContext.UploadElementsStart G ctx r).2) := by
    rw [ShipRenderContext.UploadElementsStart_components]
    exact ShipRenderContext.UploadElementsStart_loop_again G _ _ r _
  have hfirst := ShipRenderContext.UploadElementsStart_fixed G
    (ShipRenderContext.UploadElementsStart G ctx r).1
    (ShipRenderContext.UploadElementsStart G ctx r).2 hlen hloop
  have hstarted := ShipRenderContext.UploadElementsStart_fixed G
    ((ShipRenderContext.UploadElementsStart G ctx r).1.RenderStart
      ctx.mConnectedComponentsMaxSizes)
    (ShipRenderContext.UploadElementsStart G ctx r).2 hlen hloop
  refine ⟨hfirst, ?_, ?_⟩
  · rw [hstarted]
    rfl
  · rw [hstarted]

/-- Claim C25, worked example: on a newly constructed context, after `RenderStart` with
the maximum sizes `5` and `3`, the first `UploadElementsStart` allocates ten arrays and
generates ten buffer objects; the second one gives the same context and resources. -/
theorem ShipRenderContext.UploadElementsStart_twice_witness :
    (ShipRenderContext.UploadElementsStart exampleGameParameters
        ((exampleNewContext ShipRenderMode.Texture).1.RenderStart [5, 3])
        (exampleNewContext ShipRenderMode.Texture).2).2
      = { allocatedArrays := 10, generatedBuffers := 18, generatedTextures := 2 }
    ∧ ShipRenderContext.UploadElementsStart exampleGameParameters
        (ShipRenderContext.UploadElementsStart exampleGameParameters
          ((exampleNewContext ShipRenderMode.Texture).1.RenderStart [5, 3])
          (exampleNewContext ShipRenderMode.Texture).2).1
        (ShipRenderContext.UploadElementsStart exampleGameParameters
          ((exampleNewContext ShipRenderMode.Texture).1.RenderStart [5, 3])
          (exampleNewContext ShipRenderMode.Texture).2).2
      = ShipRenderContext.UploadElementsStart exampleGameParameters
          ((exampleNewContext ShipRenderMode.Texture).1.RenderStart [5, 3])
          (exampleNewContext ShipRenderMode.Texture).2 :=
  ⟨by decide,
    (ShipRenderContext.UploadElementsStart_twice exampleGameParameters
      ((exampleNewContext ShipRenderMode.Texture).1.RenderStart [5, 3])
      (exampleNewContext ShipRenderMode.Texture).2).1⟩

/-! ## The three arrays of a frame -/

/-- The loop of `UploadElementsStart` with explicit subscripts, started at the index
where the records already prepared end, never leaves its vectors and gives what the loop
over the remaining maximum sizes and records gives. -/
theorem ShipRenderContext.UploadElementsStart_indexed_eq (G : GameParameters) :
    ∀ (later earlier : List Nat) (done remaining : List ConnectedComponentData)
      (r : Resources), done.length = earlier.length → remaining.length = later.length →
      ShipRenderContext.UploadElementsStart_indexed G (earlier ++ later) earlier.length
          later.length (done ++ remaining) r
        = some (done ++ (ShipRenderContext.UploadElementsStart_loop G later remaining r).1,
            (ShipRenderContext.UploadElementsStart_loop G later remaining r).2) := by
  intro later
  induction later with
  | nil =>
    intro earlier done remaining r _ hremaining
    have : remaining = [] := List.length_eq_zero.mp hremaining
    subst this
    simp [ShipRenderContext.UploadElementsStart_indexed,
      ShipRenderContext.UploadElementsStart_loop]
  | cons m later ih =>
    intro earlier done remaining r hdone hremaining
    cases remaining with
    | nil => simp at hremaining
    | cons cc remaining =>
      have hm : (earlier ++ m :: later)[earlier.length]? = some m := by
        rw [List.getElem?_append_right (Nat.le_refl _), Nat.sub_self, List.getElem?_cons_zero]
      have hcc : (done ++ cc :: remaining)[earlier.length]? = some cc := by
        rw [← hdone, List.getElem?_append_right (Nat.le_refl _), Nat.sub_self,
          List.getElem?_cons_zero]
      have hset : ∀ x : ConnectedComponentData,
          (done ++ cc :: remaining).set earlier.length x = (done ++ [x]) ++ remaining := by
        intro x
        rw [← hdone]
        simp
      have hnext := ih (earlier ++ [m]) (done ++ [(ShipRenderContext.UploadElementsStart_component
        G m cc r).1]) remaining (ShipRenderContext.UploadElementsStart_component G m cc r).2
        (by simp [hdone]) (by simpa using hremaining)
      simp only [List.length_cons, ShipRenderContext.UploadElementsStart_indexed, hm, hcc, hset]
      rw [List.append_assoc, List.length_append, List.length_singleton] at hnext
      rw [show earlier ++ ([m] ++ later) = earlier ++ m :: later from rfl] at hnext
      rw [hnext]
      simp [ShipRenderContext.UploadElementsStart_loop]

/-- The subscripts of the loop of `UploadElementsStart` are always inside their vectors:
the checked member function gives what the member function gives. -/
theorem ShipRenderContext.UploadElementsStart_checked_eq (G : GameParameters)
    (ctx : ShipRenderContext) (r : Resources) :
    ShipRenderContext.UploadElementsStart_checked G ctx r
      = some (ShipRenderContext.UploadElementsStart G ctx r) := by
  have h := ShipRenderContext.UploadElementsStart_indexed_eq G
    ctx.mConnectedComponentsMaxSizes [] []
    (if ctx.mConnectedComponentsMaxSizes.length ≠ ctx.mConnectedComponents.length then
        List.replicate ctx.mConnectedComponentsMaxSizes.length ConnectedComponentData.initial
      else ctx.mConnectedComponents) r rfl
    (ShipRenderContext.UploadElementsStart_resized_length ctx)
  simp only [List.nil_append, List.length_nil] at h
  unfold ShipRenderContext.UploadElementsStart_checked
  simp only [h]
  rfl

/-- The generic-texture pass of the loop body of `RenderEnd`, when the guard holds. -/
theorem ShipRenderContext.RenderEnd_component_generic (ctx : ShipRenderContext) (c : Nat)
    (cc : ConnectedComponentData) (hc : c < ctx.mGenericTextureConnectedComponents.length) :
    (ctx.RenderEnd_component c cc).filter RenderEndStep.isGenericTexturesPass
      = [RenderEndStep.RenderGenericTextures (ctx.mGenericTextureConnectedComponents.get
          ⟨c, hc⟩)] := by
  unfold ShipRenderContext.RenderEnd_component
  cases hd : ctx.mDebugShipRenderMode <;> cases hs : ctx.mShipRenderMode <;>
  cases hst : ctx.mShowStressedSprings <;>
  simp [hc, List.filter_cons, RenderEndStep.isGenericTexturesPass]

/-- The generic-texture passes of the loop of `RenderEnd`, when there is a generic-texture
record for every component still to be processed. -/
theorem ShipRenderContext.RenderEnd_loop_generic (ctx : ShipRenderContext) :
    ∀ (components : List ConnectedComponentData) (c : Nat),
      c + components.length ≤ ctx.mGenericTextureConnectedComponents.length →
      (ctx.RenderEnd_loop c components).filter RenderEndStep.isGenericTexturesPass
        = ((ctx.mGenericTextureConnectedComponents.drop c).take components.length).map
            RenderEndStep.RenderGenericTextures := by
  intro components
  induction components with
  | nil => intro c _; simp [ShipRenderContext.RenderEnd_loop]
  | cons cc rest ih =>
    intro c hc
    have hlt : c < ctx.mGenericTextureConnectedComponents.length := by
      simp only [List.length_cons] at hc; omega
    simp only [ShipRenderContext.RenderEnd_loop, List.filter_append,
      ShipRenderContext.RenderEnd_component_generic ctx c cc hlt,
      ih (c + 1) (by simp only [List.length_cons] at hc; omega), List.length_cons]
    rw [List.drop_eq_getElem_cons hlt, List.take_succ_cons, List.map_cons]
    rfl

/-- The generic-texture passes of `RenderEnd`, when there are as many generic-texture
records as component records: one pass for every component, in order. -/
theorem ShipRenderContext.RenderEnd_generic (ctx : ShipRenderContext)
    (hlen : ctx.mConnectedComponents.length = ctx.mGenericTextureConnectedComponents.length) :
    ctx.RenderEnd.filter RenderEndStep.isGenericTexturesPass
      = ctx.mGenericTextureConnectedComponents.map RenderEndStep.RenderGenericTextures := by
  have hloop := ShipRenderContext.RenderEnd_loop_generic ctx ctx.mConnectedComponents 0
    (by omega)
  rw [List.drop_zero, hlen, List.take_length] at hloop
  rw [← hloop]
  unfold ShipRenderContext.RenderEnd
  by_cases h : ctx.mVectorFieldRenderMode ≠ VectorFieldRenderMode.None
  · simp [List.filter_append, List.filter_cons, RenderEndStep.isGenericTexturesPass, h]
  · simp [List.filter_append, List.filter_cons, RenderEndStep.isGenericTexturesPass, h]

/-- A call other than `RenderStart` on a context whose three arrays have the same length
leaves the three lengths as they are. -/
theorem ShipRenderContext.call_keeps_lengths (G : GameParameters) (M : FloatFunctions)
    (state : ShipRenderContext × Resources) (call : ShipRenderContext.Call) (n : Nat)
    (hcall : call.isRenderStart = false)
    (h : state.1.mConnectedComponents.length = n
      ∧ state.1.mGenericTextureConnectedComponents.length = n
      ∧ state.1.mConnectedComponentsMaxSizes.length = n) :
    (ShipRenderContext.call G M state call).1.mConnectedComponents.length = n
    ∧ (ShipRenderContext.call G M state call).1.mGenericTextureConnectedComponents.length = n
    ∧ (ShipRenderContext.call G M state call).1.mConnectedComponentsMaxSizes.length = n := by
  obtain ⟨h1, h2, h3⟩ := h
  cases call with
  | RenderStart sizes => simp [ShipRenderContext.Call.isRenderStart] at hcall
  | UploadElementsStart =>
    refine ⟨?_, h2, h3⟩
    simp only [ShipRenderContext.call]
    rw [ShipRenderContext.UploadElementsStart_components,
      ShipRenderContext.UploadElementsStart_loop_length,
      ShipRenderContext.UploadElementsStart_resized_length, h3]
  | UploadElementStressedSpringsStart =>
    refine ⟨?_, h2, h3⟩
    simp [ShipRenderContext.call, ShipRenderContext.UploadElementStressedSpringsStart, h1]
  | _ => exact ⟨h1, h2, h3⟩

/-- A sequence of calls without `RenderStart` on a context whose three arrays have the
same length leaves the three lengths as they are. -/
theorem ShipRenderContext.run_keeps_lengths (G : GameParameters) (M : FloatFunctions)
    (n : Nat) :
    ∀ (calls : List ShipRenderContext.Call) (state : ShipRenderContext × Resources),
      (∀ call ∈ calls, call.isRenderStart = false) →
      (state.1.mConnectedComponents.length = n
        ∧ state.1.mGenericTextureConnectedComponents.length = n
        ∧ state.1.mConnectedComponentsMaxSizes.length = n) →
      (ShipRenderContext.run G M state calls).1.mConnectedComponents.length = n
      ∧ (ShipRenderContext.run G M state calls).1.mGenericTextureConnectedComponents.length = n
      ∧ (ShipRenderContext.run G M state calls).1.mConnectedComponentsMaxSizes.length = n := by
  intro calls
  induction calls with
  | nil => intro state _ h; exact h
  | cons call rest ih =>
    intro state hcalls h
    simp only [ShipRenderContext.run, List.foldl_cons]
    exact ih _ (fun c hc => hcalls c (List.mem_cons_of_mem _ hc))
      (ShipRenderContext.call_keeps_lengths G M state call n
        (hcalls call (List.mem_cons_self _ _)) h)

/-- Claim C24: after `RenderStart(sizes)` followed by `UploadElementsStart`, and after
any further calls other than `RenderStart`, the component records, the generic-texture
records and the stored maximum sizes are as many as `sizes` has entries. Hence every
subscript `mConnectedComponents[c]` of the loop of `UploadElementsStart` is in bounds
(the member function with checked subscripts succeeds, with the same result); and in
`RenderEnd` the guard `c < mGenericTextureConnectedComponents.size()` holds for every
component, so `RenderEnd` executes the generic-texture pass once for every component, in
order. -/
theorem ShipRenderContext.frame_arrays_have_the_same_length (G : GameParameters)
    (M : FloatFunctions) (ctx : ShipRenderContext) (sizes : List Nat) (r : Resources)
    (later : List ShipRenderContext.Call)
    (hlater : ∀ call ∈ later, call.isRenderStart = false) (ctx' : ShipRenderContext)
    (hrun : (ShipRenderContext.run G M
      (ShipRenderContext.UploadElementsStart G (ctx.RenderStart sizes) r) later).1 = ctx') :
    (ctx'.mConnectedComponents.length = sizes.length
      ∧ ctx'.mGenericTextureConnectedComponents.length = sizes.length
      ∧ ctx'.mConnectedComponentsMaxSizes.length = sizes.length)
    ∧ ShipRenderContext.UploadElementsStart_checked G (ctx.RenderStart sizes) r
        = some (ShipRenderContext.UploadElementsStart G (ctx.RenderStart sizes) r)
    ∧ (∀ c, c < ctx'.mConnectedComponents.length →
        c < ctx'.mGenericTextureConnectedComponents.length)
    ∧ ctx'.RenderEnd.filter RenderEndStep.isGenericTexturesPass
        = ctx'.mGenericTextureConnectedComponents.map RenderEndStep.RenderGenericTextures
    ∧ (ctx'.RenderEnd.filter RenderEndStep.isGenericTexturesPass).length
        = ctx'.mConnectedComponents.length := by
  have hfirst : (ShipRenderContext.UploadElementsStart G (ctx.RenderStart sizes)
        r).1.mConnectedComponents.length = sizes.length
      ∧ (ShipRenderContext.UploadElementsStart G (ctx.RenderStart sizes)
        r).1.mGenericTextureConnectedComponents.length = sizes.length
      ∧ (ShipRenderContext.UploadElementsStart G (ctx.RenderStart sizes)
        r).1.mConnectedComponentsMaxSizes.length = sizes.length := by
    refine ⟨?_, ?_, rfl⟩
    · rw [ShipRenderContext.UploadElementsStart_components,
        ShipRenderContext.UploadElementsStart_loop_length,
        ShipRenderContext.UploadElementsStart_resized_length]
      rfl
    · show (List.replicate sizes.length _).length = sizes.length
      simp
  have hlengths := ShipRenderContext.run_keeps_lengths G M sizes.length later _ hlater hfirst
  rw [hrun] at hlengths
  obtain ⟨h1, h2, h3⟩ := hlengths
  have hgeneric := ShipRenderContext.RenderEnd_generic ctx' (by rw [h1, h2])
  refine ⟨⟨h1, h2, h3⟩, ShipRenderContext.UploadElementsStart_checked_eq G _ r, ?_, hgeneric,
    ?_⟩
  · intro c hc
    rw [h2, ← h1]; exact hc
  · rw [hgeneric, List.length_map, h2, h1]

/-- Claim C24, worked example: on the example context, which holds two records, a frame
declares three components and then resets the stressed springs: the three arrays have
three entries, and `RenderEnd` executes three generic-texture passes. -/
theorem ShipRenderContext.frame_arrays_have_the_same_length_witness :
    ∃ ctx',
      (ShipRenderContext.run exampleGameParameters exampleFloatFunctions
        (ShipRenderContext.UploadElementsStart exampleGameParameters
          ((exampleContext DebugShipRenderMode.None ShipRenderMode.Texture false).RenderStart
            [4, 5, 6]) exampleResources)
        [.UploadElementStressedSpringsStart, .UploadEphemeralPointsStart]).1 = ctx'
      ∧ (ctx'.mConnectedComponents.length = 3
        ∧ ctx'.mGenericTextureConnectedComponents.length = 3
        ∧ ctx'.mConnectedComponentsMaxSizes.length = 3)
      ∧ (ctx'.RenderEnd.filter RenderEndStep.isGenericTexturesPass).length
        = ctx'.mConnectedComponents.length := by
  refine ⟨_, rfl, ?_⟩
  have h := ShipRenderContext.frame_arrays_have_the_same_length exampleGameParameters
    exampleFloatFunctions
    (exampleContext DebugShipRenderMode.None ShipRenderMode.Texture false) [4, 5, 6]
    exampleResources [.UploadElementStressedSpringsStart, .UploadEphemeralPointsStart]
    (by decide) _ rfl
  exact ⟨h.1, h.2.2.2.2⟩

end Render
